import Mathlib

/-!
XDMA sample library (`xdma_lib.c`, `xdma_lib.h`): descriptor builder and engine controller

A shallow embedding of the DMA engine driver.  Machine integers are natural
numbers; every operation that can wrap in C carries an explicit `% 2 ^ w`.
Pointers that the C code tests against `NULL` are `Option`s, a dereference of
`NULL` or an access outside an allocated buffer yields `none`.
-/

namespace Xdma

/-! ## Register map and bit fields (`xdma_lib.h`) -/

def XDMA_CHANNELS_NUM : Nat := 4
def XDMA_CHANNEL_SPACING : Nat := 0x100

/-- The macro `XDMA_CHANNEL_OFFSET(channel, reg)`, in the 32-bit unsigned
arithmetic of its call sites (the channel is a `DWORD`). -/
def XDMA_CHANNEL_OFFSET (channel reg : Nat) : Nat :=
  (reg + channel * XDMA_CHANNEL_SPACING) % 2 ^ 32

def XDMA_CTRL_RUN_STOP : Nat := 1 <<< 0
def XDMA_CTRL_IE_DESC_STOPPED : Nat := 1 <<< 1
def XDMA_CTRL_IE_DESC_COMPLETED : Nat := 1 <<< 2
def XDMA_CTRL_IE_DESC_ALIGN_MISMATCH : Nat := 1 <<< 3
def XDMA_CTRL_IE_MAGIC_STOPPED : Nat := 1 <<< 4
def XDMA_CTRL_IE_IDLE_STOPPED : Nat := 1 <<< 6
def XDMA_CTRL_IE_READ_ERROR : Nat := 0x1F <<< 9
def XDMA_CTRL_IE_DESC_ERROR : Nat := 0x1F <<< 19
def XDMA_CTRL_NON_INCR_ADDR : Nat := 1 <<< 25
def XDMA_CTRL_POLL_MODE_WB : Nat := 1 <<< 26

def XDMA_DESC_STOPPED : Nat := 1 <<< 0
def XDMA_DESC_COMPLETED : Nat := 1 <<< 1
def XDMA_DESC_EOP : Nat := 1 <<< 4

def XDMA_H2C_CHANNEL_CONTROL_OFFSET : Nat := 0x0004
def XDMA_H2C_CHANNEL_STATUS_OFFSET : Nat := 0x0040
def XDMA_H2C_CHANNEL_INT_ENABLE_MASK_OFFSET : Nat := 0x0090
def XDMA_C2H_CHANNEL_CONTROL_OFFSET : Nat := 0x1004
def XDMA_C2H_CHANNEL_STATUS_OFFSET : Nat := 0x1040
def XDMA_C2H_CHANNEL_INT_ENABLE_MASK_OFFSET : Nat := 0x1090
def XDMA_IRQ_BLOCK_CHANNEL_INT_ENABLE_MASK_W1S_OFFSET : Nat := 0x2014
def XDMA_IRQ_BLOCK_CHANNEL_INT_REQUEST_OFFSET : Nat := 0x2044
def XDMA_H2C_SGDMA_DESC_LOW_OFFSET : Nat := 0x4080
def XDMA_H2C_SGDMA_DESC_HIGH_OFFSET : Nat := 0x4084
def XDMA_H2C_SGDMA_DESC_ADJACENT_OFFSET : Nat := 0x4088
def XDMA_C2H_SGDMA_DESC_LOW_OFFSET : Nat := 0x5080
def XDMA_C2H_SGDMA_DESC_HIGH_OFFSET : Nat := 0x5084
def XDMA_C2H_SGDMA_DESC_ADJACENT_OFFSET : Nat := 0x5088

/-! ## Internal definitions (`xdma_lib.c`) -/

/-- The macro `DMA_ADDR_LOW(addr)`: `(UINT32)((addr) & 0xffffffff)`. -/
def DMA_ADDR_LOW (addr : Nat) : Nat := (addr &&& 0xffffffff) % 2 ^ 32

/-- The macro `DMA_ADDR_HIGH(addr)`: `(UINT32)((addr) >> 32)`. -/
def DMA_ADDR_HIGH (addr : Nat) : Nat := (addr >>> 32) % 2 ^ 32

def XDMA_DESC_MAGIC : Nat := 0xAD4B0000

/-- The descriptor `XDMA_DMA_DESC` (32 bytes on the wire). -/
structure XDMA_DMA_DESC where
  u32Control : Nat
  u32Bytes : Nat
  u64SrcAddr : Nat
  u64DstAddr : Nat
  u64NextDesc : Nat
  deriving DecidableEq, Repr

/-- Size in bytes of one descriptor, `sizeof(XDMA_DMA_DESC)`. -/
def sizeof_XDMA_DMA_DESC : Nat := 32

/-- The write-back word `XDMA_DMA_POLL_WB`; the seven reserved words are not modelled. -/
structure XDMA_DMA_POLL_WB where
  u32CompletedDescs : Nat
  deriving DecidableEq, Repr

/-- Modelled from the spec: one entry `(physical address, byte count)` of the
page list of a pin, the type `WD_DMA_PAGE` of the host service (its header
`windrvr.h` is not part of the repository); the address is 64-bit, the byte
count a `DWORD`. -/
structure WD_DMA_PAGE where
  pPhysicalAddr : Nat
  dwBytes : Nat
  deriving DecidableEq, Repr

/-- Modelled from the spec: a pinned buffer of the host service, the type
`WD_DMA` (its header `windrvr.h` is not part of the repository): `Page` holds
the `dwPages` valid entries of the page array. -/
structure WD_DMA where
  Page : List WD_DMA_PAGE
  deriving DecidableEq, Repr

/-- The field `dwPages` of `WD_DMA`: the number of valid pages. -/
def WD_DMA.dwPages (d : WD_DMA) : Nat := d.Page.length

/-- The engine slot / session `XDMA_DMA_STRUCT`.  There is one device, so the
device handle `hDev` is either `NULL` (`false`) or that device (`true`);
`pDescBuf` and `pWBBuf` hold the contents of the buffers they point to.
Functions that are reached through a handle returned by `XDMA_DmaOpen` take
the device of the session as given; the interrupt path, which runs on slots
that may never have been opened, tests `hDev`. -/
structure XDMA_DMA_STRUCT where
  hDev : Bool
  pDma : Option WD_DMA
  pBuf : Nat
  dwBytes : Nat
  u64FPGAOffset : Nat
  dwChannel : Nat
  fToDevice : Bool
  fPolling : Bool
  fStreaming : Bool
  fNonIncMode : Bool
  pDmaDesc : Option WD_DMA
  pDescBuf : Option (List XDMA_DMA_DESC)
  pWBDma : Option WD_DMA
  pWBBuf : Option XDMA_DMA_POLL_WB
  pData : Nat
  u32IrqBitMask : Nat
  fIsInitialized : Bool
  fIsEnabled : Bool
  deriving DecidableEq, Repr

/-- One 32-bit register write issued through `WDC_WriteAddr32`. -/
structure RegWrite where
  dwAddrSpace : Nat
  dwOffset : Nat
  val : Nat
  deriving DecidableEq, Repr

/-! ## Descriptor builder (`DmaTransferBuild`) -/

/-- The local variables of `DmaTransferBuild` that change in its loop. -/
structure BuildState where
  desc : List XDMA_DMA_DESC
  offset : Nat
  desc_phys : Nat
  deriving DecidableEq, Repr

/-- The call `memset(desc_virt, 0, dwSize)`: `dwSize` is a multiple of the
descriptor size, so whole descriptors are cleared; clearing past the end of
the buffer is an out-of-bounds write. -/
def memsetDesc (buf : List XDMA_DMA_DESC) (dwSize : Nat) : Option (List XDMA_DMA_DESC) :=
  let k := dwSize / sizeof_XDMA_DMA_DESC
  if k ≤ buf.length then
    some (List.replicate k ⟨0, 0, 0, 0, 0⟩ ++ buf.drop k)
  else none

/-- One iteration of the loop of `DmaTransferBuild`, at index `i`. -/
def DmaTransferBuild.body (s : XDMA_DMA_STRUCT) (pDma : WD_DMA) (dwPages i : Nat)
    (st : BuildState) : Option BuildState :=
  match pDma.Page[i]?, st.desc[i]? with
  | some page, some d0 =>
    let desc_phys := (st.desc_phys + sizeof_XDMA_DMA_DESC) % 2 ^ 64
    let d1 := { d0 with u32Control := XDMA_DESC_MAGIC }
    let d2 :=
      if s.fToDevice then
        { d1 with u64SrcAddr := page.pPhysicalAddr, u64DstAddr := st.offset }
      else
        { d1 with u64SrcAddr := st.offset, u64DstAddr := page.pPhysicalAddr }
    let d3 := { d2 with u32Bytes := page.dwBytes }
    let offset := if !s.fNonIncMode then (st.offset + d3.u32Bytes) % 2 ^ 64 else st.offset
    let d4 :=
      if i < dwPages - 1 then
        { d3 with u64NextDesc := desc_phys }
      else
        { d3 with u32Control := d3.u32Control |||
            (XDMA_DESC_STOPPED ||| XDMA_DESC_EOP ||| XDMA_DESC_COMPLETED) }
    some { desc := st.desc.set i d4, offset := offset, desc_phys := desc_phys }
  | _, _ => none

/-- The loop `for (i = 0; i < dwPages; i++)` of `DmaTransferBuild`, entered at
index `i` with `n` iterations left to the loop bound. -/
def DmaTransferBuild.loop (s : XDMA_DMA_STRUCT) (pDma : WD_DMA) (dwPages : Nat) :
    Nat → Nat → BuildState → Option BuildState
  | 0, _, st => some st
  | n + 1, i, st =>
    if i < dwPages then
      match DmaTransferBuild.body s pDma dwPages i st with
      | some st1 => DmaTransferBuild.loop s pDma dwPages n (i + 1) st1
      | none => none
    else some st

/-- The function `DmaTransferBuild`: fills the descriptor ring of the session
and programs the SGDMA descriptor-pointer registers of its engine.  Returns
the session with the new contents of the descriptor buffer and the register
writes issued, in order. -/
def DmaTransferBuild (dwConfigBarNum : Nat) (s : XDMA_DMA_STRUCT) :
    Option (XDMA_DMA_STRUCT × List RegWrite) :=
  match s.pDescBuf, s.pDma, s.pDmaDesc with
  | some buf, some pDma, some pDmaDesc =>
    match pDmaDesc.Page[0]? with
    | none => none
    | some page0 =>
      let dwPages := pDma.dwPages
      let dwSize := (dwPages * sizeof_XDMA_DMA_DESC) % 2 ^ 32
      match memsetDesc buf dwSize with
      | none => none
      | some buf0 =>
        match DmaTransferBuild.loop s pDma dwPages dwPages 0
            { desc := buf0, offset := s.u64FPGAOffset, desc_phys := page0.pPhysicalAddr } with
        | none => none
        | some st =>
          some ({ s with pDescBuf := some st.desc },
            [ { dwAddrSpace := dwConfigBarNum,
                dwOffset := XDMA_CHANNEL_OFFSET s.dwChannel
                  (if s.fToDevice then XDMA_H2C_SGDMA_DESC_LOW_OFFSET
                   else XDMA_C2H_SGDMA_DESC_LOW_OFFSET),
                val := DMA_ADDR_LOW page0.pPhysicalAddr },
              { dwAddrSpace := dwConfigBarNum,
                dwOffset := XDMA_CHANNEL_OFFSET s.dwChannel
                  (if s.fToDevice then XDMA_H2C_SGDMA_DESC_HIGH_OFFSET
                   else XDMA_C2H_SGDMA_DESC_HIGH_OFFSET),
                val := DMA_ADDR_HIGH page0.pPhysicalAddr },
              { dwAddrSpace := dwConfigBarNum,
                dwOffset := XDMA_CHANNEL_OFFSET s.dwChannel
                  (if s.fToDevice then XDMA_H2C_SGDMA_DESC_ADJACENT_OFFSET
                   else XDMA_C2H_SGDMA_DESC_ADJACENT_OFFSET),
                val := 0 } ])
  | _, _, _ => none

/-- The three register writes that end `DmaTransferBuild`. -/
def sgdmaWrites (dwConfigBarNum : Nat) (s : XDMA_DMA_STRUCT) (P : Nat) : List RegWrite :=
  [ { dwAddrSpace := dwConfigBarNum,
      dwOffset := XDMA_CHANNEL_OFFSET s.dwChannel
        (if s.fToDevice then XDMA_H2C_SGDMA_DESC_LOW_OFFSET
         else XDMA_C2H_SGDMA_DESC_LOW_OFFSET),
      val := DMA_ADDR_LOW P },
    { dwAddrSpace := dwConfigBarNum,
      dwOffset := XDMA_CHANNEL_OFFSET s.dwChannel
        (if s.fToDevice then XDMA_H2C_SGDMA_DESC_HIGH_OFFSET
         else XDMA_C2H_SGDMA_DESC_HIGH_OFFSET),
      val := DMA_ADDR_HIGH P },
    { dwAddrSpace := dwConfigBarNum,
      dwOffset := XDMA_CHANNEL_OFFSET s.dwChannel
        (if s.fToDevice then XDMA_H2C_SGDMA_DESC_ADJACENT_OFFSET
         else XDMA_C2H_SGDMA_DESC_ADJACENT_OFFSET),
      val := 0 } ]

/-! ## Engine controller (`XDMA_DmaTransferStart`, `XDMA_DmaTransferStop`) -/

/-- Modelled from the spec: the status codes of the host service (their
header `windrvr.h` is not part of the repository).  Only the codes the library
names are told apart, from one another and from every other code. -/
inductive WDStatus where
  | WD_STATUS_SUCCESS
  | WD_INVALID_PARAMETER
  | WD_INSUFFICIENT_RESOURCES
  | WD_OPERATION_ALREADY_DONE
  | WD_OPERATION_FAILED
  | other (code : Nat)
  deriving DecidableEq, Repr

/-- Offset of the control register of the engine of a channel and direction. -/
def ctrlOffset (dwChannel : Nat) (fToDevice : Bool) : Nat :=
  XDMA_CHANNEL_OFFSET dwChannel
    (if fToDevice then XDMA_H2C_CHANNEL_CONTROL_OFFSET else XDMA_C2H_CHANNEL_CONTROL_OFFSET)

/-- The function `EngineCtrlRegisterSet`: one write to the control register of
the engine; `wr` is the status the host service returns for a write. -/
def EngineCtrlRegisterSet (wr : RegWrite → WDStatus) (dwConfigBarNum dwChannel : Nat)
    (fToDevice : Bool) (val : Nat) : WDStatus × List RegWrite :=
  let offset := XDMA_CHANNEL_OFFSET dwChannel
    (if fToDevice then XDMA_H2C_CHANNEL_CONTROL_OFFSET else XDMA_C2H_CHANNEL_CONTROL_OFFSET)
  let w : RegWrite := { dwAddrSpace := dwConfigBarNum, dwOffset := offset, val := val }
  (wr w, [w])

/-- The function `XDMA_ChannelInterruptsEnable`. -/
def XDMA_ChannelInterruptsEnable (wr : RegWrite → WDStatus) (dwConfigBarNum mask : Nat) :
    WDStatus × List RegWrite :=
  let w : RegWrite :=
    { dwAddrSpace := dwConfigBarNum,
      dwOffset := XDMA_IRQ_BLOCK_CHANNEL_INT_ENABLE_MASK_W1S_OFFSET,
      val := mask }
  (wr w, [w])

/-- The function `EnableDmaInterrupts` (built with `HAS_INTS`). -/
def EnableDmaInterrupts (wr : RegWrite → WDStatus) (dwConfigBarNum dwChannel : Nat)
    (fStreaming fToDevice : Bool) : WDStatus × List RegWrite :=
  let val := XDMA_CTRL_IE_DESC_ALIGN_MISMATCH ||| XDMA_CTRL_IE_MAGIC_STOPPED |||
    XDMA_CTRL_IE_READ_ERROR ||| XDMA_CTRL_IE_DESC_ERROR
  let val := val ||| (XDMA_CTRL_IE_DESC_STOPPED ||| XDMA_CTRL_IE_DESC_COMPLETED)
  let val := if fStreaming then val ||| XDMA_CTRL_IE_IDLE_STOPPED else val
  let offset := XDMA_CHANNEL_OFFSET dwChannel
    (if fToDevice then XDMA_H2C_CHANNEL_INT_ENABLE_MASK_OFFSET
     else XDMA_C2H_CHANNEL_INT_ENABLE_MASK_OFFSET)
  let w : RegWrite := { dwAddrSpace := dwConfigBarNum, dwOffset := offset, val := val }
  (WDStatus.WD_STATUS_SUCCESS,
    w :: (XDMA_ChannelInterruptsEnable wr dwConfigBarNum 0xFFFFFFFF).2)

/-- The value `val` that `XDMA_DmaTransferStart` passes to
`EngineCtrlRegisterSet`; `HAS_INTS` is the build flag of that name. -/
def XDMA_DmaTransferStart.val (HAS_INTS : Bool) (s : XDMA_DMA_STRUCT) : Nat :=
  let val := XDMA_CTRL_RUN_STOP ||| XDMA_CTRL_IE_READ_ERROR ||| XDMA_CTRL_IE_DESC_ERROR |||
    XDMA_CTRL_IE_DESC_ALIGN_MISMATCH ||| XDMA_CTRL_IE_MAGIC_STOPPED
  let val :=
    if HAS_INTS && s.fPolling then
      val ||| XDMA_CTRL_POLL_MODE_WB
    else
      let val := val ||| (XDMA_CTRL_IE_DESC_STOPPED ||| XDMA_CTRL_IE_DESC_COMPLETED)
      if s.fStreaming && !s.fToDevice then val ||| XDMA_CTRL_IE_IDLE_STOPPED else val
  if s.fNonIncMode then val ||| XDMA_CTRL_NON_INCR_ADDR else val

/-- The function `XDMA_DmaTransferStart`: returns the status, the session
(whose write-back counter is cleared when polling) and the register writes
issued, in order.  Register reads whose result is discarded and cache
synchronisation are left out. -/
def XDMA_DmaTransferStart (HAS_INTS : Bool) (wr : RegWrite → WDStatus)
    (dwConfigBarNum : Nat) (s : XDMA_DMA_STRUCT) :
    Option (WDStatus × XDMA_DMA_STRUCT × List RegWrite) :=
  let ctrl (s1 : XDMA_DMA_STRUCT) (w1 : List RegWrite) :
      WDStatus × XDMA_DMA_STRUCT × List RegWrite :=
    let r := EngineCtrlRegisterSet wr dwConfigBarNum s.dwChannel s.fToDevice
      (XDMA_DmaTransferStart.val HAS_INTS s)
    if r.1 ≠ WDStatus.WD_STATUS_SUCCESS then (r.1, s1, w1 ++ r.2)
    else (WDStatus.WD_STATUS_SUCCESS, s1, w1 ++ r.2)
  if HAS_INTS && !s.fPolling then
    let e := EnableDmaInterrupts wr dwConfigBarNum s.dwChannel s.fStreaming s.fToDevice
    if e.1 ≠ WDStatus.WD_STATUS_SUCCESS then some (e.1, s, e.2)
    else some (ctrl s e.2)
  else
    match s.pWBBuf with
    | none => none
    | some pWB =>
      let pWB1 : XDMA_DMA_POLL_WB := { pWB with u32CompletedDescs := 0 }
      some (ctrl { s with pWBBuf := some pWB1 } [])

/-- The value `val` that `XDMA_DmaTransferStop` passes to `EngineCtrlRegisterSet`. -/
def XDMA_DmaTransferStop.val (s : XDMA_DMA_STRUCT) : Nat :=
  let val := XDMA_CTRL_IE_DESC_ALIGN_MISMATCH ||| XDMA_CTRL_IE_MAGIC_STOPPED |||
    XDMA_CTRL_IE_READ_ERROR ||| XDMA_CTRL_IE_DESC_ERROR
  if s.fPolling then
    val ||| XDMA_CTRL_POLL_MODE_WB
  else
    let val := val ||| (XDMA_CTRL_IE_DESC_STOPPED ||| XDMA_CTRL_IE_DESC_COMPLETED)
    if s.fStreaming && !s.fToDevice then val ||| XDMA_CTRL_IE_IDLE_STOPPED else val

/-- The function `XDMA_DmaTransferStop`: the status and the register write issued. -/
def XDMA_DmaTransferStop (wr : RegWrite → WDStatus) (dwConfigBarNum : Nat)
    (s : XDMA_DMA_STRUCT) : WDStatus × List RegWrite :=
  EngineCtrlRegisterSet wr dwConfigBarNum s.dwChannel s.fToDevice (XDMA_DmaTransferStop.val s)

/-- The values written, in order, to the control register of the engine of
session `s` among the register writes `w`. -/
def ctrlWrites (dwConfigBarNum : Nat) (s : XDMA_DMA_STRUCT) (w : List RegWrite) : List Nat :=
  (w.filter (fun r => r.dwAddrSpace == dwConfigBarNum &&
    r.dwOffset == ctrlOffset s.dwChannel s.fToDevice)).map RegWrite.val

/-- The host-side and FPGA-side address fields of a descriptor of session `s`. -/
def hostAddr (s : XDMA_DMA_STRUCT) (x : XDMA_DMA_DESC) : Nat :=
  if s.fToDevice then x.u64SrcAddr else x.u64DstAddr

def fpgaAddr (s : XDMA_DMA_STRUCT) (x : XDMA_DMA_DESC) : Nat :=
  if s.fToDevice then x.u64DstAddr else x.u64SrcAddr

/-! ## Sample sessions -/

/-- A pin of 8292 bytes in three pages. -/
def samplePin : WD_DMA := ⟨[⟨0x10000, 4096⟩, ⟨0x30000, 4096⟩, ⟨0x20000, 100⟩]⟩

/-- The contiguous descriptor buffer of the sample session, at physical address `0xABC000`. -/
def sampleDescPin : WD_DMA := ⟨[⟨0xABC000, 96⟩]⟩

/-- Stale contents of the descriptor buffer before the build. -/
def sampleDescBuf : List XDMA_DMA_DESC := List.replicate 3 ⟨7, 7, 7, 7, 7⟩

/-- A sample session: H2C on channel 1, three pages, incrementing addresses. -/
def sampleSession : XDMA_DMA_STRUCT :=
  { hDev := true, pDma := some samplePin,
    pBuf := 0x7f0000, dwBytes := 8292, u64FPGAOffset := 0x1000, dwChannel := 1,
    fToDevice := true, fPolling := true, fStreaming := false, fNonIncMode := false,
    pDmaDesc := some sampleDescPin,
    pDescBuf := some sampleDescBuf,
    pWBDma := some ⟨[⟨0xDEF000, 32⟩]⟩, pWBBuf := some ⟨3⟩, pData := 0, u32IrqBitMask := 1,
    fIsInitialized := false, fIsEnabled := true }

/-- The sample session in the other direction, C2H, with a fixed FPGA address. -/
def sampleSessionNonInc : XDMA_DMA_STRUCT :=
  { sampleSession with fToDevice := false, fNonIncMode := true }

/-- An interrupt-mode streaming C2H session on channel 2. -/
def sampleSessionInt : XDMA_DMA_STRUCT :=
  { sampleSession with fToDevice := false, fPolling := false, fStreaming := true,
                       dwChannel := 2, pWBDma := none, pWBBuf := none }

/-- A host service whose register writes all succeed. -/
def wrOk : RegWrite → WDStatus := fun _ => WDStatus.WD_STATUS_SUCCESS

/-- An incrementing H2C session whose FPGA offset lies one page below `2 ^ 64`,
with two pages of 4096 bytes. -/
def wrapSession : XDMA_DMA_STRUCT :=
  { sampleSession with
    pDma := some ⟨[⟨0x10000, 4096⟩, ⟨0x30000, 4096⟩]⟩,
    dwBytes := 8192, u64FPGAOffset := 0xFFFFFFFFFFFFF000 }

/-- Total byte count of the pages before page `i`. -/
def bytesBefore (pages : List WD_DMA_PAGE) (i : Nat) : Nat :=
  ((pages.take i).map WD_DMA_PAGE.dwBytes).sum

/-! ## Host service, device context and register reads -/

def XDMA_ID_MASK : Nat := 0xFFF00000
def XDMA_ID : Nat := 0x1FC00000
def XDMA_CHANNEL_MASK : Nat := 0x00000F00
def XDMA_ENG_IRQ_NUM : Nat := 1
def XDMA_WB_ERR_MASK : Nat := 1 <<< 31
def XDMA_TRANSACTION_SAMPLE_MAX_TRANSFER_SIZE : Nat := 0x00FFFFFF

def XDMA_H2C_CHANNEL_IDENTIFIER_OFFSET : Nat := 0x0000
def XDMA_H2C_CHANNEL_CONTROL_W1C_OFFSET : Nat := 0x000C
def XDMA_H2C_CHANNEL_STATUS_RC_OFFSET : Nat := 0x0044
def XDMA_H2C_CHANNEL_ALIGNMENTS_OFFSET : Nat := 0x004C
def XDMA_H2C_CHANNEL_POLL_LOW_WRITE_BACK_ADDR_OFFSET : Nat := 0x0088
def XDMA_H2C_CHANNEL_POLL_HIGH_WRITE_BACK_ADDR_OFFSET : Nat := 0x008C
def XDMA_C2H_CHANNEL_IDENTIFIER_OFFSET : Nat := 0x1000
def XDMA_C2H_CHANNEL_CONTROL_W1C_OFFSET : Nat := 0x100C
def XDMA_C2H_CHANNEL_STATUS_RC_OFFSET : Nat := 0x1044
def XDMA_C2H_CHANNEL_ALIGNMENTS_OFFSET : Nat := 0x104C
def XDMA_C2H_CHANNEL_POLL_LOW_WRITE_BACK_ADDR_OFFSET : Nat := 0x1088
def XDMA_C2H_CHANNEL_POLL_HIGH_WRITE_BACK_ADDR_OFFSET : Nat := 0x108C

/-- The macro `XDMA_ENGINE_ID(reg)`. -/
def XDMA_ENGINE_ID (reg : Nat) : Nat := reg &&& XDMA_ID_MASK

/-- The macro `XDMA_ENGINE_CHANNEL_NUM(reg)`. -/
def XDMA_ENGINE_CHANNEL_NUM (reg : Nat) : Nat := (reg &&& XDMA_CHANNEL_MASK) >>> 8

/-- The macro `ENGINE_IDX(dwChannel, fToDevice)`, in `DWORD` arithmetic. -/
def ENGINE_IDX (dwChannel : Nat) (fToDevice : Bool) : Nat :=
  if fToDevice then dwChannel else (dwChannel + XDMA_CHANNELS_NUM) % 2 ^ 32

/-- Size in bytes of the write-back buffer, `sizeof(XDMA_DMA_POLL_WB)`. -/
def sizeof_XDMA_DMA_POLL_WB : Nat := 32

/-- Modelled from the spec: the host-DMA service the library consumes (the
WinDriver WDC API, whose code is not part of the repository), as the answers
it gives to the calls of the library.
* `readAddr32 bar offset`: status of a 32-bit register read and the value the
  call leaves in the variable read into;
* `writeAddr32`: status of a 32-bit register write;
* `valloc size`: address of a page-aligned buffer, 0 for `NULL`;
* `sgBufLock pBuf fToDevice dwBytes`: status of a scatter/gather pin (64-bit
  addresses, pages not merged) and the pin with its page list;
* `transactionSGInit pBuf fToDevice dwBytes`: the same for a transaction pin;
* `contigBufLock fToDevice dwSize`: status of a contiguous DMA buffer
  allocation and the pin;
* `bufUnlock`: status of releasing a pin;
* `pageSize`: the result of `GetPageSize()`;
* `descFill`, `wbFill`: what a freshly allocated contiguous buffer holds.
A failed lock leaves the pointer it was to set as it was. -/
structure HostService where
  readAddr32 : Nat → Nat → WDStatus × Nat
  writeAddr32 : RegWrite → WDStatus
  valloc : Nat → Nat
  sgBufLock : Nat → Bool → Nat → WDStatus × WD_DMA
  transactionSGInit : Nat → Bool → Nat → WDStatus × WD_DMA
  contigBufLock : Bool → Nat → WDStatus × WD_DMA
  bufUnlock : WD_DMA → WDStatus
  pageSize : Nat
  descFill : XDMA_DMA_DESC
  wbFill : Nat

/-- The calls the library makes to the host service, as it makes them. -/
inductive HostEvent where
  | readAddr32 (dwAddrSpace dwOffset : Nat)
  | writeAddr32 (w : RegWrite)
  | valloc (size : Nat)
  | vfree (p : Nat)
  | free (p : Nat)
  | sgBufLock (pBuf : Nat) (fToDevice : Bool) (dwBytes : Nat)
  | transactionSGInit (pBuf : Nat) (fToDevice : Bool) (dwBytes : Nat)
  | contigBufLock (fToDevice : Bool) (dwSize : Nat)
  | bufUnlock (d : WD_DMA)
  deriving DecidableEq, Repr

/-- A value of type `XDMA_DMA_HANDLE`: `NULL`, a pointer to an engine slot of
the device context, or the address of the local variable `pXdmaDma` of
`XDMA_DmaOpen`. -/
inductive HandleVal where
  | null
  | slot (idx : Nat)
  | stackLocal
  deriving DecidableEq, Repr

/-- Modelled from the spec: one interrupt transfer command of the host service
(`WD_TRANSFER`, whose header `windrvr.h` is not part of the repository). -/
structure WD_TRANSFER where
  pPort : Nat
  cmdTrans : Nat
  Dword : Nat
  deriving DecidableEq, Repr

/-- The device context `XDMA_DEV_CTX`; handler routines are named by a number. -/
structure XDMA_DEV_CTX where
  funcDiagIntHandler : Option Nat
  funcDiagEventHandler : Option Nat
  dwConfigBarNum : Nat
  dwEnabledIntType : Nat
  pTrans : Option (List WD_TRANSFER)
  pEnginesArr : List XDMA_DMA_STRUCT
  deriving DecidableEq, Repr

/-- An engine slot of a zeroed device context. -/
def zeroSlot : XDMA_DMA_STRUCT :=
  { hDev := false, pDma := none, pBuf := 0, dwBytes := 0, u64FPGAOffset := 0, dwChannel := 0,
    fToDevice := false, fPolling := false, fStreaming := false, fNonIncMode := false,
    pDmaDesc := none, pDescBuf := none, pWBDma := none, pWBBuf := none, pData := 0,
    u32IrqBitMask := 0, fIsInitialized := false, fIsEnabled := false }

/-- The device context as `WDC_DIAG_DeviceFindAndOpen` hands it out: zeroed,
with the eight engine slots, and the configuration BAR found by `DeviceInit`. -/
def zeroCtx (dwConfigBarNum : Nat) : XDMA_DEV_CTX :=
  { funcDiagIntHandler := none, funcDiagEventHandler := none,
    dwConfigBarNum := dwConfigBarNum, dwEnabledIntType := 0, pTrans := none,
    pEnginesArr := List.replicate (XDMA_CHANNELS_NUM * 2) zeroSlot }

/-! ## Poll completion (`XDMA_DmaPollCompletion`) -/

/-- The function `XDMA_EngineStatusRead`: the status, the value read and the
register read issued. -/
def XDMA_EngineStatusRead (h : HostService) (dwConfigBarNum : Nat) (s : XDMA_DMA_STRUCT)
    (fClear : Bool) : WDStatus × Nat × List HostEvent :=
  let dwOffset :=
    if fClear then
      XDMA_CHANNEL_OFFSET s.dwChannel
        (if s.fToDevice then XDMA_H2C_CHANNEL_STATUS_RC_OFFSET
         else XDMA_C2H_CHANNEL_STATUS_RC_OFFSET)
    else
      XDMA_CHANNEL_OFFSET s.dwChannel
        (if s.fToDevice then XDMA_H2C_CHANNEL_STATUS_OFFSET
         else XDMA_C2H_CHANNEL_STATUS_OFFSET)
  let r := h.readAddr32 dwConfigBarNum dwOffset
  (r.1, r.2, [HostEvent.readAddr32 dwConfigBarNum dwOffset])

/-- The loop of `XDMA_DmaPollCompletion`.  The device writes the write-back
word while the loop runs: `wb k` is the value the `k`-th read of
`pWB->u32CompletedDescs` observes.  Each turn reads the word in the loop
condition and again in the error test.  Returns the status and the number of
reads made, `none` while the loop is still spinning after `n` turns. -/
def XDMA_DmaPollCompletion.loop (wb : Nat → Nat) (dwPages : Nat) :
    Nat → Nat → Option (WDStatus × Nat)
  | 0, _ => none
  | n + 1, k =>
    if wb k < dwPages then
      if wb (k + 1) &&& XDMA_WB_ERR_MASK ≠ 0 then
        some (WDStatus.WD_OPERATION_FAILED, k + 2)
      else XDMA_DmaPollCompletion.loop wb dwPages n (k + 2)
    else some (WDStatus.WD_STATUS_SUCCESS, k + 1)

/-- The function `XDMA_DmaPollCompletion`, given the values `wb` observed in
the write-back word and a bound `fuel` on the turns of its loop.  Returns the
status, the number of reads of the write-back word made by the loop, and the
calls to the host service. -/
def XDMA_DmaPollCompletion (h : HostService) (dwConfigBarNum : Nat) (wb : Nat → Nat)
    (fuel : Nat) (s : XDMA_DMA_STRUCT) : Option (WDStatus × Nat × List HostEvent) :=
  if s.pWBDma.isNone || s.pWBBuf.isNone then
    some (WDStatus.WD_INVALID_PARAMETER, 0, [])
  else
    match s.pDma with
    | none => none
    | some pDma =>
      match XDMA_DmaPollCompletion.loop wb pDma.dwPages fuel 0 with
      | none => none
      | some (dwStatus, k) =>
        let t1 :=
          if dwStatus = WDStatus.WD_OPERATION_FAILED then
            (XDMA_EngineStatusRead h dwConfigBarNum s true).2.2
          else []
        let t2 := (XDMA_DmaTransferStop h.writeAddr32 dwConfigBarNum s).2.map
          HostEvent.writeAddr32
        some (dwStatus, k, t1 ++ t2)

/-! ## Alignment check (`CheckAlignment`) -/

/-- The function `CheckAlignment`: the status and the register read issued. -/
def CheckAlignment (h : HostService) (dwConfigBarNum : Nat) (s : XDMA_DMA_STRUCT) :
    WDStatus × List HostEvent :=
  let off := XDMA_CHANNEL_OFFSET s.dwChannel
    (if s.fToDevice then XDMA_H2C_CHANNEL_ALIGNMENTS_OFFSET
     else XDMA_C2H_CHANNEL_ALIGNMENTS_OFFSET)
  let r := h.readAddr32 dwConfigBarNum off
  let t := [HostEvent.readAddr32 dwConfigBarNum off]
  if r.1 ≠ WDStatus.WD_STATUS_SUCCESS then (r.1, t)
  else
    let u32AlignmentsReg := r.2
    if u32AlignmentsReg = 0 then (WDStatus.WD_STATUS_SUCCESS, t)
    else
      let u32Align := (u32AlignmentsReg &&& 0x00FF0000) >>> 16
      let u32Granularity := (u32AlignmentsReg &&& 0x0000FF00) >>> 8
      let u32BufLsb := (s.pBuf &&& ((u32Align + 2 ^ 32 - 1) % 2 ^ 32)) % 2 ^ 32
      let u32OffsetLsb := (s.u64FPGAOffset % 2 ^ 32) &&& ((u32Align + 2 ^ 32 - 1) % 2 ^ 32)
      let u32SizeLsb := (s.dwBytes % 2 ^ 32) &&& ((u32Granularity + 2 ^ 32 - 1) % 2 ^ 32)
      if s.fStreaming || s.fNonIncMode then
        if u32BufLsb ≠ 0 then (WDStatus.WD_INVALID_PARAMETER, t)
        else if u32SizeLsb ≠ 0 then (WDStatus.WD_INVALID_PARAMETER, t)
        else if !s.fStreaming && u32OffsetLsb ≠ 0 then (WDStatus.WD_INVALID_PARAMETER, t)
        else (WDStatus.WD_STATUS_SUCCESS, t)
      else if u32BufLsb ≠ u32OffsetLsb then (WDStatus.WD_INVALID_PARAMETER, t)
      else (WDStatus.WD_STATUS_SUCCESS, t)

/-! ## Session lifecycle (`XDMA_DmaOpen`, `XDMA_DmaClose`) -/

/-- The function `ValidateTransferParams`: the status and the register read issued. -/
def ValidateTransferParams (h : HostService) (dwConfigBarNum : Nat) (fToDevice : Bool)
    (dwChannel : Nat) : WDStatus × List HostEvent :=
  if dwChannel > XDMA_CHANNELS_NUM - 1 then (WDStatus.WD_INVALID_PARAMETER, [])
  else
    let off := XDMA_CHANNEL_OFFSET dwChannel
      (if fToDevice then XDMA_H2C_CHANNEL_IDENTIFIER_OFFSET
       else XDMA_C2H_CHANNEL_IDENTIFIER_OFFSET)
    let r := h.readAddr32 dwConfigBarNum off
    let t := [HostEvent.readAddr32 dwConfigBarNum off]
    if r.1 ≠ WDStatus.WD_STATUS_SUCCESS then (r.1, t)
    else if dwChannel ≠ XDMA_ENGINE_CHANNEL_NUM r.2 then (WDStatus.WD_INVALID_PARAMETER, t)
    else (WDStatus.WD_STATUS_SUCCESS, t)

/-- The function `EngineIsStreaming`: bit 15 of the identifier register. -/
def EngineIsStreaming (h : HostService) (dwConfigBarNum dwChannel : Nat) (fToDevice : Bool) :
    Bool × List HostEvent :=
  let off := XDMA_CHANNEL_OFFSET dwChannel
    (if fToDevice then XDMA_H2C_CHANNEL_IDENTIFIER_OFFSET
     else XDMA_C2H_CHANNEL_IDENTIFIER_OFFSET)
  (decide ((h.readAddr32 dwConfigBarNum off).2 &&& 0x8000 ≠ 0),
    [HostEvent.readAddr32 dwConfigBarNum off])

/-- The function `LockDmaBuffer`, called with `*ppDma = pDma0`: the status,
the new values of `*ppBuf` and `*ppDma`, and the calls to the host service. -/
def LockDmaBuffer (h : HostService) (fToDevice : Bool) (pDma0 : Option WD_DMA)
    (dwBytes : Nat) (fIsTransaction : Bool) :
    WDStatus × Nat × Option WD_DMA × List HostEvent :=
  let p := h.valloc dwBytes
  if p = 0 then
    (WDStatus.WD_INSUFFICIENT_RESOURCES, 0, pDma0, [HostEvent.valloc dwBytes])
  else
    let r := if !fIsTransaction then h.sgBufLock p fToDevice dwBytes
      else h.transactionSGInit p fToDevice dwBytes
    let e := if !fIsTransaction then HostEvent.sgBufLock p fToDevice dwBytes
      else HostEvent.transactionSGInit p fToDevice dwBytes
    if r.1 ≠ WDStatus.WD_STATUS_SUCCESS then
      (r.1, 0, pDma0, [HostEvent.valloc dwBytes, e, HostEvent.free p])
    else
      (WDStatus.WD_STATUS_SUCCESS, p, some r.2, [HostEvent.valloc dwBytes, e])

/-- The function `ConfigureWriteBackAddress`. -/
def ConfigureWriteBackAddress (h : HostService) (dwConfigBarNum : Nat) (s : XDMA_DMA_STRUCT) :
    Option (WDStatus × XDMA_DMA_STRUCT × List HostEvent) :=
  let r := h.contigBufLock false sizeof_XDMA_DMA_POLL_WB
  let e := HostEvent.contigBufLock false sizeof_XDMA_DMA_POLL_WB
  if r.1 ≠ WDStatus.WD_STATUS_SUCCESS then some (r.1, s, [e])
  else
    match r.2.Page[0]? with
    | none => none
    | some page0 =>
      let s1 : XDMA_DMA_STRUCT := { s with pWBBuf := some ⟨h.wbFill⟩, pWBDma := some r.2 }
      some (WDStatus.WD_STATUS_SUCCESS, s1,
        [ e,
          HostEvent.writeAddr32
            { dwAddrSpace := dwConfigBarNum,
              dwOffset := XDMA_CHANNEL_OFFSET s.dwChannel
                (if s.fToDevice then XDMA_H2C_CHANNEL_POLL_LOW_WRITE_BACK_ADDR_OFFSET
                 else XDMA_C2H_CHANNEL_POLL_LOW_WRITE_BACK_ADDR_OFFSET),
              val := DMA_ADDR_LOW page0.pPhysicalAddr },
          HostEvent.writeAddr32
            { dwAddrSpace := dwConfigBarNum,
              dwOffset := XDMA_CHANNEL_OFFSET s.dwChannel
                (if s.fToDevice then XDMA_H2C_CHANNEL_POLL_HIGH_WRITE_BACK_ADDR_OFFSET
                 else XDMA_C2H_CHANNEL_POLL_HIGH_WRITE_BACK_ADDR_OFFSET),
              val := DMA_ADDR_HIGH page0.pPhysicalAddr } ])

/-- The function `DmaBuildDescBuffer`. -/
def DmaBuildDescBuffer (h : HostService) (s : XDMA_DMA_STRUCT) (fIsTransaction : Bool) :
    Option (WDStatus × XDMA_DMA_STRUCT × List HostEvent) :=
  let pages : Option Nat :=
    if fIsTransaction then
      if h.pageSize = 0 then none
      else some ((((XDMA_TRANSACTION_SAMPLE_MAX_TRANSFER_SIZE + h.pageSize - 1) % 2 ^ 32) /
        h.pageSize + 1) % 2 ^ 32)
    else s.pDma.map WD_DMA.dwPages
  match pages with
  | none => none
  | some dwPages =>
    let dwSize := (dwPages * sizeof_XDMA_DMA_DESC) % 2 ^ 32
    let r := h.contigBufLock true dwSize
    let e := HostEvent.contigBufLock true dwSize
    if r.1 ≠ WDStatus.WD_STATUS_SUCCESS then some (r.1, s, [e])
    else
      let s1 : XDMA_DMA_STRUCT :=
        { s with pDescBuf := some (List.replicate (dwSize / sizeof_XDMA_DMA_DESC) h.descFill),
                 pDmaDesc := some r.2 }
      some (WDStatus.WD_STATUS_SUCCESS, s1, [e])

/-- The function `ConfigureDmaDesc`. -/
def ConfigureDmaDesc (h : HostService) (dwConfigBarNum : Nat) (s : XDMA_DMA_STRUCT) :
    Option (WDStatus × XDMA_DMA_STRUCT × List HostEvent) :=
  match DmaBuildDescBuffer h s false with
  | none => none
  | some (dwStatus, s1, t1) =>
    if dwStatus ≠ WDStatus.WD_STATUS_SUCCESS then some (dwStatus, s1, t1)
    else
      match DmaTransferBuild dwConfigBarNum s1 with
      | none => none
      | some (s2, w) => some (dwStatus, s2, t1 ++ w.map HostEvent.writeAddr32)

/-- What `XDMA_DmaOpen` returns: the status, the device context, the contents
of the out-parameter (`none` when `phDma` is `NULL`) and the calls to the host
service, in order. -/
structure OpenResult where
  dwStatus : WDStatus
  ctx : XDMA_DEV_CTX
  phDma : Option HandleVal
  trace : List HostEvent
  deriving DecidableEq, Repr

/-- The code of `XDMA_DmaOpen` after its label `Error`. -/
def XDMA_DmaOpen.Error (s : XDMA_DMA_STRUCT) : XDMA_DMA_STRUCT × List HostEvent :=
  let t1 := match s.pDmaDesc with
    | some d => [HostEvent.bufUnlock d]
    | none => []
  let t2 := match s.pDma with
    | some d => [HostEvent.bufUnlock d]
    | none => []
  let t3 := if s.pBuf ≠ 0 then [HostEvent.vfree s.pBuf] else []
  ({ s with fIsInitialized := false }, t1 ++ t2 ++ t3)

/-- A `goto Error` of `XDMA_DmaOpen` on slot `idx` in state `s`. -/
def XDMA_DmaOpen.fail (ctx : XDMA_DEV_CTX) (idx : Nat) (s : XDMA_DMA_STRUCT)
    (dwStatus : WDStatus) (phDma : Option HandleVal) (t : List HostEvent) : OpenResult :=
  let e := XDMA_DmaOpen.Error s
  { dwStatus := dwStatus,
    ctx := { ctx with pEnginesArr := ctx.pEnginesArr.set idx e.1 },
    phDma := phDma,
    trace := t ++ e.2 }

/-- The part of `XDMA_DmaOpen` from the alignment check on, on slot `idx` in
state `s`, after the calls `t` to the host service. -/
def XDMA_DmaOpen.configure (h : HostService) (ctx : XDMA_DEV_CTX) (idx : Nat)
    (s : XDMA_DMA_STRUCT) (fPolling fIsTransaction : Bool) (t : List HostEvent) :
    Option OpenResult :=
  let out := some (HandleVal.slot idx)
  let c := CheckAlignment h ctx.dwConfigBarNum s
  if c.1 ≠ WDStatus.WD_STATUS_SUCCESS then
    some (XDMA_DmaOpen.fail ctx idx s c.1 out (t ++ c.2))
  else
    let wbStep : Option (WDStatus × XDMA_DMA_STRUCT × List HostEvent) :=
      if fPolling then ConfigureWriteBackAddress h ctx.dwConfigBarNum s
      else some (WDStatus.WD_STATUS_SUCCESS, s, [])
    match wbStep with
    | none => none
    | some (st1, s1, t1) =>
      if st1 ≠ WDStatus.WD_STATUS_SUCCESS then
        some (XDMA_DmaOpen.fail ctx idx s1 st1 out (t ++ c.2 ++ t1))
      else
        let descStep :=
          if fIsTransaction then DmaBuildDescBuffer h s1 true
          else ConfigureDmaDesc h ctx.dwConfigBarNum s1
        match descStep with
        | none => none
        | some (st2, s2, t2) =>
          if st2 ≠ WDStatus.WD_STATUS_SUCCESS then
            some (XDMA_DmaOpen.fail ctx idx s2 st2 out (t ++ c.2 ++ t1 ++ t2))
          else
            some { dwStatus := WDStatus.WD_STATUS_SUCCESS,
                   ctx := { ctx with pEnginesArr :=
                     ctx.pEnginesArr.set idx { s2 with fIsInitialized := true } },
                   phDma := out,
                   trace := t ++ c.2 ++ t1 ++ t2 }

/-- The engine slot as `XDMA_DmaOpen` has filled it in when it calls
`CheckAlignment`: the streaming flag read from the identifier register, the
buffer and pin of `LockDmaBuffer`, and the arguments of the call. -/
def XDMA_DmaOpen.atCheck (h : HostService) (dwConfigBarNum : Nat) (slot : XDMA_DMA_STRUCT)
    (dwBytes u64FPGAOffset : Nat) (fToDevice : Bool) (dwChannel : Nat)
    (fPolling fNonIncMode : Bool) (pData : Nat) (fIsTransaction : Bool) : XDMA_DMA_STRUCT :=
  let st := EngineIsStreaming h dwConfigBarNum dwChannel fToDevice
  let l := LockDmaBuffer h fToDevice slot.pDma dwBytes fIsTransaction
  { slot with fStreaming := st.1, pBuf := l.2.1, pDma := l.2.2.1,
              hDev := true, dwBytes := dwBytes, dwChannel := dwChannel,
              u64FPGAOffset := u64FPGAOffset, fPolling := fPolling,
              fToDevice := fToDevice, fNonIncMode := fNonIncMode, pData := pData }

/-- The calls `XDMA_DmaOpen` has made to the host service when it calls
`CheckAlignment`. -/
def XDMA_DmaOpen.traceToCheck (h : HostService) (dwConfigBarNum : Nat)
    (slot : XDMA_DMA_STRUCT) (dwBytes : Nat) (fToDevice : Bool) (dwChannel : Nat)
    (fIsTransaction : Bool) : List HostEvent :=
  (ValidateTransferParams h dwConfigBarNum fToDevice dwChannel).2 ++
  (EngineIsStreaming h dwConfigBarNum dwChannel fToDevice).2 ++
  (LockDmaBuffer h fToDevice slot.pDma dwBytes fIsTransaction).2.2.2 ++
  [ HostEvent.writeAddr32
      { dwAddrSpace := dwConfigBarNum,
        dwOffset := XDMA_CHANNEL_OFFSET dwChannel
          (if fToDevice then XDMA_H2C_CHANNEL_CONTROL_W1C_OFFSET
           else XDMA_C2H_CHANNEL_CONTROL_W1C_OFFSET),
        val := XDMA_CTRL_NON_INCR_ADDR } ]

/-- The function `XDMA_DmaOpen`.  `phDma` is `none` for a `NULL` out-parameter
and otherwise holds what the variable of the caller contains. -/
def XDMA_DmaOpen (h : HostService) (ctx : XDMA_DEV_CTX) (phDma : Option HandleVal)
    (dwBytes u64FPGAOffset : Nat) (fToDevice : Bool) (dwChannel : Nat)
    (fPolling fNonIncMode : Bool) (pData : Nat) (fIsTransaction : Bool) :
    Option OpenResult :=
  let idx := ENGINE_IDX dwChannel fToDevice
  match phDma with
  | none => some ⟨WDStatus.WD_INVALID_PARAMETER, ctx, none, []⟩
  | some _ =>
    let v := ValidateTransferParams h ctx.dwConfigBarNum fToDevice dwChannel
    if v.1 ≠ WDStatus.WD_STATUS_SUCCESS then some ⟨v.1, ctx, phDma, v.2⟩
    else
      match ctx.pEnginesArr[idx]? with
      | none => none
      | some slot =>
        if !slot.fIsEnabled then some ⟨WDStatus.WD_INVALID_PARAMETER, ctx, phDma, v.2⟩
        else if slot.fIsInitialized then
          some ⟨WDStatus.WD_OPERATION_ALREADY_DONE, ctx, some HandleVal.stackLocal, v.2⟩
        else
          let st := EngineIsStreaming h ctx.dwConfigBarNum dwChannel fToDevice
          let l := LockDmaBuffer h fToDevice slot.pDma dwBytes fIsTransaction
          if l.1 ≠ WDStatus.WD_STATUS_SUCCESS then
            let s1 : XDMA_DMA_STRUCT :=
              { slot with fStreaming := st.1, pBuf := l.2.1, pDma := l.2.2.1 }
            some (XDMA_DmaOpen.fail ctx idx s1 l.1 phDma (v.2 ++ st.2 ++ l.2.2.2))
          else
            XDMA_DmaOpen.configure h ctx idx
              (XDMA_DmaOpen.atCheck h ctx.dwConfigBarNum slot dwBytes u64FPGAOffset fToDevice
                dwChannel fPolling fNonIncMode pData fIsTransaction)
              fPolling fIsTransaction
              (XDMA_DmaOpen.traceToCheck h ctx.dwConfigBarNum slot dwBytes fToDevice dwChannel
                fIsTransaction)

/-- The function `XDMA_DmaClose` on the handle that points to slot `i`: the
status, the device context and the calls to the host service, in order. -/
def XDMA_DmaClose (h : HostService) (ctx : XDMA_DEV_CTX) (i : Nat) :
    Option (WDStatus × XDMA_DEV_CTX × List HostEvent) :=
  match ctx.pEnginesArr[i]? with
  | none => none
  | some s =>
    let idx := ENGINE_IDX s.dwChannel s.fToDevice
    let r0 : WDStatus × List HostEvent := (WDStatus.WD_STATUS_SUCCESS, [])
    let r1 := match s.pWBDma with
      | some d => (h.bufUnlock d, r0.2 ++ [HostEvent.bufUnlock d])
      | none => r0
    let r2 := match s.pDmaDesc with
      | some d => (h.bufUnlock d, r1.2 ++ [HostEvent.bufUnlock d])
      | none => r1
    let r3 := match s.pDma with
      | some d => (h.bufUnlock d, r2.2 ++ [HostEvent.bufUnlock d])
      | none => r2
    let t4 := if s.pBuf ≠ 0 then r3.2 ++ [HostEvent.vfree s.pBuf] else r3.2
    match ctx.pEnginesArr[idx]? with
    | none => none
    | some s1 =>
      some (r3.1,
        { ctx with pEnginesArr := ctx.pEnginesArr.set idx { s1 with fIsInitialized := false } },
        t4)

/-! ## Engine enumeration (`EnginesCreate`) -/

/-- The function `EngineExists`. -/
def EngineExists (h : HostService) (dwConfigBarNum : Nat) (fToDevice : Bool)
    (dwChannel : Nat) : Bool :=
  let off := XDMA_CHANNEL_OFFSET dwChannel
    (if fToDevice then XDMA_H2C_CHANNEL_IDENTIFIER_OFFSET
     else XDMA_C2H_CHANNEL_IDENTIFIER_OFFSET)
  decide ((h.readAddr32 dwConfigBarNum off).2 &&& XDMA_ID_MASK = XDMA_ID)

/-- One turn of the loop of `EnginesCreate`, at index `i`, on the engine array
and the local variable `u32EngineIndex`. -/
def EnginesCreate.body (h : HostService) (dwConfigBarNum : Nat)
    (st : List XDMA_DMA_STRUCT × Nat) (i : Nat) : List XDMA_DMA_STRUCT × Nat :=
  let fToDevice := decide (i < XDMA_CHANNELS_NUM)
  let dwChannel := i % XDMA_CHANNELS_NUM
  if EngineExists h dwConfigBarNum fToDevice dwChannel then
    match st.1[i]? with
    | some s =>
      let m0 := (1 <<< XDMA_ENG_IRQ_NUM) - 1
      let m1 := (m0 <<< (st.2 * XDMA_ENG_IRQ_NUM)) % 2 ^ 32
      (st.1.set i { s with u32IrqBitMask := m1, fIsEnabled := true }, (st.2 + 1) % 2 ^ 32)
    | none => (st.1, (st.2 + 1) % 2 ^ 32)
  else st

/-- The function `EnginesCreate`: the device context after the loop over the
eight engine slots. -/
def EnginesCreate (h : HostService) (ctx : XDMA_DEV_CTX) : XDMA_DEV_CTX :=
  { ctx with pEnginesArr :=
      ((List.range (XDMA_CHANNELS_NUM * 2)).foldl
        (EnginesCreate.body h ctx.dwConfigBarNum) (ctx.pEnginesArr, 0)).1 }

/-! ## Sample hosts and device contexts -/

/-- A host on which every call succeeds.  Every engine is present, the
identifier register of channel `c` carries `c` in bits 11:8, the alignments
registers report align = 64 and granularity = 4, buffers are allocated at
`0x7f0000`, a pin has one page, the descriptor buffer is at `0xABC000` and the
write-back buffer at `0xDEF000`. -/
def sampleHost : HostService :=
  { readAddr32 := fun _ off =>
      (WDStatus.WD_STATUS_SUCCESS,
        if off % 0x100 = 0x4C then 0x00400400
        else if off % 0x100 = 0 then 0x1FC00000 ||| ((off / 0x100 % 0x10) <<< 8)
        else 0),
    writeAddr32 := fun _ => WDStatus.WD_STATUS_SUCCESS,
    valloc := fun _ => 0x7f0000,
    sgBufLock := fun _ _ n => (WDStatus.WD_STATUS_SUCCESS, ⟨[⟨0x10000, n⟩]⟩),
    transactionSGInit := fun _ _ n => (WDStatus.WD_STATUS_SUCCESS, ⟨[⟨0x10000, n⟩]⟩),
    contigBufLock := fun f n =>
      (WDStatus.WD_STATUS_SUCCESS, ⟨[⟨if f then 0xABC000 else 0xDEF000, n⟩]⟩),
    bufUnlock := fun _ => WDStatus.WD_STATUS_SUCCESS,
    pageSize := 4096,
    descFill := ⟨7, 7, 7, 7, 7⟩,
    wbFill := 0 }

/-- The sample host with streaming engines (bit 15 of the identifier registers set). -/
def streamingHost : HostService :=
  { sampleHost with
    readAddr32 := fun _ off =>
      (WDStatus.WD_STATUS_SUCCESS,
        if off % 0x100 = 0x4C then 0x00400400
        else if off % 0x100 = 0 then 0x1FC08000 ||| ((off / 0x100 % 0x10) <<< 8)
        else 0) }

/-- The sample host when the allocation of the descriptor buffer fails. -/
def descFailHost : HostService :=
  { sampleHost with
    contigBufLock := fun f n =>
      if f then (WDStatus.WD_INSUFFICIENT_RESOURCES, ⟨[]⟩)
      else (WDStatus.WD_STATUS_SUCCESS, ⟨[⟨0xDEF000, n⟩]⟩) }

/-- The sample host when register reads fail with status `0x20000015`. -/
def readFailHost : HostService :=
  { sampleHost with readAddr32 := fun _ _ => (WDStatus.other 0x20000015, 0) }

/-- The sample host with alignments registers that read zero. -/
def zeroAlignHost : HostService :=
  { sampleHost with
    readAddr32 := fun _ off =>
      (WDStatus.WD_STATUS_SUCCESS,
        if off % 0x100 = 0 then 0x1FC00000 ||| ((off / 0x100 % 0x10) <<< 8) else 0) }

/-- A streaming session whose buffer is aligned to 64 bytes and whose FPGA
offset is 1. -/
def sampleSessionStreaming : XDMA_DMA_STRUCT :=
  { sampleSession with fStreaming := true, u64FPGAOffset := 1, dwBytes := 4096 }

/-- A device context with every engine enabled and no session attached. -/
def sampleCtx : XDMA_DEV_CTX := EnginesCreate sampleHost (zeroCtx 0)

/-- The sample device context with the sample session attached to the slot of
H2C channel 1. -/
def sampleCtxOpen : XDMA_DEV_CTX :=
  { sampleCtx with pEnginesArr :=
      sampleCtx.pEnginesArr.set 1 { sampleSession with fIsInitialized := true } }

/-- What the library relies on from the host service without testing it: a
contiguous buffer it has allocated has a first page, the page size is not
zero, and a pin has fewer than `2 ^ 27` pages, so that the size of its
descriptor ring fits a `DWORD`. -/
structure HostService.WF (h : HostService) : Prop where
  contig_page : ∀ f n, (h.contigBufLock f n).1 = WDStatus.WD_STATUS_SUCCESS →
    (h.contigBufLock f n).2.Page ≠ []
  page_size : h.pageSize ≠ 0
  pin_pages : ∀ p f n, (h.sgBufLock p f n).1 = WDStatus.WD_STATUS_SUCCESS →
    (h.sgBufLock p f n).2.Page.length < 2 ^ 27

/-! ## Engine enumeration in closed form -/

/-- Offset of the identifier register that `EnginesCreate` reads for slot `i`. -/
def engineIdOffset (i : Nat) : Nat :=
  XDMA_CHANNEL_OFFSET (i % XDMA_CHANNELS_NUM)
    (if i < XDMA_CHANNELS_NUM then XDMA_H2C_CHANNEL_IDENTIFIER_OFFSET
     else XDMA_C2H_CHANNEL_IDENTIFIER_OFFSET)

/-- Whether `EnginesCreate` finds the engine of slot `i` on the card. -/
def engineFound (h : HostService) (dwConfigBarNum i : Nat) : Bool :=
  EngineExists h dwConfigBarNum (decide (i < XDMA_CHANNELS_NUM)) (i % XDMA_CHANNELS_NUM)

/-- Number of engines found among the slots before slot `n`. -/
def foundBefore (h : HostService) (dwConfigBarNum n : Nat) : Nat :=
  ((List.range n).filter (engineFound h dwConfigBarNum)).length

/-- The slot `EnginesCreate` leaves at index `j` of a zeroed context once the
slots before `n` are done. -/
def createdSlot (h : HostService) (dwConfigBarNum n j : Nat) : XDMA_DMA_STRUCT :=
  if j < n ∧ engineFound h dwConfigBarNum j = true then
    { zeroSlot with u32IrqBitMask := 1 <<< foundBefore h dwConfigBarNum j, fIsEnabled := true }
  else zeroSlot

/-- The enabled flag and the IRQ bit mask of slot `i` of a device context. -/
def slotEnabled (ctx : XDMA_DEV_CTX) (i : Nat) : Bool :=
  ((ctx.pEnginesArr[i]?).map XDMA_DMA_STRUCT.fIsEnabled).getD false

def slotMask (ctx : XDMA_DEV_CTX) (i : Nat) : Nat :=
  ((ctx.pEnginesArr[i]?).map XDMA_DMA_STRUCT.u32IrqBitMask).getD 0

/-- Number of enabled slots before slot `i`. -/
def enabledBefore (ctx : XDMA_DEV_CTX) (i : Nat) : Nat :=
  ((List.range i).filter (slotEnabled ctx)).length

/-- The state of the loop of `EnginesCreate` on a zeroed context on entry to
the turn of index `n`. -/
structure CreateInv (h : HostService) (dwConfigBarNum n : Nat)
    (st : List XDMA_DMA_STRUCT × Nat) : Prop where
  len : st.1.length = XDMA_CHANNELS_NUM * 2
  index : st.2 = foundBefore h dwConfigBarNum n
  slots : ∀ j, j < XDMA_CHANNELS_NUM * 2 →
    st.1[j]? = some (createdSlot h dwConfigBarNum n j)

/-! ## Results of `XDMA_DmaClose` in closed form -/

/-- The status `XDMA_DmaClose` returns for a session: that of the last unlock
it attempts. -/
def closeStatus (h : HostService) (s : XDMA_DMA_STRUCT) : WDStatus :=
  match s.pDma with
  | some d => h.bufUnlock d
  | none =>
    match s.pDmaDesc with
    | some d => h.bufUnlock d
    | none =>
      match s.pWBDma with
      | some d => h.bufUnlock d
      | none => WDStatus.WD_STATUS_SUCCESS

/-- The calls `XDMA_DmaClose` makes to the host service for a session. -/
def closeTrace (s : XDMA_DMA_STRUCT) : List HostEvent :=
  s.pWBDma.toList.map HostEvent.bufUnlock ++
  s.pDmaDesc.toList.map HostEvent.bufUnlock ++
  s.pDma.toList.map HostEvent.bufUnlock ++
  (if s.pBuf ≠ 0 then [HostEvent.vfree s.pBuf] else [])

/-! ## Device discovery (`getConfigBar`, `DeviceInit`) -/

def XDMA_MIN_CONFIG_BAR_SIZE : Nat := 0x8FE4
def XDMA_IRQ_BLOCK_IDENTIFIER_OFFSET : Nat := 0x2000
def XDMA_CONFIG_BLOCK_IDENTIFIER_OFFSET : Nat := 0x3000

/-- Modelled from the spec: what the host service tells about one address
space (BAR) of the device, the type `WDC_ADDR_DESC` (its header `wdc_defs.h`
is not part of the repository): whether it is active
(`WDC_AddrSpaceIsActive`), its size in bytes (`WDC_GET_ADDR_SPACE_SIZE`, a
`UINT64`), its base address and whether it is memory mapped
(`WDC_ADDR_IS_MEM`). -/
structure WDC_ADDR_DESC where
  fActive : Bool
  qwBytes : Nat
  pAddr : Nat
  fIsMemory : Bool
  deriving DecidableEq, Repr

/-- Modelled from the spec: the interrupt bookkeeping the host service keeps in
a device (`pDev->Int` of `WDC_DEVICE`, whose header is not part of the
repository): whether interrupts are enabled (`WDC_IntIsEnabled`), the enabled
interrupt type, the counters and the last message. -/
structure WDC_INT where
  fEnabled : Bool
  dwEnabledIntType : Nat
  dwCounter : Nat
  dwLost : Nat
  fStopped : Nat
  dwLastMessage : Nat
  deriving DecidableEq, Repr

/-- Modelled from the spec: a device of the host service, the type
`WDC_DEVICE` (its header `wdc_defs.h` is not part of the repository):
`pAddrDesc` holds the `dwNumAddrSpaces` address spaces, `pCtx` is the device
context `WDC_GetDevContext` returns (`none` for `NULL`). -/
structure WDC_DEVICE where
  pAddrDesc : List WDC_ADDR_DESC
  pCtx : Option XDMA_DEV_CTX
  Int : WDC_INT
  deriving DecidableEq, Repr

/-- The field `dwNumAddrSpaces` of `WDC_DEVICE`. -/
def WDC_DEVICE.dwNumAddrSpaces (d : WDC_DEVICE) : Nat := d.pAddrDesc.length

/-- The loop of `getConfigBar`, entered at index `i` with the address spaces
from `i` on still to visit.  The status of the second read is not stored:
the second test is again on the status of the first read. -/
def getConfigBar.loop (h : HostService) : List WDC_ADDR_DESC → Nat → Nat
  | [], _ => 0xFFFFFFFF
  | a :: rest, i =>
    if !a.fActive || decide (a.qwBytes < XDMA_MIN_CONFIG_BAR_SIZE) then
      getConfigBar.loop h rest ((i + 1) % 2 ^ 32)
    else
      let r1 := h.readAddr32 i XDMA_IRQ_BLOCK_IDENTIFIER_OFFSET
      let dwStatus := r1.1
      let irqId := r1.2
      if dwStatus ≠ WDStatus.WD_STATUS_SUCCESS then 0xFFFFFFFF
      else
        let configId := (h.readAddr32 i XDMA_CONFIG_BLOCK_IDENTIFIER_OFFSET).2
        if dwStatus ≠ WDStatus.WD_STATUS_SUCCESS then 0xFFFFFFFF
        else if irqId &&& XDMA_ID_MASK = XDMA_ID ∧ configId &&& XDMA_ID_MASK = XDMA_ID then i
        else getConfigBar.loop h rest ((i + 1) % 2 ^ 32)

/-- The function `getConfigBar`: the index of the configuration BAR, or
`(DWORD)-1`. -/
def getConfigBar (h : HostService) (dev : WDC_DEVICE) : Nat :=
  getConfigBar.loop h dev.pAddrDesc 0

/-- The function `DeviceValidate`: the device has an active address space. -/
def DeviceValidate (dev : WDC_DEVICE) : Bool :=
  dev.pAddrDesc.any WDC_ADDR_DESC.fActive

/-- The function `DeviceInit` on a device handle (`none` for `NULL`): the
result and the device; `none` when the device has no context to write to. -/
def DeviceInit (h : HostService) (hDev : Option WDC_DEVICE) : Option (Bool × Option WDC_DEVICE) :=
  match hDev with
  | none => some (false, none)
  | some dev =>
    match dev.pCtx with
    | none => none
    | some ctx =>
      let ctx1 : XDMA_DEV_CTX := { ctx with dwConfigBarNum := getConfigBar h dev }
      if ctx1.dwConfigBarNum = 0xFFFFFFFF then some (false, some { dev with pCtx := some ctx1 })
      else if !DeviceValidate dev then some (false, some { dev with pCtx := some ctx1 })
      else some (true, some { dev with pCtx := some (EnginesCreate h ctx1) })

/-- Whether the address space `a`, of index `i`, is active, has at least
`XDMA_MIN_CONFIG_BAR_SIZE` bytes and carries the identifier in both its IRQ
block and its configuration block identifier registers. -/
def barMatches (h : HostService) (a : WDC_ADDR_DESC) (i : Nat) : Bool :=
  a.fActive && decide (XDMA_MIN_CONFIG_BAR_SIZE ≤ a.qwBytes) &&
  decide ((h.readAddr32 i XDMA_IRQ_BLOCK_IDENTIFIER_OFFSET).2 &&& XDMA_ID_MASK = XDMA_ID) &&
  decide ((h.readAddr32 i XDMA_CONFIG_BLOCK_IDENTIFIER_OFFSET).2 &&& XDMA_ID_MASK = XDMA_ID)

/-- Whether address space `i` of the device exists and satisfies `barMatches`. -/
def isConfigBar (h : HostService) (dev : WDC_DEVICE) (i : Nat) : Bool :=
  match dev.pAddrDesc[i]? with
  | none => false
  | some a => barMatches h a i

/-- A device with three address spaces: an inactive one, a small active one
and an active one of 64 KiB, and a zeroed device context. -/
def sampleDevice : WDC_DEVICE :=
  { pAddrDesc := [⟨false, 0x10000, 0xA0000000, true⟩, ⟨true, 0x1000, 0xB0000000, true⟩,
      ⟨true, 0x10000, 0xC0000000, true⟩],
    pCtx := some (zeroCtx 0),
    Int := ⟨false, 0, 0, 0, 0, 0⟩ }

/-- The sample host with the identifier registers of the IRQ block and of the
configuration block at `0x2000` and `0x3000`. -/
def sampleBarHost : HostService :=
  { sampleHost with
    readAddr32 := fun bar off =>
      if off = 0x2000 then (WDStatus.WD_STATUS_SUCCESS, 0x1FC20004)
      else if off = 0x3000 then (WDStatus.WD_STATUS_SUCCESS, 0x1FC30004)
      else sampleHost.readAddr32 bar off }

/-! ## Interrupt demultiplexer (`XDMA_IntHandler`, `HandleEngineInterrupt`) -/

def XDMA_H2C_CHANNEL_COMPLETED_DESC_COUNT_OFFSET : Nat := 0x0048
def XDMA_C2H_CHANNEL_COMPLETED_DESC_COUNT_OFFSET : Nat := 0x1048
def XDMA_IRQ_BLOCK_USER_INT_ENABLE_MASK_W1S_OFFSET : Nat := 0x2008
def XDMA_IRQ_BLOCK_USER_INT_ENABLE_MASK_W1C_OFFSET : Nat := 0x200C
def XDMA_IRQ_BLOCK_CHANNEL_INT_ENABLE_MASK_W1C_OFFSET : Nat := 0x2018
def XDMA_IRQ_BLOCK_CHANNEL_VECTOR_1_OFFSET : Nat := 0x20A0
def XDMA_IRQ_BLOCK_CHANNEL_VECTOR_2_OFFSET : Nat := 0x20A4

/-- Modelled from the spec: the interrupt types of the host service
(`windrvr.h` is not part of the repository); the library only compares them
with one another. -/
def INTERRUPT_LEVEL_SENSITIVE : Nat := 0x01

def INTERRUPT_MESSAGE : Nat := 0x10

def INTERRUPT_MESSAGE_X : Nat := 0x20

/-- The interrupt result `XDMA_INT_RESULT` passed to the diagnostics handler. -/
structure XDMA_INT_RESULT where
  dwCounter : Nat
  dwLost : Nat
  waitResult : Nat
  fIsMessageBased : Bool
  dwLastMessage : Nat
  u32DmaStatus : Nat
  u32IntStatus : Nat
  hDma : HandleVal
  pData : Nat
  deriving DecidableEq, Repr

/-- What the interrupt path of the library does, as it does it: calls to the
host service on registers (`host`), `WDC_DMASyncIo` on a pin, the call of the
diagnostics handler `f` with an interrupt result, the error log entry
`Engine [i] is disabled`, and the calls of `XDMA_IntEnable` and
`XDMA_IntDisable` to the host service (`calloc` and `free` of the transfer
commands, `WDC_IntEnable`, `WDC_IntDisable`, `WDC_PciReadCfg8`). -/
inductive IntEvent where
  | host (e : HostEvent)
  | dmaSyncIo (d : Option WD_DMA)
  | handler (f : Nat) (r : XDMA_INT_RESULT)
  | errLog (i : Nat)
  | calloc (n : Nat)
  | freeTrans (p : List WD_TRANSFER)
  | intEnable (pTrans : List WD_TRANSFER) (dwNumCmds : Nat)
  | intDisable
  | pciReadCfg8 (dwOffset : Nat)
  deriving DecidableEq, Repr

/-- The function `XDMA_ChannelInterruptsDisable`. -/
def XDMA_ChannelInterruptsDisable (wr : RegWrite → WDStatus) (dwConfigBarNum mask : Nat) :
    WDStatus × List RegWrite :=
  let w : RegWrite :=
    { dwAddrSpace := dwConfigBarNum,
      dwOffset := XDMA_IRQ_BLOCK_CHANNEL_INT_ENABLE_MASK_W1C_OFFSET,
      val := mask }
  (wr w, [w])

/-- The function `XDMA_UserInterruptsDisable`. -/
def XDMA_UserInterruptsDisable (wr : RegWrite → WDStatus) (dwConfigBarNum mask : Nat) :
    WDStatus × List RegWrite :=
  let w : RegWrite :=
    { dwAddrSpace := dwConfigBarNum,
      dwOffset := XDMA_IRQ_BLOCK_USER_INT_ENABLE_MASK_W1C_OFFSET,
      val := mask }
  (wr w, [w])

/-- The function `HandleEngineInterrupt` on the slot `s` of index `i`: what it
does, in order; `none` when it dereferences `NULL` (the device handle of a slot
that was never opened, the device context, or the handler routine). -/
def HandleEngineInterrupt (h : HostService) (dev : WDC_DEVICE) (i : Nat) (s : XDMA_DMA_STRUCT)
    (val : Nat) : Option (List IntEvent) :=
  if !s.hDev then none
  else
    match dev.pCtx with
    | none => none
    | some pDevCtx =>
      let t1 := if !s.fToDevice then [IntEvent.dmaSyncIo s.pDma] else []
      let sr := XDMA_EngineStatusRead h pDevCtx.dwConfigBarNum s true
      let stop := XDMA_DmaTransferStop h.writeAddr32 pDevCtx.dwConfigBarNum s
      let cnt := HostEvent.readAddr32 pDevCtx.dwConfigBarNum
        (XDMA_CHANNEL_OFFSET s.dwChannel
          (if s.fToDevice then XDMA_H2C_CHANNEL_COMPLETED_DESC_COUNT_OFFSET
           else XDMA_C2H_CHANNEL_COMPLETED_DESC_COUNT_OFFSET))
      let intResult : XDMA_INT_RESULT :=
        { dwCounter := dev.Int.dwCounter,
          dwLost := dev.Int.dwLost,
          waitResult := dev.Int.fStopped,
          fIsMessageBased :=
            decide (dev.Int.dwEnabledIntType = INTERRUPT_MESSAGE ∨
              dev.Int.dwEnabledIntType = INTERRUPT_MESSAGE_X),
          dwLastMessage := dev.Int.dwLastMessage,
          u32DmaStatus := sr.2.1,
          u32IntStatus := val,
          hDma := HandleVal.slot i,
          pData := s.pData }
      match pDevCtx.funcDiagIntHandler with
      | none => none
      | some f =>
        some (t1 ++ sr.2.2.map IntEvent.host ++
          stop.2.map (fun w => IntEvent.host (HostEvent.writeAddr32 w)) ++
          [IntEvent.host cnt, IntEvent.handler f intResult])

/-- One turn of the loop of `XDMA_IntHandler`, at index `i`. -/
def XDMA_IntHandler.body (h : HostService) (dev : WDC_DEVICE) (pDevCtx : XDMA_DEV_CTX)
    (u32IntRequest i : Nat) : Option (List IntEvent) :=
  match pDevCtx.pEnginesArr[i]? with
  | none => none
  | some s =>
    if u32IntRequest &&& s.u32IrqBitMask ≠ 0 then
      if s.fIsEnabled then HandleEngineInterrupt h dev i s u32IntRequest
      else some [IntEvent.errLog i]
    else some []

/-- The loop of `XDMA_IntHandler` over the indices still to visit. -/
def XDMA_IntHandler.loop (h : HostService) (dev : WDC_DEVICE) (pDevCtx : XDMA_DEV_CTX)
    (u32IntRequest : Nat) : List Nat → Option (List IntEvent)
  | [] => some []
  | i :: rest =>
    match XDMA_IntHandler.body h dev pDevCtx u32IntRequest i with
    | none => none
    | some t =>
      match XDMA_IntHandler.loop h dev pDevCtx u32IntRequest rest with
      | none => none
      | some ts => some (t ++ ts)

/-- The function `XDMA_IntHandler`: the interrupt request word is the data of
the first transfer command, as the host service has latched it. -/
def XDMA_IntHandler (h : HostService) (dev : WDC_DEVICE) : Option (List IntEvent) :=
  match dev.pCtx with
  | none => none
  | some pDevCtx =>
    match pDevCtx.pTrans with
    | some (t0 :: _) =>
      let u32IntRequest := t0.Dword
      let d := XDMA_ChannelInterruptsDisable h.writeAddr32 pDevCtx.dwConfigBarNum u32IntRequest
      match XDMA_IntHandler.loop h dev pDevCtx u32IntRequest
          (List.range (XDMA_CHANNELS_NUM * 2)) with
      | none => none
      | some ts => some (d.2.map (fun w => IntEvent.host (HostEvent.writeAddr32 w)) ++ ts)
    | _ => none

/-- The handles the diagnostics handler was called with, in order. -/
def handlerCalls (t : List IntEvent) : List HandleVal :=
  t.filterMap (fun e =>
    match e with
    | IntEvent.handler _ r => some r.hDma
    | _ => none)

/-- The indices of the slots logged as disabled, in order. -/
def errLogs (t : List IntEvent) : List Nat :=
  t.filterMap (fun e =>
    match e with
    | IntEvent.errLog i => some i
    | _ => none)

/-- Whether the loop of `XDMA_IntHandler` dispatches slot `i` for the request
word `w`, and whether it logs it as disabled. -/
def dispatched (ctx : XDMA_DEV_CTX) (w i : Nat) : Bool :=
  decide (w &&& slotMask ctx i ≠ 0) && slotEnabled ctx i

def phantom (ctx : XDMA_DEV_CTX) (w i : Nat) : Bool :=
  decide (w &&& slotMask ctx i ≠ 0) && !slotEnabled ctx i

/-- The sample device context with the interrupt-mode sample session attached
to the slot of C2H channel 2, the handler 7 stored, and the request word
`0x41` latched in the transfer command. -/
def sampleIntCtx : XDMA_DEV_CTX :=
  { sampleCtx with
    funcDiagIntHandler := some 7,
    pTrans := some [⟨0xC0002044, 52, 0x41⟩],
    dwEnabledIntType := 0x10,
    pEnginesArr := (sampleCtx.pEnginesArr.set 6
      { sampleSessionInt with u32IrqBitMask := 0x40, fIsInitialized := true,
                              pData := 0x5555 }).set 0
      { sampleSession with dwChannel := 0, fPolling := false } }

/-- The sample device with `sampleIntCtx` and message-signalled interrupts enabled. -/
def sampleIntDevice : WDC_DEVICE :=
  { sampleDevice with pCtx := some sampleIntCtx, Int := ⟨true, 0x10, 3, 0, 0, 0x99⟩ }

/-- Every slot of the device context that is not enabled has IRQ bit mask 0. -/
def maskInv (ctx : XDMA_DEV_CTX) : Bool :=
  ctx.pEnginesArr.all (fun s => s.fIsEnabled || s.u32IrqBitMask == 0)

/-- The sample host on a card without C2H engines: the identifier registers
from `0x1000` on read zero. -/
def h2cOnlyHost : HostService :=
  { sampleHost with
    readAddr32 := fun bar off =>
      if 0x1000 ≤ off then (WDStatus.WD_STATUS_SUCCESS, 0) else sampleHost.readAddr32 bar off }

/-! ## Interrupt enable and disable (`XDMA_IntEnable`, `XDMA_IntDisable`) -/

/-- Modelled from the spec: the transfer commands `RM_DWORD` and `RP_DWORD` of
the host service and the offset `PCI_IPR` of the interrupt pin register in the
configuration space (`windrvr.h` and `pci_regs.h` are not part of the
repository). -/
def RM_DWORD : Nat := 52

def RP_DWORD : Nat := 12

def PCI_IPR : Nat := 0x3D

def NUM_TRANS_CMDS : Nat := 1

/-- Modelled from the spec: the answers of the host service to the calls of
`XDMA_IntEnable` and `XDMA_IntDisable` (the WinDriver WDC API, whose code is not
part of the repository): whether `calloc` returns memory, the status of
`WDC_IntEnable` and the interrupt type it enables, the status of
`WDC_PciReadCfg8` and the byte it reads, and the status of `WDC_IntDisable`.
A successful `WDC_IntEnable` leaves the interrupts of the device enabled, a
successful `WDC_IntDisable` leaves them disabled, a failed call leaves them
as they were. -/
structure IntService where
  calloc : Bool
  intEnable : WDStatus × Nat
  pciReadCfg8 : WDStatus × Nat
  intDisable : WDStatus

/-- The host call `WDC_IntEnable` on the device. -/
def WDC_IntEnable (k : IntService) (dev : WDC_DEVICE) : WDStatus × WDC_DEVICE :=
  if k.intEnable.1 = WDStatus.WD_STATUS_SUCCESS then
    (k.intEnable.1,
      { dev with Int := { dev.Int with fEnabled := true, dwEnabledIntType := k.intEnable.2 } })
  else (k.intEnable.1, dev)

/-- The host call `WDC_IntDisable` on the device. -/
def WDC_IntDisable (k : IntService) (dev : WDC_DEVICE) : WDStatus × WDC_DEVICE :=
  if k.intDisable = WDStatus.WD_STATUS_SUCCESS then
    (k.intDisable, { dev with Int := { dev.Int with fEnabled := false } })
  else (k.intDisable, dev)

/-- The function `XDMA_IntEnable` on a device handle (`none` for `NULL`) with
the handler routine `funcIntHandler`: the status, the device and what the
function did, in order; `none` when the configuration BAR of the device
context is not an address space of the device. -/
def XDMA_IntEnable (k : IntService) (hDev : Option WDC_DEVICE)
    (funcIntHandler : Option Nat) : Option (WDStatus × Option WDC_DEVICE × List IntEvent) :=
  match hDev with
  | none => some (WDStatus.WD_INVALID_PARAMETER, hDev, [])
  | some pDev =>
    match pDev.pCtx with
    | none => some (WDStatus.WD_INVALID_PARAMETER, hDev, [])
    | some pDevCtx =>
      if pDev.Int.fEnabled then some (WDStatus.WD_OPERATION_ALREADY_DONE, hDev, [])
      else if !k.calloc then
        some (WDStatus.WD_INSUFFICIENT_RESOURCES, hDev, [IntEvent.calloc NUM_TRANS_CMDS])
      else
        match pDev.pAddrDesc[pDevCtx.dwConfigBarNum]? with
        | none => none
        | some pAddrDesc =>
          let pTrans : List WD_TRANSFER :=
            [ { pPort := (pAddrDesc.pAddr + XDMA_IRQ_BLOCK_CHANNEL_INT_REQUEST_OFFSET) % 2 ^ 64,
                cmdTrans := if pAddrDesc.fIsMemory then RM_DWORD else RP_DWORD,
                Dword := 0 } ]
          let ctx1 : XDMA_DEV_CTX := { pDevCtx with funcDiagIntHandler := funcIntHandler }
          let e := WDC_IntEnable k { pDev with pCtx := some ctx1 }
          let t1 := [IntEvent.calloc NUM_TRANS_CMDS, IntEvent.intEnable pTrans NUM_TRANS_CMDS]
          if WDStatus.WD_STATUS_SUCCESS ≠ e.1 then
            some (e.1, some e.2, t1 ++ [IntEvent.freeTrans pTrans])
          else
            let ctx2 : XDMA_DEV_CTX :=
              { ctx1 with pTrans := some pTrans, dwEnabledIntType := e.2.Int.dwEnabledIntType }
            let dev2 : WDC_DEVICE := { e.2 with pCtx := some ctx2 }
            if ctx2.dwEnabledIntType = INTERRUPT_LEVEL_SENSITIVE then
              let r := k.pciReadCfg8
              if r.1 ≠ WDStatus.WD_STATUS_SUCCESS then
                let d := WDC_IntDisable k dev2
                some (d.1, some d.2, t1 ++ [IntEvent.pciReadCfg8 PCI_IPR, IntEvent.intDisable])
              else
                let bIntPin := r.2 % 2 ^ 8
                let u32WriteVal := ((bIntPin <<< 24) ||| (bIntPin <<< 16) |||
                  (bIntPin <<< 8) ||| bIntPin) % 2 ^ 32
                some (WDStatus.WD_STATUS_SUCCESS, some dev2,
                  t1 ++ [ IntEvent.pciReadCfg8 PCI_IPR,
                    IntEvent.host (HostEvent.writeAddr32
                      ⟨ctx2.dwConfigBarNum, XDMA_IRQ_BLOCK_CHANNEL_VECTOR_1_OFFSET, u32WriteVal⟩),
                    IntEvent.host (HostEvent.writeAddr32
                      ⟨ctx2.dwConfigBarNum, XDMA_IRQ_BLOCK_CHANNEL_VECTOR_2_OFFSET,
                        u32WriteVal⟩) ])
            else some (WDStatus.WD_STATUS_SUCCESS, some dev2, t1)

/-- The function `XDMA_IntDisable` on a device handle (`none` for `NULL`): the
status, the device and what the function did, in order. -/
def XDMA_IntDisable (h : HostService) (k : IntService) (hDev : Option WDC_DEVICE) :
    WDStatus × Option WDC_DEVICE × List IntEvent :=
  match hDev with
  | none => (WDStatus.WD_INVALID_PARAMETER, hDev, [])
  | some pDev =>
    match pDev.pCtx with
    | none => (WDStatus.WD_INVALID_PARAMETER, hDev, [])
    | some pDevCtx =>
      if !pDev.Int.fEnabled then (WDStatus.WD_OPERATION_ALREADY_DONE, hDev, [])
      else
        let c := XDMA_ChannelInterruptsDisable h.writeAddr32 pDevCtx.dwConfigBarNum 0xFFFFFFFF
        let u := XDMA_UserInterruptsDisable h.writeAddr32 pDevCtx.dwConfigBarNum 0xFFFFFFFF
        let d := WDC_IntDisable k pDev
        let t := (c.2 ++ u.2).map (fun w => IntEvent.host (HostEvent.writeAddr32 w)) ++
          [IntEvent.intDisable]
        match pDevCtx.pTrans with
        | some p => (d.1, some d.2, t ++ [IntEvent.freeTrans p])
        | none => (d.1, some d.2, t)

/-- The register writes among what the interrupt path did. -/
def regWrites (t : List IntEvent) : List RegWrite :=
  t.filterMap (fun e =>
    match e with
    | IntEvent.host (HostEvent.writeAddr32 w) => some w
    | _ => none)

/-- An interrupt service on which every call succeeds and that enables
message-signalled interrupts. -/
def msiService : IntService :=
  { calloc := true,
    intEnable := (WDStatus.WD_STATUS_SUCCESS, INTERRUPT_MESSAGE),
    pciReadCfg8 := (WDStatus.WD_STATUS_SUCCESS, 1),
    intDisable := WDStatus.WD_STATUS_SUCCESS }

/-- An interrupt service that enables a level-sensitive interrupt and whose
read of the interrupt pin fails with status `0x20000015`. -/
def pinFailService : IntService :=
  { msiService with
    intEnable := (WDStatus.WD_STATUS_SUCCESS, INTERRUPT_LEVEL_SENSITIVE),
    pciReadCfg8 := (WDStatus.other 0x20000015, 0) }

/-- The sample device after discovery: configuration BAR 2, every engine
enabled, no session, interrupts disabled. -/
def sampleIdleDevice : WDC_DEVICE :=
  { sampleDevice with pCtx := some (EnginesCreate sampleHost (zeroCtx 2)) }

/-! ## Results of a successful `XDMA_IntEnable` in closed form -/

/-- The transfer command `XDMA_IntEnable` prepares for the configuration BAR `a`. -/
def intTransCmd (a : WDC_ADDR_DESC) : WD_TRANSFER :=
  { pPort := (a.pAddr + XDMA_IRQ_BLOCK_CHANNEL_INT_REQUEST_OFFSET) % 2 ^ 64,
    cmdTrans := if a.fIsMemory then RM_DWORD else RP_DWORD,
    Dword := 0 }

/-- The device context and the device a successful `XDMA_IntEnable` leaves. -/
def enabledCtx (k : IntService) (ctx : XDMA_DEV_CTX) (a : WDC_ADDR_DESC) (f : Option Nat) :
    XDMA_DEV_CTX :=
  { ctx with funcDiagIntHandler := f, pTrans := some [intTransCmd a],
             dwEnabledIntType := k.intEnable.2 }

def enabledDevice (k : IntService) (dev : WDC_DEVICE) (ctx : XDMA_DEV_CTX) (a : WDC_ADDR_DESC)
    (f : Option Nat) : WDC_DEVICE :=
  { dev with
    pCtx := some (enabledCtx k ctx a f),
    Int := { dev.Int with fEnabled := true, dwEnabledIntType := k.intEnable.2 } }

/-- The value `XDMA_IntEnable` writes to the channel vector registers. -/
def intPinVal (k : IntService) : Nat :=
  (((k.pciReadCfg8.2 % 2 ^ 8) <<< 24) ||| ((k.pciReadCfg8.2 % 2 ^ 8) <<< 16) |||
    ((k.pciReadCfg8.2 % 2 ^ 8) <<< 8) ||| (k.pciReadCfg8.2 % 2 ^ 8)) % 2 ^ 32

/-- What a successful `XDMA_IntEnable` does, in order. -/
def enableTrace (k : IntService) (ctx : XDMA_DEV_CTX) (a : WDC_ADDR_DESC) : List IntEvent :=
  [IntEvent.calloc NUM_TRANS_CMDS, IntEvent.intEnable [intTransCmd a] NUM_TRANS_CMDS] ++
  (if k.intEnable.2 = INTERRUPT_LEVEL_SENSITIVE then
    [ IntEvent.pciReadCfg8 PCI_IPR,
      IntEvent.host (HostEvent.writeAddr32
        ⟨ctx.dwConfigBarNum, XDMA_IRQ_BLOCK_CHANNEL_VECTOR_1_OFFSET, intPinVal k⟩),
      IntEvent.host (HostEvent.writeAddr32
        ⟨ctx.dwConfigBarNum, XDMA_IRQ_BLOCK_CHANNEL_VECTOR_2_OFFSET, intPinVal k⟩) ]
   else [])

/-! ## Descriptor buffer of a transaction session -/

/-- On the slot of H2C channel 0: `XDMA_DmaOpen` of a polling session of 4096
bytes, `XDMA_DmaClose`, `XDMA_DmaOpen` of an interrupt-mode session of 4096
bytes, `XDMA_DmaClose`.  Returns the four statuses, the slot as the second
`XDMA_DmaOpen` leaves it, and the calls to the host service of each of the four
steps. -/
def openCloseTwice (h : HostService) (ctx : XDMA_DEV_CTX) :
    Option (List WDStatus × Option XDMA_DMA_STRUCT × List (List HostEvent)) :=
  match XDMA_DmaOpen h ctx (some HandleVal.null) 4096 0 true 0 true false 0 false with
  | none => none
  | some r1 =>
    match XDMA_DmaClose h r1.ctx 0 with
    | none => none
    | some c2 =>
      match XDMA_DmaOpen h c2.2.1 (some HandleVal.null) 4096 0 true 0 false false 0 false with
      | none => none
      | some r3 =>
        match XDMA_DmaClose h r3.ctx 0 with
        | none => none
        | some c4 =>
          some ([r1.dwStatus, c2.1, r3.dwStatus, c4.1], r3.ctx.pEnginesArr[0]?,
            [r1.trace, c2.2.2, r3.trace, c4.2.2])

/-- The sample host when the unlock of the descriptor buffer of the sample
session fails with status `0x20000005`. -/
def unlockFailHost : HostService :=
  { sampleHost with
    bufUnlock := fun d =>
      if d = sampleDescPin then WDStatus.other 0x20000005 else WDStatus.WD_STATUS_SUCCESS }

/-- Value of the loop variable `offset` on entry to iteration `i`. -/
def fpgaAt (s : XDMA_DMA_STRUCT) (pages : List WD_DMA_PAGE) : Nat → Nat
  | 0 => s.u64FPGAOffset
  | i + 1 =>
    if !s.fNonIncMode then
      (fpgaAt s pages i + ((pages[i]?).map WD_DMA_PAGE.dwBytes).getD 0) % 2 ^ 64
    else fpgaAt s pages i

/-- Value of the loop variable `desc_phys` on entry to iteration `i`. -/
def physAt (P : Nat) : Nat → Nat
  | 0 => P
  | i + 1 => (physAt P i + sizeof_XDMA_DMA_DESC) % 2 ^ 64

/-- What iteration `j` leaves in descriptor `j`, given page `j`. -/
structure DescDone (s : XDMA_DMA_STRUCT) (pages : List WD_DMA_PAGE) (P j : Nat)
    (x : XDMA_DMA_DESC) : Prop where
  page : ∃ pg, pages[j]? = some pg ∧ x.u32Bytes = pg.dwBytes ∧
    x.u64SrcAddr = (if s.fToDevice then pg.pPhysicalAddr else fpgaAt s pages j) ∧
    x.u64DstAddr = (if s.fToDevice then fpgaAt s pages j else pg.pPhysicalAddr)
  control : x.u32Control =
    if j < pages.length - 1 then XDMA_DESC_MAGIC
    else XDMA_DESC_MAGIC ||| (XDMA_DESC_STOPPED ||| XDMA_DESC_EOP ||| XDMA_DESC_COMPLETED)
  next : j < pages.length - 1 → x.u64NextDesc = physAt P (j + 1)

/-- The state of the loop on entry to iteration `i`. -/
structure BuildInv (s : XDMA_DMA_STRUCT) (pages : List WD_DMA_PAGE) (P cap i : Nat)
    (st : BuildState) : Prop where
  len : st.desc.length = cap
  off : st.offset = fpgaAt s pages i
  phys : st.desc_phys = physAt P i
  done : ∀ j, j < i → ∃ x, st.desc[j]? = some x ∧ DescDone s pages P j x


theorem body_inv (s : XDMA_DMA_STRUCT) (pDma : WD_DMA) (P cap i : Nat) (st : BuildState)
    (hi : i < pDma.Page.length) (hcap : pDma.Page.length ≤ cap)
    (hinv : BuildInv s pDma.Page P cap i st) :
    ∃ st1, DmaTransferBuild.body s pDma pDma.Page.length i st = some st1 ∧
      BuildInv s pDma.Page P cap (i + 1) st1 := by
  obtain ⟨hlen, hoff, hphys, hdone⟩ := hinv
  have hi2 : i < st.desc.length := by omega
  have hpg : pDma.Page[i]? = some pDma.Page[i] := List.getElem?_eq_getElem hi
  have hd0 : st.desc[i]? = some st.desc[i] := List.getElem?_eq_getElem hi2
  unfold DmaTransferBuild.body
  rw [hpg, hd0]
  refine ⟨_, rfl, ?_⟩
  constructor
  · simp [hlen]
  · simp only [fpgaAt, hpg, hoff]
    cases s.fNonIncMode <;> cases s.fToDevice <;> simp
  · simp only [physAt, hphys]
  · intro j hj
    by_cases hji : j = i
    · subst hji
      refine ⟨_, List.getElem?_set_self hi2, ?_⟩
      constructor
      · refine ⟨pDma.Page[j], hpg, ?_⟩
        by_cases hl : j < pDma.Page.length - 1 <;> cases s.fToDevice <;> simp [hl, hoff]
      · by_cases hl : j < pDma.Page.length - 1 <;> cases s.fToDevice <;> simp [hl]
      · intro hl
        cases s.fToDevice <;> simp [hl, physAt, hphys]
    · have hlt : j < i := by omega
      obtain ⟨x, hx, hxd⟩ := hdone j hlt
      refine ⟨x, ?_, hxd⟩
      rw [List.getElem?_set_ne (Ne.symm hji)]
      exact hx

theorem loop_inv (s : XDMA_DMA_STRUCT) (pDma : WD_DMA) (P cap : Nat)
    (hcap : pDma.Page.length ≤ cap) :
    ∀ (n i : Nat) (st : BuildState), i + n = pDma.Page.length →
      BuildInv s pDma.Page P cap i st →
      ∃ st1, DmaTransferBuild.loop s pDma pDma.Page.length n i st = some st1 ∧
        BuildInv s pDma.Page P cap pDma.Page.length st1 := by
  intro n
  induction n with
  | zero =>
    intro i st hin hinv
    have : i = pDma.Page.length := by omega
    subst this
    exact ⟨st, rfl, hinv⟩
  | succ n ih =>
    intro i st hin hinv
    have hi : i < pDma.Page.length := by omega
    obtain ⟨st1, hb, hinv1⟩ := body_inv s pDma P cap i st hi hcap hinv
    obtain ⟨st2, hl, hinv2⟩ := ih (i + 1) st1 (by omega) hinv1
    refine ⟨st2, ?_, hinv2⟩
    simp only [DmaTransferBuild.loop, hi, if_true, hb]
    exact hl


theorem memsetDesc_ok (buf : List XDMA_DMA_DESC) (n : Nat) (hcap : n ≤ buf.length) :
    ∃ buf0, memsetDesc buf ((n * sizeof_XDMA_DMA_DESC) % 2 ^ 32) = some buf0 ∧
      buf0.length = buf.length := by
  have hk : (n * sizeof_XDMA_DMA_DESC) % 2 ^ 32 / sizeof_XDMA_DMA_DESC ≤ buf.length := by
    have h1 : (n * sizeof_XDMA_DMA_DESC) % 2 ^ 32 ≤ n * sizeof_XDMA_DMA_DESC :=
      Nat.mod_le _ _
    have h2 : (n * sizeof_XDMA_DMA_DESC) % 2 ^ 32 / sizeof_XDMA_DMA_DESC ≤ n := by
      unfold sizeof_XDMA_DMA_DESC at *
      omega
    omega
  refine ⟨List.replicate ((n * sizeof_XDMA_DMA_DESC) % 2 ^ 32 / sizeof_XDMA_DMA_DESC)
      ⟨0, 0, 0, 0, 0⟩ ++
    buf.drop ((n * sizeof_XDMA_DMA_DESC) % 2 ^ 32 / sizeof_XDMA_DMA_DESC), ?_, ?_⟩
  · simp only [memsetDesc, hk, if_true]
  · simp only [List.length_append, List.length_replicate, List.length_drop]
    omega

/-- On a session with a pinned page list, a locked descriptor buffer and room
for one descriptor per page, `DmaTransferBuild` returns, and every descriptor
of the ring is as its iteration left it. -/
theorem DmaTransferBuild_spec (bar : Nat) (s : XDMA_DMA_STRUCT) (d dd : WD_DMA)
    (buf : List XDMA_DMA_DESC) (p0 : WD_DMA_PAGE)
    (hd : s.pDma = some d) (hdd : s.pDmaDesc = some dd) (hb : s.pDescBuf = some buf)
    (hp0 : dd.Page[0]? = some p0) (hcap : d.Page.length ≤ buf.length) :
    ∃ ring, DmaTransferBuild bar s =
        some ({ s with pDescBuf := some ring }, sgdmaWrites bar s p0.pPhysicalAddr) ∧
      ring.length = buf.length ∧
      ∀ j, j < d.Page.length →
        ∃ x, ring[j]? = some x ∧ DescDone s d.Page p0.pPhysicalAddr j x := by
  obtain ⟨buf0, hm, hlen0⟩ := memsetDesc_ok buf d.Page.length hcap
  have hinv0 : BuildInv s d.Page p0.pPhysicalAddr buf.length 0
      { desc := buf0, offset := s.u64FPGAOffset, desc_phys := p0.pPhysicalAddr } :=
    ⟨hlen0, rfl, rfl, fun j hj => absurd hj (Nat.not_lt_zero j)⟩
  obtain ⟨st, hl, hinv⟩ := loop_inv s d p0.pPhysicalAddr buf.length hcap
    d.Page.length 0 _ (by omega) hinv0
  refine ⟨st.desc, ?_, hinv.len, hinv.done⟩
  unfold DmaTransferBuild
  simp only [hd, hdd, hb, hp0, WD_DMA.dwPages, hm, hl, sgdmaWrites]

theorem fpgaAt_nonInc (s : XDMA_DMA_STRUCT) (pages : List WD_DMA_PAGE)
    (h : s.fNonIncMode = true) : ∀ i, fpgaAt s pages i = s.u64FPGAOffset := by
  intro i
  induction i with
  | zero => rfl
  | succ i ih => simp [fpgaAt, h, ih]

theorem fpgaAt_succ_inc (s : XDMA_DMA_STRUCT) (pages : List WD_DMA_PAGE)
    (h : s.fNonIncMode = false) (i : Nat) (pg : WD_DMA_PAGE) (hpg : pages[i]? = some pg) :
    fpgaAt s pages (i + 1) = (fpgaAt s pages i + pg.dwBytes) % 2 ^ 64 := by
  simp [fpgaAt, h, hpg]

theorem take_map_eq_of_getElem? {α β γ : Type} (f : α → γ) (g : β → γ) (l : List α)
    (pages : List β)
    (h : ∀ j, j < pages.length → ∃ x pg, l[j]? = some x ∧ pages[j]? = some pg ∧ f x = g pg) :
    (l.take pages.length).map f = pages.map g := by
  apply List.ext_getElem?
  intro j
  by_cases hj : j < pages.length
  · obtain ⟨x, pg, hx, hpg, hfg⟩ := h j hj
    rw [List.getElem?_map, List.getElem?_map, List.getElem?_take, if_pos hj, hx, hpg]
    simp [hfg]
  · have h1 : pages.length ≤ j := by omega
    have h2 : (List.take pages.length l).length ≤ j := by
      simp only [List.length_take]; omega
    rw [List.getElem?_map, List.getElem?_map, List.getElem?_eq_none h1,
      List.getElem?_eq_none h2]
    rfl


/-! ## Descriptor ring: control words, byte counts, addresses -/

/-- C1: after `DmaTransferBuild` on a session with `N` pages, descriptor `i`
has control word `0xAD4B0000` for `i < N - 1` and `0xAD4B0013` for `i = N - 1`:
every descriptor carries the magic `0xAD4B` in its top 16 bits and the flags
STOPPED, COMPLETED and EOP are set on the last descriptor and on no other. -/
theorem C1_control_words (bar : Nat) (s : XDMA_DMA_STRUCT) (d dd : WD_DMA)
    (buf : List XDMA_DMA_DESC) (p0 : WD_DMA_PAGE)
    (hd : s.pDma = some d) (hdd : s.pDmaDesc = some dd) (hb : s.pDescBuf = some buf)
    (hp0 : dd.Page[0]? = some p0) (hcap : d.Page.length ≤ buf.length)
    (hN : 1 ≤ d.Page.length) :
    ∃ s1 w ring, DmaTransferBuild bar s = some (s1, w) ∧ s1.pDescBuf = some ring ∧
      ∀ i, i < d.Page.length → ∃ x, ring[i]? = some x ∧
        x.u32Control = (if i < d.Page.length - 1 then 0xAD4B0000 else 0xAD4B0013) ∧
        x.u32Control >>> 16 = 0xAD4B ∧
        x.u32Control &&& (XDMA_DESC_STOPPED ||| XDMA_DESC_EOP ||| XDMA_DESC_COMPLETED) =
          (if i = d.Page.length - 1 then 0x13 else 0) := by
  obtain ⟨ring, hrun, _, hdone⟩ := DmaTransferBuild_spec bar s d dd buf p0 hd hdd hb hp0 hcap
  refine ⟨_, _, ring, hrun, rfl, ?_⟩
  intro i hi
  obtain ⟨x, hx, hxd⟩ := hdone i hi
  refine ⟨x, hx, ?_⟩
  have hc := hxd.control
  by_cases hl : i < d.Page.length - 1
  · have hne : ¬ i = d.Page.length - 1 := by omega
    rw [if_pos hl] at hc
    rw [hc, if_pos hl, if_neg hne]
    decide
  · have he : i = d.Page.length - 1 := by omega
    rw [if_neg hl] at hc
    rw [hc, if_neg hl, if_pos he]
    decide

theorem C1_control_words_witness :
    1 ≤ samplePin.Page.length ∧
    ∃ s1 w ring, DmaTransferBuild 0 sampleSession = some (s1, w) ∧
      s1.pDescBuf = some ring ∧
      ∀ i, i < samplePin.Page.length → ∃ x, ring[i]? = some x ∧
        x.u32Control = (if i < samplePin.Page.length - 1 then 0xAD4B0000 else 0xAD4B0013) ∧
        x.u32Control >>> 16 = 0xAD4B ∧
        x.u32Control &&& (XDMA_DESC_STOPPED ||| XDMA_DESC_EOP ||| XDMA_DESC_COMPLETED) =
          (if i = samplePin.Page.length - 1 then 0x13 else 0) :=
  ⟨by decide,
   C1_control_words 0 sampleSession samplePin sampleDescPin sampleDescBuf ⟨0xABC000, 96⟩
    rfl rfl rfl rfl (by decide) (by decide)⟩

/-- C2: after `DmaTransferBuild` the byte count of descriptor `i` is the byte
count of page `i`, so the byte counts of the ring sum to the byte counts of
the pages, and to the requested size `dwBytes` when the page list covers
exactly the requested bytes. -/
theorem C2_byte_counts (bar : Nat) (s : XDMA_DMA_STRUCT) (d dd : WD_DMA)
    (buf : List XDMA_DMA_DESC) (p0 : WD_DMA_PAGE)
    (hd : s.pDma = some d) (hdd : s.pDmaDesc = some dd) (hb : s.pDescBuf = some buf)
    (hp0 : dd.Page[0]? = some p0) (hcap : d.Page.length ≤ buf.length) :
    ∃ s1 w ring, DmaTransferBuild bar s = some (s1, w) ∧ s1.pDescBuf = some ring ∧
      (∀ (i : Nat) (pg : WD_DMA_PAGE), d.Page[i]? = some pg →
        ∃ x : XDMA_DMA_DESC, ring[i]? = some x ∧ x.u32Bytes = pg.dwBytes) ∧
      ((ring.take d.Page.length).map XDMA_DMA_DESC.u32Bytes).sum =
        (d.Page.map WD_DMA_PAGE.dwBytes).sum ∧
      ((d.Page.map WD_DMA_PAGE.dwBytes).sum = s.dwBytes →
        ((ring.take d.Page.length).map XDMA_DMA_DESC.u32Bytes).sum = s.dwBytes) := by
  obtain ⟨ring, hrun, _, hdone⟩ := DmaTransferBuild_spec bar s d dd buf p0 hd hdd hb hp0 hcap
  have hlist : (ring.take d.Page.length).map XDMA_DMA_DESC.u32Bytes =
      d.Page.map WD_DMA_PAGE.dwBytes := by
    apply take_map_eq_of_getElem?
    intro j hj
    obtain ⟨x, hx, hxd⟩ := hdone j hj
    obtain ⟨pg, hpg, hbytes, _⟩ := hxd.page
    exact ⟨x, pg, hx, hpg, hbytes⟩
  refine ⟨_, _, ring, hrun, rfl, ?_, by rw [hlist], fun h => by rw [hlist, h]⟩
  intro i pg hpg
  have hi : i < d.Page.length := by
    obtain ⟨h, _⟩ := List.getElem?_eq_some.mp hpg
    exact h
  obtain ⟨x, hx, hxd⟩ := hdone i hi
  obtain ⟨pg1, hpg1, hbytes, _⟩ := hxd.page
  rw [hpg] at hpg1
  cases hpg1
  exact ⟨x, hx, hbytes⟩

theorem C2_byte_counts_witness :
    ∃ s1 w ring, DmaTransferBuild 0 sampleSession = some (s1, w) ∧
      s1.pDescBuf = some ring ∧
      (∀ (i : Nat) (pg : WD_DMA_PAGE), samplePin.Page[i]? = some pg →
        ∃ x : XDMA_DMA_DESC, ring[i]? = some x ∧ x.u32Bytes = pg.dwBytes) ∧
      ((ring.take samplePin.Page.length).map XDMA_DMA_DESC.u32Bytes).sum =
        (samplePin.Page.map WD_DMA_PAGE.dwBytes).sum ∧
      ((ring.take samplePin.Page.length).map XDMA_DMA_DESC.u32Bytes).sum = 8292 := by
  obtain ⟨s1, w, ring, h1, h2, h3, h4, h5⟩ :=
    C2_byte_counts 0 sampleSession samplePin sampleDescPin sampleDescBuf ⟨0xABC000, 96⟩
      rfl rfl rfl rfl (by decide)
  exact ⟨s1, w, ring, h1, h2, h3, h4, h5 (by decide)⟩


/-- C3: after `DmaTransferBuild`, descriptor `i` of an H2C session has source
the physical address of page `i` and destination the FPGA-side address (the
value of `offset` in iteration `i`); for a C2H session source and destination
are exchanged.  The host-side addresses of the ring are the physical
addresses of the pages of the pin, in order. -/
theorem C3_source_destination (bar : Nat) (s : XDMA_DMA_STRUCT) (d dd : WD_DMA)
    (buf : List XDMA_DMA_DESC) (p0 : WD_DMA_PAGE)
    (hd : s.pDma = some d) (hdd : s.pDmaDesc = some dd) (hb : s.pDescBuf = some buf)
    (hp0 : dd.Page[0]? = some p0) (hcap : d.Page.length ≤ buf.length) :
    ∃ s1 w ring, DmaTransferBuild bar s = some (s1, w) ∧ s1.pDescBuf = some ring ∧
      (∀ (i : Nat) (pg : WD_DMA_PAGE), d.Page[i]? = some pg →
        ∃ x : XDMA_DMA_DESC, ring[i]? = some x ∧
          x.u64SrcAddr = (if s.fToDevice then pg.pPhysicalAddr else fpgaAt s d.Page i) ∧
          x.u64DstAddr = (if s.fToDevice then fpgaAt s d.Page i else pg.pPhysicalAddr)) ∧
      (ring.take d.Page.length).map (hostAddr s) = d.Page.map WD_DMA_PAGE.pPhysicalAddr := by
  obtain ⟨ring, hrun, _, hdone⟩ := DmaTransferBuild_spec bar s d dd buf p0 hd hdd hb hp0 hcap
  refine ⟨_, _, ring, hrun, rfl, ?_, ?_⟩
  · intro i pg hpg
    have hi : i < d.Page.length := by
      obtain ⟨h, _⟩ := List.getElem?_eq_some.mp hpg
      exact h
    obtain ⟨x, hx, hxd⟩ := hdone i hi
    obtain ⟨pg1, hpg1, _, hsrc, hdst⟩ := hxd.page
    rw [hpg] at hpg1
    cases hpg1
    exact ⟨x, hx, hsrc, hdst⟩
  · apply take_map_eq_of_getElem?
    intro j hj
    obtain ⟨x, hx, hxd⟩ := hdone j hj
    obtain ⟨pg, hpg, _, hsrc, hdst⟩ := hxd.page
    refine ⟨x, pg, hx, hpg, ?_⟩
    unfold hostAddr
    cases hf : s.fToDevice
    · rw [hf] at hdst; simpa using hdst
    · rw [hf] at hsrc; simpa using hsrc

theorem C3_source_destination_witness :
    ∃ s1 w ring, DmaTransferBuild 0 sampleSessionNonInc = some (s1, w) ∧
      s1.pDescBuf = some ring ∧
      (∀ (i : Nat) (pg : WD_DMA_PAGE), samplePin.Page[i]? = some pg →
        ∃ x : XDMA_DMA_DESC, ring[i]? = some x ∧
          x.u64SrcAddr = (if sampleSessionNonInc.fToDevice then pg.pPhysicalAddr
            else fpgaAt sampleSessionNonInc samplePin.Page i) ∧
          x.u64DstAddr = (if sampleSessionNonInc.fToDevice
            then fpgaAt sampleSessionNonInc samplePin.Page i else pg.pPhysicalAddr)) ∧
      (ring.take samplePin.Page.length).map (hostAddr sampleSessionNonInc) =
        samplePin.Page.map WD_DMA_PAGE.pPhysicalAddr :=
  C3_source_destination 0 sampleSessionNonInc samplePin sampleDescPin sampleDescBuf
    ⟨0xABC000, 96⟩ rfl rfl rfl rfl (by decide)

/-- C4: after `DmaTransferBuild` on a non-increment session, the FPGA-side
address of every descriptor of the ring is the FPGA offset of the session. -/
theorem C4_non_increment_address (bar : Nat) (s : XDMA_DMA_STRUCT) (d dd : WD_DMA)
    (buf : List XDMA_DMA_DESC) (p0 : WD_DMA_PAGE)
    (hd : s.pDma = some d) (hdd : s.pDmaDesc = some dd) (hb : s.pDescBuf = some buf)
    (hp0 : dd.Page[0]? = some p0) (hcap : d.Page.length ≤ buf.length)
    (hnoninc : s.fNonIncMode = true) :
    ∃ s1 w ring, DmaTransferBuild bar s = some (s1, w) ∧ s1.pDescBuf = some ring ∧
      ∀ i, i < d.Page.length →
        ∃ x, ring[i]? = some x ∧ fpgaAddr s x = s.u64FPGAOffset := by
  obtain ⟨ring, hrun, _, hdone⟩ := DmaTransferBuild_spec bar s d dd buf p0 hd hdd hb hp0 hcap
  refine ⟨_, _, ring, hrun, rfl, ?_⟩
  intro i hi
  obtain ⟨x, hx, hxd⟩ := hdone i hi
  obtain ⟨pg, _, _, hsrc, hdst⟩ := hxd.page
  refine ⟨x, hx, ?_⟩
  rw [fpgaAt_nonInc s d.Page hnoninc i] at hsrc hdst
  unfold fpgaAddr
  cases hf : s.fToDevice
  · rw [hf] at hsrc; simpa using hsrc
  · rw [hf] at hdst; simpa using hdst

theorem C4_non_increment_address_witness :
    ∃ s1 w ring, DmaTransferBuild 0 sampleSessionNonInc = some (s1, w) ∧
      s1.pDescBuf = some ring ∧
      ∀ i, i < samplePin.Page.length →
        ∃ x, ring[i]? = some x ∧ fpgaAddr sampleSessionNonInc x = 0x1000 :=
  C4_non_increment_address 0 sampleSessionNonInc samplePin sampleDescPin sampleDescBuf
    ⟨0xABC000, 96⟩ rfl rfl rfl rfl (by decide) rfl


/-! ## FPGA-side addresses of an incrementing session -/

theorem fpgaAddr_of_done (s : XDMA_DMA_STRUCT) (pages : List WD_DMA_PAGE) (P j : Nat)
    (x : XDMA_DMA_DESC) (h : DescDone s pages P j x) :
    fpgaAddr s x = fpgaAt s pages j := by
  obtain ⟨pg, _, _, hsrc, hdst⟩ := h.page
  unfold fpgaAddr
  cases hf : s.fToDevice
  · rw [hf] at hsrc; simpa using hsrc
  · rw [hf] at hdst; simpa using hdst

theorem bytesBefore_succ (pages : List WD_DMA_PAGE) (i : Nat) (pg : WD_DMA_PAGE)
    (h : pages[i]? = some pg) :
    bytesBefore pages (i + 1) = bytesBefore pages i + pg.dwBytes := by
  unfold bytesBefore
  rw [List.take_succ, h]
  simp

theorem bytesBefore_le_succ (pages : List WD_DMA_PAGE) (i : Nat) :
    bytesBefore pages i ≤ bytesBefore pages (i + 1) := by
  unfold bytesBefore
  rw [List.take_succ]
  simp

theorem bytesBefore_mono (pages : List WD_DMA_PAGE) (i j : Nat) (h : i ≤ j) :
    bytesBefore pages i ≤ bytesBefore pages j := by
  induction j, h using Nat.le_induction with
  | base => exact Nat.le_refl _
  | succ k _ ih => exact Nat.le_trans ih (bytesBefore_le_succ pages k)

theorem bytesBefore_length (pages : List WD_DMA_PAGE) :
    bytesBefore pages pages.length = (pages.map WD_DMA_PAGE.dwBytes).sum := by
  unfold bytesBefore
  rw [List.take_length]

theorem fpgaAt_inc_closed (s : XDMA_DMA_STRUCT) (pages : List WD_DMA_PAGE)
    (hinc : s.fNonIncMode = false)
    (hpos : ∀ pg, pg ∈ pages → 0 < pg.dwBytes)
    (hfit : s.u64FPGAOffset + (pages.map WD_DMA_PAGE.dwBytes).sum ≤ 2 ^ 64) :
    ∀ i, i < pages.length → fpgaAt s pages i = s.u64FPGAOffset + bytesBefore pages i := by
  intro i
  induction i with
  | zero => intro _; simp [fpgaAt, bytesBefore]
  | succ i ih =>
    intro hi
    have hi0 : i < pages.length := by omega
    have hpg : pages[i]? = some pages[i] := List.getElem?_eq_getElem hi0
    have hpg1 : pages[i + 1]? = some pages[i + 1] := List.getElem?_eq_getElem hi
    have hb1 : 0 < pages[i + 1].dwBytes := hpos _ (List.getElem_mem hi)
    have h1 := bytesBefore_succ pages i _ hpg
    have h2 := bytesBefore_succ pages (i + 1) _ hpg1
    have h3 := bytesBefore_mono pages (i + 1 + 1) pages.length (by omega)
    rw [bytesBefore_length] at h3
    rw [fpgaAt_succ_inc s pages hinc i _ hpg, ih hi0, h1, Nat.add_assoc]
    apply Nat.mod_eq_of_lt
    omega


/-- C5 (as amended): after `DmaTransferBuild` on an incrementing session whose
pages all have a non-zero byte count and whose FPGA window (offset plus total
byte count) ends at or below `2 ^ 64`, descriptor 0 has the FPGA offset of the
session as FPGA-side address, descriptor `i + 1` has the FPGA-side address of
descriptor `i` plus the byte count of descriptor `i`, and the FPGA-side
addresses are strictly increasing. -/
theorem C5_incrementing_addresses (bar : Nat) (s : XDMA_DMA_STRUCT) (d dd : WD_DMA)
    (buf : List XDMA_DMA_DESC) (p0 : WD_DMA_PAGE)
    (hd : s.pDma = some d) (hdd : s.pDmaDesc = some dd) (hb : s.pDescBuf = some buf)
    (hp0 : dd.Page[0]? = some p0) (hcap : d.Page.length ≤ buf.length)
    (hinc : s.fNonIncMode = false)
    (hpos : ∀ pg, pg ∈ d.Page → 0 < pg.dwBytes)
    (hfit : s.u64FPGAOffset + (d.Page.map WD_DMA_PAGE.dwBytes).sum ≤ 2 ^ 64) :
    ∃ s1 w ring, DmaTransferBuild bar s = some (s1, w) ∧ s1.pDescBuf = some ring ∧
      ∀ i, i < d.Page.length → ∃ x, ring[i]? = some x ∧
        (i = 0 → fpgaAddr s x = s.u64FPGAOffset) ∧
        ∀ j, i < j → j < d.Page.length → ∃ y, ring[j]? = some y ∧
          fpgaAddr s x < fpgaAddr s y ∧
          (j = i + 1 → fpgaAddr s y = fpgaAddr s x + x.u32Bytes) := by
  obtain ⟨ring, hrun, _, hdone⟩ := DmaTransferBuild_spec bar s d dd buf p0 hd hdd hb hp0 hcap
  refine ⟨_, _, ring, hrun, rfl, ?_⟩
  intro i hi
  obtain ⟨x, hx, hxd⟩ := hdone i hi
  have hax : fpgaAddr s x = s.u64FPGAOffset + bytesBefore d.Page i := by
    rw [fpgaAddr_of_done s d.Page _ i x hxd]
    exact fpgaAt_inc_closed s d.Page hinc hpos hfit i hi
  obtain ⟨pg, hpg, hbytes, _⟩ := hxd.page
  have hpgpos : 0 < pg.dwBytes := hpos pg (List.getElem?_mem hpg)
  have hsucc := bytesBefore_succ d.Page i pg hpg
  refine ⟨x, hx, ?_, ?_⟩
  · intro h0
    subst h0
    rw [hax]
    simp [bytesBefore]
  · intro j hij hj
    obtain ⟨y, hy, hyd⟩ := hdone j hj
    have hay : fpgaAddr s y = s.u64FPGAOffset + bytesBefore d.Page j := by
      rw [fpgaAddr_of_done s d.Page _ j y hyd]
      exact fpgaAt_inc_closed s d.Page hinc hpos hfit j hj
    have hmono := bytesBefore_mono d.Page (i + 1) j hij
    refine ⟨y, hy, by omega, ?_⟩
    intro hji
    subst hji
    omega

theorem C5_incrementing_addresses_witness :
    ∃ s1 w ring, DmaTransferBuild 0 sampleSession = some (s1, w) ∧
      s1.pDescBuf = some ring ∧
      ∀ i, i < samplePin.Page.length → ∃ x, ring[i]? = some x ∧
        (i = 0 → fpgaAddr sampleSession x = sampleSession.u64FPGAOffset) ∧
        ∀ j, i < j → j < samplePin.Page.length → ∃ y, ring[j]? = some y ∧
          fpgaAddr sampleSession x < fpgaAddr sampleSession y ∧
          (j = i + 1 → fpgaAddr sampleSession y = fpgaAddr sampleSession x + x.u32Bytes) :=
  C5_incrementing_addresses 0 sampleSession samplePin sampleDescPin sampleDescBuf
    ⟨0xABC000, 96⟩ rfl rfl rfl rfl (by decide) rfl (by decide) (by decide)

/-- C5 fails as stated: on an incrementing session with FPGA offset
`0xFFFFFFFFFFFFF000` and two pages of 4096 bytes, descriptor 0 has FPGA-side
address `0xFFFFFFFFFFFFF000` and descriptor 1 has FPGA-side address 0, which
is neither the address of descriptor 0 plus its byte count nor greater than
the address of descriptor 0. -/
theorem C5_counterexample :
    wrapSession.fNonIncMode = false ∧
    ∃ s1 w x0 x1, DmaTransferBuild 0 wrapSession = some (s1, w) ∧
      s1.pDescBuf = some [x0, x1, ⟨7, 7, 7, 7, 7⟩] ∧
      fpgaAddr wrapSession x0 = 0xFFFFFFFFFFFFF000 ∧ x0.u32Bytes = 4096 ∧
      fpgaAddr wrapSession x1 = 0 ∧
      fpgaAddr wrapSession x1 ≠ fpgaAddr wrapSession x0 + x0.u32Bytes ∧
      ¬ (fpgaAddr wrapSession x0 < fpgaAddr wrapSession x1) :=
  ⟨rfl,
   { wrapSession with pDescBuf := some (
      [⟨0xAD4B0000, 4096, 0x10000, 0xFFFFFFFFFFFFF000, 0xABC020⟩,
       ⟨0xAD4B0013, 4096, 0x30000, 0, 0⟩, ⟨7, 7, 7, 7, 7⟩]) },
   [⟨0, 0x4180, 0xABC000⟩, ⟨0, 0x4184, 0⟩, ⟨0, 0x4188, 0⟩],
   ⟨0xAD4B0000, 4096, 0x10000, 0xFFFFFFFFFFFFF000, 0xABC020⟩,
   ⟨0xAD4B0013, 4096, 0x30000, 0, 0⟩,
   by decide, rfl, by decide, rfl, by decide, by decide, by decide⟩

/-! ## Next-descriptor pointers and SGDMA registers -/

theorem physAt_closed (P : Nat) :
    ∀ k, P + sizeof_XDMA_DMA_DESC * k < 2 ^ 64 → physAt P k = P + sizeof_XDMA_DMA_DESC * k := by
  intro k
  induction k with
  | zero => intro _; simp [physAt]
  | succ k ih =>
    intro hk
    have hk0 : P + sizeof_XDMA_DMA_DESC * k < 2 ^ 64 := by
      unfold sizeof_XDMA_DMA_DESC at *; omega
    have hlt : P + sizeof_XDMA_DMA_DESC * k + sizeof_XDMA_DMA_DESC < 2 ^ 64 := by
      unfold sizeof_XDMA_DMA_DESC at *; omega
    rw [physAt, ih hk0, Nat.mod_eq_of_lt hlt]
    unfold sizeof_XDMA_DMA_DESC
    omega

/-- C6: after `DmaTransferBuild` on a session with `N` pages whose descriptor
ring (`N` descriptors of 32 bytes at physical address `P`) lies within the
64-bit physical address space, the next-descriptor field of descriptor `i` is
`P + 32 * (i + 1)` for every `i < N - 1`. -/
theorem C6_next_descriptor (bar : Nat) (s : XDMA_DMA_STRUCT) (d dd : WD_DMA)
    (buf : List XDMA_DMA_DESC) (p0 : WD_DMA_PAGE)
    (hd : s.pDma = some d) (hdd : s.pDmaDesc = some dd) (hb : s.pDescBuf = some buf)
    (hp0 : dd.Page[0]? = some p0) (hcap : d.Page.length ≤ buf.length)
    (hring : p0.pPhysicalAddr + 32 * d.Page.length ≤ 2 ^ 64) :
    ∃ s1 w ring, DmaTransferBuild bar s = some (s1, w) ∧ s1.pDescBuf = some ring ∧
      ∀ i, i < d.Page.length - 1 →
        ∃ x, ring[i]? = some x ∧ x.u64NextDesc = p0.pPhysicalAddr + 32 * (i + 1) := by
  obtain ⟨ring, hrun, _, hdone⟩ := DmaTransferBuild_spec bar s d dd buf p0 hd hdd hb hp0 hcap
  refine ⟨_, _, ring, hrun, rfl, ?_⟩
  intro i hi
  obtain ⟨x, hx, hxd⟩ := hdone i (by omega)
  refine ⟨x, hx, ?_⟩
  rw [hxd.next hi]
  exact physAt_closed p0.pPhysicalAddr (i + 1) (by unfold sizeof_XDMA_DMA_DESC; omega)

theorem C6_next_descriptor_witness :
    ∃ s1 w ring, DmaTransferBuild 0 sampleSession = some (s1, w) ∧
      s1.pDescBuf = some ring ∧
      ∀ i, i < samplePin.Page.length - 1 →
        ∃ x, ring[i]? = some x ∧ x.u64NextDesc = 0xABC000 + 32 * (i + 1) :=
  C6_next_descriptor 0 sampleSession samplePin sampleDescPin sampleDescBuf
    ⟨0xABC000, 96⟩ rfl rfl rfl rfl (by decide) (by decide)


theorem addr_halves (P : Nat) (hP : P < 2 ^ 64) :
    DMA_ADDR_LOW P = P % 2 ^ 32 ∧ DMA_ADDR_HIGH P = P / 2 ^ 32 ∧
      (DMA_ADDR_HIGH P <<< 32) ||| DMA_ADDR_LOW P = P := by
  have hlow : DMA_ADDR_LOW P = P % 2 ^ 32 := by
    unfold DMA_ADDR_LOW
    have h := Nat.and_pow_two_sub_one_eq_mod P 32
    have h32 : (2 : Nat) ^ 32 - 1 = 0xffffffff := by norm_num
    rw [h32] at h
    rw [h, Nat.mod_mod]
  have hhigh : DMA_ADDR_HIGH P = P / 2 ^ 32 := by
    unfold DMA_ADDR_HIGH
    rw [Nat.shiftRight_eq_div_pow]
    apply Nat.mod_eq_of_lt
    have : (2 : Nat) ^ 64 = 2 ^ 32 * 2 ^ 32 := by norm_num
    rw [this] at hP
    exact Nat.div_lt_of_lt_mul hP
  refine ⟨hlow, hhigh, ?_⟩
  rw [hlow, hhigh, Nat.shiftLeft_eq, Nat.mul_comm,
    ← Nat.mul_add_lt_is_or (Nat.mod_lt P (by norm_num)) (P / 2 ^ 32)]
  exact Nat.div_add_mod P (2 ^ 32)

/-- C7: the register writes of `DmaTransferBuild` for a session on channel
`ch` (0..3) whose descriptor ring is at physical address `P` are, in order:
the low 32 bits of `P` to `0x4080 + 0x100 * ch` (H2C) or `0x5080 + 0x100 * ch`
(C2H), the high 32 bits of `P` to `0x4084` or `0x5084` plus `0x100 * ch`, and 0
to the adjacent-count register at `0x4088` or `0x5088` plus `0x100 * ch`; the
two halves recombine to `P`. -/
theorem C7_sgdma_registers (bar : Nat) (s : XDMA_DMA_STRUCT) (d dd : WD_DMA)
    (buf : List XDMA_DMA_DESC) (p0 : WD_DMA_PAGE)
    (hd : s.pDma = some d) (hdd : s.pDmaDesc = some dd) (hb : s.pDescBuf = some buf)
    (hp0 : dd.Page[0]? = some p0) (hcap : d.Page.length ≤ buf.length)
    (hch : s.dwChannel < XDMA_CHANNELS_NUM) (hP : p0.pPhysicalAddr < 2 ^ 64) :
    ∃ s1 lo hi, DmaTransferBuild bar s = some (s1,
        [ ⟨bar, (if s.fToDevice then 0x4080 else 0x5080) + 0x100 * s.dwChannel, lo⟩,
          ⟨bar, (if s.fToDevice then 0x4084 else 0x5084) + 0x100 * s.dwChannel, hi⟩,
          ⟨bar, (if s.fToDevice then 0x4088 else 0x5088) + 0x100 * s.dwChannel, 0⟩ ]) ∧
      lo = p0.pPhysicalAddr % 2 ^ 32 ∧ hi = p0.pPhysicalAddr / 2 ^ 32 ∧
      (hi <<< 32) ||| lo = p0.pPhysicalAddr := by
  obtain ⟨ring, hrun, _, _⟩ := DmaTransferBuild_spec bar s d dd buf p0 hd hdd hb hp0 hcap
  obtain ⟨hlo, hhi, hrec⟩ := addr_halves p0.pPhysicalAddr hP
  refine ⟨{ s with pDescBuf := some ring }, DMA_ADDR_LOW p0.pPhysicalAddr,
    DMA_ADDR_HIGH p0.pPhysicalAddr, ?_, hlo, hhi, hrec⟩
  rw [hrun]
  have h32 : (2 : Nat) ^ 32 = 4294967296 := by norm_num
  unfold XDMA_CHANNELS_NUM at hch
  simp only [sgdmaWrites, XDMA_CHANNEL_OFFSET, XDMA_CHANNEL_SPACING, h32,
    XDMA_H2C_SGDMA_DESC_LOW_OFFSET, XDMA_C2H_SGDMA_DESC_LOW_OFFSET,
    XDMA_H2C_SGDMA_DESC_HIGH_OFFSET, XDMA_C2H_SGDMA_DESC_HIGH_OFFSET,
    XDMA_H2C_SGDMA_DESC_ADJACENT_OFFSET, XDMA_C2H_SGDMA_DESC_ADJACENT_OFFSET]
  cases s.fToDevice
  · have e1 : (0x5080 + s.dwChannel * 0x100) % 4294967296 = 0x5080 + 0x100 * s.dwChannel := by
      omega
    have e2 : (0x5084 + s.dwChannel * 0x100) % 4294967296 = 0x5084 + 0x100 * s.dwChannel := by
      omega
    have e3 : (0x5088 + s.dwChannel * 0x100) % 4294967296 = 0x5088 + 0x100 * s.dwChannel := by
      omega
    simp [e1, e2, e3]
  · have e1 : (0x4080 + s.dwChannel * 0x100) % 4294967296 = 0x4080 + 0x100 * s.dwChannel := by
      omega
    have e2 : (0x4084 + s.dwChannel * 0x100) % 4294967296 = 0x4084 + 0x100 * s.dwChannel := by
      omega
    have e3 : (0x4088 + s.dwChannel * 0x100) % 4294967296 = 0x4088 + 0x100 * s.dwChannel := by
      omega
    simp [e1, e2, e3]

theorem C7_sgdma_registers_witness :
    ∃ s1 lo hi, DmaTransferBuild 0 sampleSession = some (s1,
        [ ⟨0, 0x4080 + 0x100 * 1, lo⟩, ⟨0, 0x4084 + 0x100 * 1, hi⟩,
          ⟨0, 0x4088 + 0x100 * 1, 0⟩ ]) ∧
      lo = 0xABC000 % 2 ^ 32 ∧ hi = 0xABC000 / 2 ^ 32 ∧ (hi <<< 32) ||| lo = 0xABC000 :=
  C7_sgdma_registers 0 sampleSession samplePin sampleDescPin sampleDescBuf
    ⟨0xABC000, 96⟩ rfl rfl rfl rfl (by decide) (by decide) (by decide)


/-! ## Engine control register: Start and Stop -/

theorem ctrlWrites_append (bar : Nat) (s : XDMA_DMA_STRUCT) (w1 w2 : List RegWrite) :
    ctrlWrites bar s (w1 ++ w2) = ctrlWrites bar s w1 ++ ctrlWrites bar s w2 := by
  simp [ctrlWrites, List.filter_append]

theorem ctrlWrites_set (wr : RegWrite → WDStatus) (bar : Nat) (s : XDMA_DMA_STRUCT) (v : Nat) :
    ctrlWrites bar s (EngineCtrlRegisterSet wr bar s.dwChannel s.fToDevice v).2 = [v] := by
  simp [ctrlWrites, EngineCtrlRegisterSet, ctrlOffset]

theorem ctrlWrites_enable (wr : RegWrite → WDStatus) (bar : Nat) (s : XDMA_DMA_STRUCT) :
    ctrlWrites bar s
      (EnableDmaInterrupts wr bar s.dwChannel s.fStreaming s.fToDevice).2 = [] := by
  have h32 : (2 : Nat) ^ 32 = 4294967296 := by norm_num
  have h1 : ∀ f : Bool,
      XDMA_CHANNEL_OFFSET s.dwChannel
        (if f then XDMA_H2C_CHANNEL_INT_ENABLE_MASK_OFFSET
         else XDMA_C2H_CHANNEL_INT_ENABLE_MASK_OFFSET) ≠ ctrlOffset s.dwChannel f := by
    intro f
    cases f <;>
      simp only [ctrlOffset, XDMA_CHANNEL_OFFSET, XDMA_CHANNEL_SPACING, h32,
        XDMA_H2C_CHANNEL_INT_ENABLE_MASK_OFFSET, XDMA_C2H_CHANNEL_INT_ENABLE_MASK_OFFSET,
        XDMA_H2C_CHANNEL_CONTROL_OFFSET, XDMA_C2H_CHANNEL_CONTROL_OFFSET] <;>
      simp <;> omega
  have h2 : ∀ f : Bool,
      XDMA_IRQ_BLOCK_CHANNEL_INT_ENABLE_MASK_W1S_OFFSET ≠ ctrlOffset s.dwChannel f := by
    intro f
    cases f <;>
      simp only [ctrlOffset, XDMA_CHANNEL_OFFSET, XDMA_CHANNEL_SPACING, h32,
        XDMA_IRQ_BLOCK_CHANNEL_INT_ENABLE_MASK_W1S_OFFSET,
        XDMA_H2C_CHANNEL_CONTROL_OFFSET, XDMA_C2H_CHANNEL_CONTROL_OFFSET] <;>
      simp <;> omega
  simp [ctrlWrites, EnableDmaInterrupts, XDMA_ChannelInterruptsEnable, h1, h2]

theorem start_result (wr : RegWrite → WDStatus) (bar : Nat) (s : XDMA_DMA_STRUCT)
    (hwb : s.fPolling = true → s.pWBBuf ≠ none) :
    ∃ st s1, XDMA_DmaTransferStart true wr bar s = some (st, s1,
      (if s.fPolling then []
       else (EnableDmaInterrupts wr bar s.dwChannel s.fStreaming s.fToDevice).2) ++
      (EngineCtrlRegisterSet wr bar s.dwChannel s.fToDevice
        (XDMA_DmaTransferStart.val true s)).2) := by
  have he : (EnableDmaInterrupts wr bar s.dwChannel s.fStreaming s.fToDevice).1 =
      WDStatus.WD_STATUS_SUCCESS := rfl
  cases hp : s.fPolling
  · by_cases hr : (EngineCtrlRegisterSet wr bar s.dwChannel s.fToDevice
        (XDMA_DmaTransferStart.val true s)).1 = WDStatus.WD_STATUS_SUCCESS
    · refine ⟨WDStatus.WD_STATUS_SUCCESS, s, ?_⟩
      simp [XDMA_DmaTransferStart, hp, he, hr]
    · refine ⟨(EngineCtrlRegisterSet wr bar s.dwChannel s.fToDevice
        (XDMA_DmaTransferStart.val true s)).1, s, ?_⟩
      simp [XDMA_DmaTransferStart, hp, he, hr]
  · obtain ⟨wb, hwb1⟩ := Option.ne_none_iff_exists'.mp (hwb hp)
    by_cases hr : (EngineCtrlRegisterSet wr bar s.dwChannel s.fToDevice
        (XDMA_DmaTransferStart.val true s)).1 = WDStatus.WD_STATUS_SUCCESS
    · refine ⟨WDStatus.WD_STATUS_SUCCESS,
        { s with pWBBuf := some { wb with u32CompletedDescs := 0 } }, ?_⟩
      simp [XDMA_DmaTransferStart, hp, hwb1, hr]
    · refine ⟨(EngineCtrlRegisterSet wr bar s.dwChannel s.fToDevice
        (XDMA_DmaTransferStart.val true s)).1,
        { s with pWBBuf := some { wb with u32CompletedDescs := 0 } }, ?_⟩
      simp [XDMA_DmaTransferStart, hp, hwb1, hr]

theorem start_runs (wr : RegWrite → WDStatus) (bar : Nat) (s : XDMA_DMA_STRUCT)
    (hwb : s.fPolling = true → s.pWBBuf ≠ none) :
    ∃ st s1 w, XDMA_DmaTransferStart true wr bar s = some (st, s1, w) ∧
      ctrlWrites bar s w = [XDMA_DmaTransferStart.val true s] := by
  obtain ⟨st, s1, h⟩ := start_result wr bar s hwb
  refine ⟨st, s1, _, h, ?_⟩
  rw [ctrlWrites_append, ctrlWrites_set]
  cases s.fPolling
  · have := ctrlWrites_enable wr bar s
    simp [this]
  · simp [ctrlWrites]


theorem stop_writes (wr : RegWrite → WDStatus) (bar : Nat) (s : XDMA_DMA_STRUCT) :
    (XDMA_DmaTransferStop wr bar s).2 =
        [⟨bar, ctrlOffset s.dwChannel s.fToDevice, XDMA_DmaTransferStop.val s⟩] ∧
      ctrlWrites bar s (XDMA_DmaTransferStop wr bar s).2 = [XDMA_DmaTransferStop.val s] :=
  ⟨rfl, ctrlWrites_set wr bar s (XDMA_DmaTransferStop.val s)⟩

/-- C8: in a build with interrupt support, the value `XDMA_DmaTransferStart`
writes to the control register of the engine is `0x00F83E19` (RUN, read-error
IE, desc-error IE, desc-align-mismatch IE, magic-stopped IE), with
POLL-MODE-WRITE-BACK (bit 26) iff the session is polling, desc-stopped IE
(bit 1) and desc-completed IE (bit 2) iff it is not polling, idle-stopped IE
(bit 6) iff it is not polling and is a streaming C2H session, and the
non-increment-address bit (bit 25) iff the session is non-increment; no other
bit is set. -/
theorem C8_start_control_value (wr : RegWrite → WDStatus) (bar : Nat) (s : XDMA_DMA_STRUCT)
    (hwb : s.fPolling = true → s.pWBBuf ≠ none) :
    ∃ st s1 w v, XDMA_DmaTransferStart true wr bar s = some (st, s1, w) ∧
      ctrlWrites bar s w = [v] ∧
      XDMA_CTRL_RUN_STOP ||| XDMA_CTRL_IE_READ_ERROR ||| XDMA_CTRL_IE_DESC_ERROR |||
        XDMA_CTRL_IE_DESC_ALIGN_MISMATCH ||| XDMA_CTRL_IE_MAGIC_STOPPED = 0x00F83E19 ∧
      v = 0x00F83E19 |||
        (if s.fPolling then XDMA_CTRL_POLL_MODE_WB
         else XDMA_CTRL_IE_DESC_STOPPED ||| XDMA_CTRL_IE_DESC_COMPLETED) |||
        (if !s.fPolling && s.fStreaming && !s.fToDevice then XDMA_CTRL_IE_IDLE_STOPPED else 0) |||
        (if s.fNonIncMode then XDMA_CTRL_NON_INCR_ADDR else 0) ∧
      v.testBit 26 = s.fPolling ∧
      v.testBit 1 = !s.fPolling ∧ v.testBit 2 = !s.fPolling ∧
      v.testBit 6 = (!s.fPolling && s.fStreaming && !s.fToDevice) ∧
      v.testBit 25 = s.fNonIncMode ∧
      v &&& 0xF9FFFFB9 = 0x00F83E19 ∧ v < 2 ^ 32 := by
  obtain ⟨st, s1, w, hrun, hw⟩ := start_runs wr bar s hwb
  refine ⟨st, s1, w, _, hrun, hw, by decide, ?_⟩
  unfold XDMA_DmaTransferStart.val
  cases s.fPolling <;> cases s.fStreaming <;> cases s.fToDevice <;> cases s.fNonIncMode <;>
    decide

theorem C8_start_control_value_witness :
    ∃ st s1 w v, XDMA_DmaTransferStart true wrOk 0 sampleSession = some (st, s1, w) ∧
      ctrlWrites 0 sampleSession w = [v] ∧
      XDMA_CTRL_RUN_STOP ||| XDMA_CTRL_IE_READ_ERROR ||| XDMA_CTRL_IE_DESC_ERROR |||
        XDMA_CTRL_IE_DESC_ALIGN_MISMATCH ||| XDMA_CTRL_IE_MAGIC_STOPPED = 0x00F83E19 ∧
      v = 0x00F83E19 |||
        (if sampleSession.fPolling then XDMA_CTRL_POLL_MODE_WB
         else XDMA_CTRL_IE_DESC_STOPPED ||| XDMA_CTRL_IE_DESC_COMPLETED) |||
        (if !sampleSession.fPolling && sampleSession.fStreaming && !sampleSession.fToDevice
         then XDMA_CTRL_IE_IDLE_STOPPED else 0) |||
        (if sampleSession.fNonIncMode then XDMA_CTRL_NON_INCR_ADDR else 0) ∧
      v.testBit 26 = sampleSession.fPolling ∧
      v.testBit 1 = !sampleSession.fPolling ∧ v.testBit 2 = !sampleSession.fPolling ∧
      v.testBit 6 = (!sampleSession.fPolling && sampleSession.fStreaming &&
        !sampleSession.fToDevice) ∧
      v.testBit 25 = sampleSession.fNonIncMode ∧
      v &&& 0xF9FFFFB9 = 0x00F83E19 ∧ v < 2 ^ 32 :=
  C8_start_control_value wrOk 0 sampleSession (by decide)

/-- C9 (as amended): in the library built with interrupt support (`HAS_INTS`),
for every session (every combination of the polling, streaming, direction and
non-increment flags), the value
`XDMA_DmaTransferStop` writes to the control register is the value
`XDMA_DmaTransferStart` writes for the same session with the RUN bit (bit 0)
and the non-increment-address bit (bit 25) cleared; for a session that is not
non-increment it is the Start value with only the RUN bit cleared. -/
theorem C9_stop_versus_start (wr : RegWrite → WDStatus) (bar : Nat) (s : XDMA_DMA_STRUCT)
    (hwb : s.fPolling = true → s.pWBBuf ≠ none) :
    ∃ st s1 w vStart vStop, XDMA_DmaTransferStart true wr bar s = some (st, s1, w) ∧
      ctrlWrites bar s w = [vStart] ∧
      ctrlWrites bar s (XDMA_DmaTransferStop wr bar s).2 = [vStop] ∧
      vStop = vStart &&& (0xFFFFFFFF ^^^ (XDMA_CTRL_RUN_STOP ||| XDMA_CTRL_NON_INCR_ADDR)) ∧
      (s.fNonIncMode = false → vStop = vStart &&& (0xFFFFFFFF ^^^ XDMA_CTRL_RUN_STOP)) := by
  obtain ⟨st, s1, w, hrun, hw⟩ := start_runs wr bar s hwb
  refine ⟨st, s1, w, _, _, hrun, hw, (stop_writes wr bar s).2, ?_⟩
  unfold XDMA_DmaTransferStart.val XDMA_DmaTransferStop.val
  cases s.fPolling <;> cases s.fStreaming <;> cases s.fToDevice <;> cases s.fNonIncMode <;>
    decide

theorem C9_stop_versus_start_witness :
    ∃ st s1 w vStart vStop, XDMA_DmaTransferStart true wrOk 0 sampleSession = some (st, s1, w) ∧
      ctrlWrites 0 sampleSession w = [vStart] ∧
      ctrlWrites 0 sampleSession (XDMA_DmaTransferStop wrOk 0 sampleSession).2 = [vStop] ∧
      vStop = vStart &&& (0xFFFFFFFF ^^^ (XDMA_CTRL_RUN_STOP ||| XDMA_CTRL_NON_INCR_ADDR)) ∧
      vStop = vStart &&& (0xFFFFFFFF ^^^ XDMA_CTRL_RUN_STOP) := by
  obtain ⟨st, s1, w, vStart, vStop, h1, h2, h3, h4, h5⟩ :=
    C9_stop_versus_start wrOk 0 sampleSession (by decide)
  exact ⟨st, s1, w, vStart, vStop, h1, h2, h3, h4, h5 rfl⟩

/-- C9 fails as stated: for a polling non-increment C2H session on channel 1,
Start writes `0x06F83E19` to the control register and Stop writes
`0x04F83E18`, which is not the Start value with only the RUN bit cleared
(`0x06F83E18`): Stop leaves out the non-increment-address bit. -/
theorem C9_counterexample :
    ∃ st s1 w, XDMA_DmaTransferStart true wrOk 0 sampleSessionNonInc = some (st, s1, w) ∧
      ctrlWrites 0 sampleSessionNonInc w = [0x06F83E19] ∧
      ctrlWrites 0 sampleSessionNonInc
        (XDMA_DmaTransferStop wrOk 0 sampleSessionNonInc).2 = [0x04F83E18] ∧
      0x04F83E18 ≠ 0x06F83E19 &&& (0xFFFFFFFF ^^^ XDMA_CTRL_RUN_STOP) :=
  ⟨WDStatus.WD_STATUS_SUCCESS, { sampleSessionNonInc with pWBBuf := some ⟨0⟩ },
   [⟨0, 0x1104, 0x06F83E19⟩], by decide, by decide, by decide, by decide⟩

/-- C10 (as amended): for every interrupt-mode (non-polling) session, the
value `XDMA_DmaTransferStop` writes to the control register has the RUN bit
(bit 0) clear, while the completion interrupt-enable bits (desc-stopped IE,
bit 1, and desc-completed IE, bit 2) are set, as in the value Start writes. -/
theorem C10_stop_interrupt_mode (wr : RegWrite → WDStatus) (bar : Nat) (s : XDMA_DMA_STRUCT)
    (hint : s.fPolling = false) :
    ∃ v, (XDMA_DmaTransferStop wr bar s).2 = [⟨bar, ctrlOffset s.dwChannel s.fToDevice, v⟩] ∧
      ctrlWrites bar s (XDMA_DmaTransferStop wr bar s).2 = [v] ∧
      v.testBit 0 = false ∧ v.testBit 1 = true ∧ v.testBit 2 = true := by
  refine ⟨_, (stop_writes wr bar s).1, (stop_writes wr bar s).2, ?_⟩
  unfold XDMA_DmaTransferStop.val
  rw [hint]
  cases s.fStreaming <;> cases s.fToDevice <;> decide

theorem C10_stop_interrupt_mode_witness :
    ∃ v, (XDMA_DmaTransferStop wrOk 0 sampleSessionInt).2 =
        [⟨0, ctrlOffset sampleSessionInt.dwChannel sampleSessionInt.fToDevice, v⟩] ∧
      ctrlWrites 0 sampleSessionInt (XDMA_DmaTransferStop wrOk 0 sampleSessionInt).2 = [v] ∧
      v.testBit 0 = false ∧ v.testBit 1 = true ∧ v.testBit 2 = true :=
  C10_stop_interrupt_mode wrOk 0 sampleSessionInt rfl

/-- C10 fails as stated: for the interrupt-mode streaming C2H session on
channel 2, Stop writes `0x00F83E5E` to the control register, in which the RUN
bit is clear but desc-stopped IE (bit 1) and desc-completed IE (bit 2) are
set. -/
theorem C10_counterexample :
    sampleSessionInt.fPolling = false ∧
    (XDMA_DmaTransferStop wrOk 0 sampleSessionInt).2 = [⟨0, 0x1204, 0x00F83E5E⟩] ∧
    Nat.testBit 0x00F83E5E 0 = false ∧
    ¬ (Nat.testBit 0x00F83E5E 1 = false ∧ Nat.testBit 0x00F83E5E 2 = false) :=
  ⟨rfl, by decide, by decide, by decide⟩

/-! ## Poll completion -/

/-- C11 fails on the code: on the polling sample session (ring length 3), when
the write-back word reads `0x80000001` (error flag set, one descriptor
completed) the loop condition of `XDMA_DmaPollCompletion` is false at its
first test, the error test is never reached, and the function returns success
after one read, whatever the bound on the turns of the loop. -/
theorem C11_poll_success_with_error_flag :
    (∀ n, XDMA_DmaPollCompletion sampleHost 0 (fun _ => 0x80000001) (n + 1) sampleSession =
      some (WDStatus.WD_STATUS_SUCCESS, 1,
        [HostEvent.writeAddr32 ⟨0, 0x104, 0x04F83E18⟩])) ∧
    sampleSession.fPolling = true ∧
    sampleSession.pDma.map WD_DMA.dwPages = some 3 ∧
    0x80000001 &&& XDMA_WB_ERR_MASK ≠ 0 ∧
    0x80000001 % 2 ^ 31 ≠ 3 :=
  ⟨fun _ => rfl, rfl, rfl, by decide, by decide⟩

/-! ## Alignment check -/

theorem lsb_mask (x k : Nat) (hk : k ≤ 31) :
    x &&& ((2 ^ k + 2 ^ 32 - 1) % 2 ^ 32) = x % 2 ^ k := by
  have h1 : 1 ≤ 2 ^ k := Nat.one_le_two_pow
  have h2 : 2 ^ k ≤ 2 ^ 31 := Nat.pow_le_pow_right (by norm_num) hk
  have h3 : (2 ^ k + 2 ^ 32 - 1) % 2 ^ 32 = 2 ^ k - 1 := by
    generalize 2 ^ k = p at h1 h2
    norm_num at h2 ⊢
    omega
  rw [h3, Nat.and_pow_two_sub_one_eq_mod]

theorem field_pow_le (reg m sh k : Nat) (hm : m < 256 * 2 ^ sh)
    (ha : (reg &&& m) >>> sh = 2 ^ k) : k ≤ 31 := by
  have h1 : reg &&& m ≤ m := Nat.and_le_right
  have h2 : (reg &&& m) >>> sh < 256 := by
    rw [Nat.shiftRight_eq_div_pow]
    apply Nat.div_lt_of_lt_mul
    rw [Nat.mul_comm]
    omega
  rw [ha] at h2
  by_contra hk
  have h3 : 2 ^ 32 ≤ 2 ^ k := Nat.pow_le_pow_right (by norm_num) (by omega)
  norm_num at h3
  omega

theorem checkAlignment_zero (h : HostService) (bar : Nat) (s : XDMA_DMA_STRUCT)
    (hread : h.readAddr32 bar (XDMA_CHANNEL_OFFSET s.dwChannel
      (if s.fToDevice then XDMA_H2C_CHANNEL_ALIGNMENTS_OFFSET
       else XDMA_C2H_CHANNEL_ALIGNMENTS_OFFSET)) = (WDStatus.WD_STATUS_SUCCESS, 0)) :
    (CheckAlignment h bar s).1 = WDStatus.WD_STATUS_SUCCESS := by
  simp [CheckAlignment, hread]

theorem checkAlignment_congruent (h : HostService) (bar : Nat) (s : XDMA_DMA_STRUCT)
    (reg k : Nat)
    (hread : h.readAddr32 bar (XDMA_CHANNEL_OFFSET s.dwChannel
      (if s.fToDevice then XDMA_H2C_CHANNEL_ALIGNMENTS_OFFSET
       else XDMA_C2H_CHANNEL_ALIGNMENTS_OFFSET)) = (WDStatus.WD_STATUS_SUCCESS, reg))
    (hreg : reg ≠ 0) (ha : (reg &&& 0x00FF0000) >>> 16 = 2 ^ k)
    (hns : s.fStreaming = false)
    (hok : (CheckAlignment h bar s).1 = WDStatus.WD_STATUS_SUCCESS) :
    s.pBuf % 2 ^ k = s.u64FPGAOffset % 2 ^ k := by
  have hk : k ≤ 31 := field_pow_le reg 0x00FF0000 16 k (by norm_num) ha
  have hb := lsb_mask s.pBuf k hk
  have ho := lsb_mask (s.u64FPGAOffset % 2 ^ 32) k hk
  have hdvd : 2 ^ k ∣ 2 ^ 32 := Nat.pow_dvd_pow 2 (by omega)
  rw [Nat.mod_mod_of_dvd _ hdvd] at ho
  have hlt : s.pBuf % 2 ^ k < 2 ^ 32 :=
    Nat.lt_of_lt_of_le (Nat.mod_lt _ (Nat.two_pow_pos k)) (Nat.le_of_dvd (by norm_num) hdvd)
  simp only [CheckAlignment, hread, hns] at hok
  rw [ha, hb, ho, Nat.mod_eq_of_lt hlt] at hok
  simp only [ne_eq, not_true_eq_false, if_false, hreg, Bool.false_or, Bool.not_false,
    Bool.true_and] at hok
  by_contra hne
  cases hn : s.fNonIncMode
  · simp [hn, hne] at hok
  · simp only [hn, if_true] at hok
    split_ifs at hok with h1 h2 h3 <;> simp at h1 h3 <;> omega

theorem checkAlignment_size (h : HostService) (bar : Nat) (s : XDMA_DMA_STRUCT)
    (reg j : Nat)
    (hread : h.readAddr32 bar (XDMA_CHANNEL_OFFSET s.dwChannel
      (if s.fToDevice then XDMA_H2C_CHANNEL_ALIGNMENTS_OFFSET
       else XDMA_C2H_CHANNEL_ALIGNMENTS_OFFSET)) = (WDStatus.WD_STATUS_SUCCESS, reg))
    (hreg : reg ≠ 0) (hg : (reg &&& 0x0000FF00) >>> 8 = 2 ^ j)
    (hmode : s.fStreaming = true ∨ s.fNonIncMode = true)
    (hsize : ¬ 2 ^ j ∣ s.dwBytes) :
    (CheckAlignment h bar s).1 = WDStatus.WD_INVALID_PARAMETER := by
  have hj : j ≤ 31 := field_pow_le reg 0x0000FF00 8 j (by norm_num) hg
  have hsz := lsb_mask (s.dwBytes % 2 ^ 32) j hj
  have hdvd : 2 ^ j ∣ 2 ^ 32 := Nat.pow_dvd_pow 2 (by omega)
  rw [Nat.mod_mod_of_dvd _ hdvd] at hsz
  have hne : s.dwBytes % 2 ^ j ≠ 0 := fun h0 => hsize (Nat.dvd_of_mod_eq_zero h0)
  have hor : (s.fStreaming || s.fNonIncMode) = true := by
    rcases hmode with h1 | h1 <;> simp [h1]
  simp only [CheckAlignment, hread, hor]
  rw [hg, hsz]
  simp only [ne_eq, not_true_eq_false, if_false, hreg, if_true, hne, not_false_eq_true]
  split_ifs <;> rfl

/-- C13 (as amended): for every non-streaming session (non-increment or not)
whose alignments register is non-zero with a power-of-two align field `a`
(bits 23:16), if `CheckAlignment` succeeds then the buffer virtual address and
the FPGA offset are congruent modulo `a`; and if the register reads zero the
check succeeds for every buffer address, offset and byte count. -/
theorem C13_alignment_congruence (h : HostService) (bar : Nat) (s : XDMA_DMA_STRUCT)
    (reg k : Nat)
    (hread : h.readAddr32 bar (XDMA_CHANNEL_OFFSET s.dwChannel
      (if s.fToDevice then XDMA_H2C_CHANNEL_ALIGNMENTS_OFFSET
       else XDMA_C2H_CHANNEL_ALIGNMENTS_OFFSET)) = (WDStatus.WD_STATUS_SUCCESS, reg)) :
    (reg ≠ 0 → (reg &&& 0x00FF0000) >>> 16 = 2 ^ k → s.fStreaming = false →
      (CheckAlignment h bar s).1 = WDStatus.WD_STATUS_SUCCESS →
      s.pBuf % 2 ^ k = s.u64FPGAOffset % 2 ^ k) ∧
    (reg = 0 → (CheckAlignment h bar s).1 = WDStatus.WD_STATUS_SUCCESS) := by
  refine ⟨fun hreg ha hns hok => checkAlignment_congruent h bar s reg k hread hreg ha hns hok,
    fun h0 => ?_⟩
  subst h0
  exact checkAlignment_zero h bar s hread

theorem C13_alignment_congruence_witness :
    sampleSession.pBuf % 2 ^ 6 = sampleSession.u64FPGAOffset % 2 ^ 6 ∧
    (CheckAlignment zeroAlignHost 0 sampleSession).1 = WDStatus.WD_STATUS_SUCCESS :=
  ⟨(C13_alignment_congruence sampleHost 0 sampleSession 0x00400400 6 rfl).1
      (by decide) (by decide) rfl (by decide),
   (C13_alignment_congruence zeroAlignHost 0 sampleSession 0 0 rfl).2 rfl⟩

/-- C13 fails as stated: for a streaming session whose alignments register
reads align = 64, granularity = 4, with buffer address `0x7f0000`, 4096 bytes
and FPGA offset 1, `CheckAlignment` succeeds although the buffer address is 0
and the FPGA offset is 1 modulo 64. -/
theorem C13_counterexample :
    sampleSessionStreaming.fStreaming = true ∧
    sampleHost.readAddr32 0 (XDMA_CHANNEL_OFFSET sampleSessionStreaming.dwChannel
      XDMA_H2C_CHANNEL_ALIGNMENTS_OFFSET) = (WDStatus.WD_STATUS_SUCCESS, 0x00400400) ∧
    (0x00400400 &&& 0x00FF0000) >>> 16 = 64 ∧
    (CheckAlignment sampleHost 0 sampleSessionStreaming).1 = WDStatus.WD_STATUS_SUCCESS ∧
    sampleSessionStreaming.pBuf % 64 ≠ sampleSessionStreaming.u64FPGAOffset % 64 :=
  ⟨rfl, by decide, by decide, by decide, by decide⟩

/-! ## Session open: reaching the alignment check -/

theorem open_reaches_check (h : HostService) (ctx : XDMA_DEV_CTX) (o : HandleVal)
    (dwBytes u64FPGAOffset : Nat) (fToDevice : Bool) (dwChannel : Nat)
    (fPolling fNonIncMode : Bool) (pData : Nat) (fIsTransaction : Bool)
    (slot : XDMA_DMA_STRUCT)
    (hv : (ValidateTransferParams h ctx.dwConfigBarNum fToDevice dwChannel).1 =
      WDStatus.WD_STATUS_SUCCESS)
    (hslot : ctx.pEnginesArr[ENGINE_IDX dwChannel fToDevice]? = some slot)
    (hen : slot.fIsEnabled = true) (hinit : slot.fIsInitialized = false)
    (hl : (LockDmaBuffer h fToDevice slot.pDma dwBytes fIsTransaction).1 =
      WDStatus.WD_STATUS_SUCCESS) :
    XDMA_DmaOpen h ctx (some o) dwBytes u64FPGAOffset fToDevice dwChannel fPolling
        fNonIncMode pData fIsTransaction =
      XDMA_DmaOpen.configure h ctx (ENGINE_IDX dwChannel fToDevice)
        (XDMA_DmaOpen.atCheck h ctx.dwConfigBarNum slot dwBytes u64FPGAOffset fToDevice
          dwChannel fPolling fNonIncMode pData fIsTransaction)
        fPolling fIsTransaction
        (XDMA_DmaOpen.traceToCheck h ctx.dwConfigBarNum slot dwBytes fToDevice dwChannel
          fIsTransaction) := by
  simp [XDMA_DmaOpen, hv, hslot, hen, hinit, hl]

theorem configure_check_fails (h : HostService) (ctx : XDMA_DEV_CTX) (idx : Nat)
    (s : XDMA_DMA_STRUCT) (fPolling fIsTransaction : Bool) (t : List HostEvent)
    (hc : (CheckAlignment h ctx.dwConfigBarNum s).1 ≠ WDStatus.WD_STATUS_SUCCESS) :
    XDMA_DmaOpen.configure h ctx idx s fPolling fIsTransaction t =
      some (XDMA_DmaOpen.fail ctx idx s (CheckAlignment h ctx.dwConfigBarNum s).1
        (some (HandleVal.slot idx)) (t ++ (CheckAlignment h ctx.dwConfigBarNum s).2)) := by
  simp [XDMA_DmaOpen.configure, hc]

/-- C12 (as amended): for every session on a streaming engine or in
non-increment mode whose alignments register is non-zero with a power-of-two
granularity field (bits 15:8), if the requested byte count is not a multiple
of the granularity, `XDMA_DmaOpen`, once validation and the pin have
succeeded, fails with `WD_INVALID_PARAMETER`. -/
theorem C12_open_rejects_size (h : HostService) (ctx : XDMA_DEV_CTX) (o : HandleVal)
    (dwBytes u64FPGAOffset : Nat) (fToDevice : Bool) (dwChannel : Nat)
    (fPolling fNonIncMode : Bool) (pData : Nat) (fIsTransaction : Bool)
    (slot : XDMA_DMA_STRUCT) (reg j : Nat)
    (hv : (ValidateTransferParams h ctx.dwConfigBarNum fToDevice dwChannel).1 =
      WDStatus.WD_STATUS_SUCCESS)
    (hslot : ctx.pEnginesArr[ENGINE_IDX dwChannel fToDevice]? = some slot)
    (hen : slot.fIsEnabled = true) (hinit : slot.fIsInitialized = false)
    (hl : (LockDmaBuffer h fToDevice slot.pDma dwBytes fIsTransaction).1 =
      WDStatus.WD_STATUS_SUCCESS)
    (hread : h.readAddr32 ctx.dwConfigBarNum (XDMA_CHANNEL_OFFSET dwChannel
      (if fToDevice then XDMA_H2C_CHANNEL_ALIGNMENTS_OFFSET
       else XDMA_C2H_CHANNEL_ALIGNMENTS_OFFSET)) = (WDStatus.WD_STATUS_SUCCESS, reg))
    (hreg : reg ≠ 0) (hg : (reg &&& 0x0000FF00) >>> 8 = 2 ^ j)
    (hmode : (EngineIsStreaming h ctx.dwConfigBarNum dwChannel fToDevice).1 = true ∨
      fNonIncMode = true)
    (hsize : ¬ 2 ^ j ∣ dwBytes) :
    ∃ r, XDMA_DmaOpen h ctx (some o) dwBytes u64FPGAOffset fToDevice dwChannel fPolling
        fNonIncMode pData fIsTransaction = some r ∧
      r.dwStatus = WDStatus.WD_INVALID_PARAMETER := by
  have hc := checkAlignment_size h ctx.dwConfigBarNum
    (XDMA_DmaOpen.atCheck h ctx.dwConfigBarNum slot dwBytes u64FPGAOffset fToDevice
      dwChannel fPolling fNonIncMode pData fIsTransaction) reg j hread hreg hg hmode hsize
  rw [open_reaches_check h ctx o dwBytes u64FPGAOffset fToDevice dwChannel fPolling
    fNonIncMode pData fIsTransaction slot hv hslot hen hinit hl,
    configure_check_fails _ _ _ _ _ _ _ (by rw [hc]; decide)]
  exact ⟨_, rfl, hc⟩

theorem C12_open_rejects_size_witness :
    ∃ r, XDMA_DmaOpen streamingHost sampleCtx (some HandleVal.null) 4095 0 true 0 true
        false 0 false = some r ∧
      r.dwStatus = WDStatus.WD_INVALID_PARAMETER :=
  C12_open_rejects_size streamingHost sampleCtx HandleVal.null 4095 0 true 0 true false 0
    false { zeroSlot with u32IrqBitMask := 1, fIsEnabled := true } 0x00400400 2
    (by decide) (by decide) rfl rfl (by decide) (by decide) (by decide) (by decide)
    (by decide) (by decide)

/-- C12 fails as stated: with an alignments register reporting align = 64 and
granularity = 4, `XDMA_DmaOpen` of 4095 bytes for an incrementing session on a
non-streaming engine (buffer at `0x7f0000`, FPGA offset 0) succeeds. -/
theorem C12_counterexample :
    sampleHost.readAddr32 0 (XDMA_CHANNEL_OFFSET 0 XDMA_H2C_CHANNEL_ALIGNMENTS_OFFSET) =
      (WDStatus.WD_STATUS_SUCCESS, 0x00400400) ∧
    (0x00400400 &&& 0x0000FF00) >>> 8 = 4 ∧ ¬ 4 ∣ 4095 ∧
    (XDMA_DmaOpen sampleHost sampleCtx (some HandleVal.null) 4095 0 true 0 true false 0
      false).map OpenResult.dwStatus = some WDStatus.WD_STATUS_SUCCESS :=
  ⟨by decide, by decide, by decide, by decide⟩

/-! ## Session open: the error path -/

theorem lock_success (h : HostService) (fToDevice : Bool) (pDma0 : Option WD_DMA)
    (dwBytes : Nat) (fIsTransaction : Bool)
    (hl : (LockDmaBuffer h fToDevice pDma0 dwBytes fIsTransaction).1 =
      WDStatus.WD_STATUS_SUCCESS) :
    h.valloc dwBytes ≠ 0 ∧
    LockDmaBuffer h fToDevice pDma0 dwBytes fIsTransaction =
      (WDStatus.WD_STATUS_SUCCESS, h.valloc dwBytes,
        some (if !fIsTransaction then h.sgBufLock (h.valloc dwBytes) fToDevice dwBytes
          else h.transactionSGInit (h.valloc dwBytes) fToDevice dwBytes).2,
        [HostEvent.valloc dwBytes,
          if !fIsTransaction then HostEvent.sgBufLock (h.valloc dwBytes) fToDevice dwBytes
          else HostEvent.transactionSGInit (h.valloc dwBytes) fToDevice dwBytes]) := by
  unfold LockDmaBuffer at hl ⊢
  by_cases hp : h.valloc dwBytes = 0
  · simp [hp] at hl
  · refine ⟨hp, ?_⟩
    cases fIsTransaction
    · by_cases h1 : (h.sgBufLock (h.valloc dwBytes) fToDevice dwBytes).1 =
          WDStatus.WD_STATUS_SUCCESS
      · simp [hp, h1]
      · simp [hp, h1] at hl
    · by_cases h1 : (h.transactionSGInit (h.valloc dwBytes) fToDevice dwBytes).1 =
          WDStatus.WD_STATUS_SUCCESS
      · simp [hp, h1]
      · simp [hp, h1] at hl

/-- C14 (as amended): when `XDMA_DmaOpen` fails the alignment check with
`WD_INVALID_PARAMETER`, the user buffer was allocated and pinned by that call
before the check, the pin has been released and the buffer freed on return,
and the initialized flag of the engine slot is false on return. -/
theorem C14_misaligned_open_releases_pin (h : HostService) (ctx : XDMA_DEV_CTX)
    (o : HandleVal) (dwBytes u64FPGAOffset : Nat) (fToDevice : Bool) (dwChannel : Nat)
    (fPolling fNonIncMode : Bool) (pData : Nat) (fIsTransaction : Bool)
    (slot : XDMA_DMA_STRUCT)
    (hv : (ValidateTransferParams h ctx.dwConfigBarNum fToDevice dwChannel).1 =
      WDStatus.WD_STATUS_SUCCESS)
    (hslot : ctx.pEnginesArr[ENGINE_IDX dwChannel fToDevice]? = some slot)
    (hen : slot.fIsEnabled = true) (hinit : slot.fIsInitialized = false)
    (hl : (LockDmaBuffer h fToDevice slot.pDma dwBytes fIsTransaction).1 =
      WDStatus.WD_STATUS_SUCCESS)
    (hc : (CheckAlignment h ctx.dwConfigBarNum
      (XDMA_DmaOpen.atCheck h ctx.dwConfigBarNum slot dwBytes u64FPGAOffset fToDevice
        dwChannel fPolling fNonIncMode pData fIsTransaction)).1 =
      WDStatus.WD_INVALID_PARAMETER) :
    ∃ r pin, XDMA_DmaOpen h ctx (some o) dwBytes u64FPGAOffset fToDevice dwChannel fPolling
        fNonIncMode pData fIsTransaction = some r ∧
      r.dwStatus = WDStatus.WD_INVALID_PARAMETER ∧
      pin = (if !fIsTransaction then h.sgBufLock (h.valloc dwBytes) fToDevice dwBytes
        else h.transactionSGInit (h.valloc dwBytes) fToDevice dwBytes).2 ∧
      (∃ t1 t2, r.trace = t1 ++
        [HostEvent.valloc dwBytes,
          if !fIsTransaction then HostEvent.sgBufLock (h.valloc dwBytes) fToDevice dwBytes
          else HostEvent.transactionSGInit (h.valloc dwBytes) fToDevice dwBytes] ++ t2 ++
        [HostEvent.bufUnlock pin, HostEvent.vfree (h.valloc dwBytes)]) ∧
      (r.ctx.pEnginesArr[ENGINE_IDX dwChannel fToDevice]?).map
        XDMA_DMA_STRUCT.fIsInitialized = some false := by
  obtain ⟨hp, hlock⟩ := lock_success h fToDevice slot.pDma dwBytes fIsTransaction hl
  have hidx : ENGINE_IDX dwChannel fToDevice < ctx.pEnginesArr.length := by
    obtain ⟨hlt, _⟩ := List.getElem?_eq_some.mp hslot
    exact hlt
  rw [open_reaches_check h ctx o dwBytes u64FPGAOffset fToDevice dwChannel fPolling
    fNonIncMode pData fIsTransaction slot hv hslot hen hinit hl,
    configure_check_fails _ _ _ _ _ _ _ (by rw [hc]; decide)]
  refine ⟨_, _, rfl, hc, rfl, ?_, ?_⟩
  · refine ⟨(ValidateTransferParams h ctx.dwConfigBarNum fToDevice dwChannel).2 ++
        (EngineIsStreaming h ctx.dwConfigBarNum dwChannel fToDevice).2,
      [ HostEvent.writeAddr32
          { dwAddrSpace := ctx.dwConfigBarNum,
            dwOffset := XDMA_CHANNEL_OFFSET dwChannel
              (if fToDevice then XDMA_H2C_CHANNEL_CONTROL_W1C_OFFSET
               else XDMA_C2H_CHANNEL_CONTROL_W1C_OFFSET),
            val := XDMA_CTRL_NON_INCR_ADDR } ] ++
        (CheckAlignment h ctx.dwConfigBarNum
          (XDMA_DmaOpen.atCheck h ctx.dwConfigBarNum slot dwBytes u64FPGAOffset fToDevice
            dwChannel fPolling fNonIncMode pData fIsTransaction)).2 ++
        (match slot.pDmaDesc with
          | some d => [HostEvent.bufUnlock d]
          | none => []), ?_⟩
    simp only [XDMA_DmaOpen.fail, XDMA_DmaOpen.Error, XDMA_DmaOpen.traceToCheck,
      XDMA_DmaOpen.atCheck, hlock]
    simp [hp]
  · simp only [XDMA_DmaOpen.fail, XDMA_DmaOpen.Error]
    rw [List.getElem?_set_self hidx]
    rfl

theorem C14_misaligned_open_releases_pin_witness :
    ∃ r pin, XDMA_DmaOpen streamingHost sampleCtx (some HandleVal.null) 4095 0 true 0 true
        false 0 false = some r ∧
      r.dwStatus = WDStatus.WD_INVALID_PARAMETER ∧
      pin = (streamingHost.sgBufLock (streamingHost.valloc 4095) true 4095).2 ∧
      (∃ t1 t2, r.trace = t1 ++
        [HostEvent.valloc 4095,
          HostEvent.sgBufLock (streamingHost.valloc 4095) true 4095] ++ t2 ++
        [HostEvent.bufUnlock pin, HostEvent.vfree (streamingHost.valloc 4095)]) ∧
      (r.ctx.pEnginesArr[ENGINE_IDX 0 true]?).map XDMA_DMA_STRUCT.fIsInitialized =
        some false :=
  C14_misaligned_open_releases_pin streamingHost sampleCtx HandleVal.null 4095 0 true 0 true
    false 0 false { zeroSlot with u32IrqBitMask := 1, fIsEnabled := true }
    (by decide) (by decide) rfl rfl (by decide) (by decide)

/-- C14 fails as stated: on a streaming engine whose alignments register
reports align = 64, granularity = 4, `XDMA_DmaOpen` of 4095 bytes returns
`WD_INVALID_PARAMETER` and the calls it made to the host service include the
pin `WDC_DMASGBufLock` of the user buffer. -/
theorem C14_counterexample :
    (XDMA_DmaOpen streamingHost sampleCtx (some HandleVal.null) 4095 0 true 0 true false 0
      false).map (fun r => (r.dwStatus,
        decide (HostEvent.sgBufLock 0x7f0000 true 4095 ∈ r.trace))) =
      some (WDStatus.WD_INVALID_PARAMETER, true) := by
  decide

/-- C15 fails on the code: when a polling `XDMA_DmaOpen` has allocated the
write-back buffer and the allocation of the descriptor buffer then fails, it
returns the failure with the payload pin released and the slot uninitialized,
but it has not released the write-back buffer, which the slot still holds. -/
theorem C15_write_back_buffer_leaked :
    ∃ r, XDMA_DmaOpen descFailHost sampleCtx (some HandleVal.null) 4096 0 true 0 true false 0
        false = some r ∧
      r.dwStatus = WDStatus.WD_INSUFFICIENT_RESOURCES ∧
      r.trace =
        [ HostEvent.readAddr32 0 0, HostEvent.readAddr32 0 0,
          HostEvent.valloc 4096, HostEvent.sgBufLock 0x7f0000 true 4096,
          HostEvent.writeAddr32 ⟨0, 0xC, 0x2000000⟩,
          HostEvent.readAddr32 0 0x4C,
          HostEvent.contigBufLock false 32,
          HostEvent.writeAddr32 ⟨0, 0x88, 0xDEF000⟩,
          HostEvent.writeAddr32 ⟨0, 0x8C, 0⟩,
          HostEvent.contigBufLock true 32,
          HostEvent.bufUnlock ⟨[⟨0x10000, 4096⟩]⟩,
          HostEvent.vfree 0x7f0000 ] ∧
      (descFailHost.contigBufLock false 32).2 = ⟨[⟨0xDEF000, 32⟩]⟩ ∧
      HostEvent.bufUnlock ⟨[⟨0xDEF000, 32⟩]⟩ ∉ r.trace ∧
      (r.ctx.pEnginesArr[0]?).map XDMA_DMA_STRUCT.pWBDma =
        some (some ⟨[⟨0xDEF000, 32⟩]⟩) ∧
      (r.ctx.pEnginesArr[0]?).map XDMA_DMA_STRUCT.fIsInitialized = some false := by
  refine ⟨(XDMA_DmaOpen.fail sampleCtx 0
      { (XDMA_DmaOpen.atCheck descFailHost 0
          { zeroSlot with u32IrqBitMask := 1, fIsEnabled := true } 4096 0 true 0 true false 0
          false) with pWBBuf := some ⟨0⟩, pWBDma := some ⟨[⟨0xDEF000, 32⟩]⟩ }
      WDStatus.WD_INSUFFICIENT_RESOURCES (some (HandleVal.slot 0))
      [ HostEvent.readAddr32 0 0, HostEvent.readAddr32 0 0,
        HostEvent.valloc 4096, HostEvent.sgBufLock 0x7f0000 true 4096,
        HostEvent.writeAddr32 ⟨0, 0xC, 0x2000000⟩,
        HostEvent.readAddr32 0 0x4C,
        HostEvent.contigBufLock false 32,
        HostEvent.writeAddr32 ⟨0, 0x88, 0xDEF000⟩,
        HostEvent.writeAddr32 ⟨0, 0x8C, 0⟩,
        HostEvent.contigBufLock true 32 ]), ?_, ?_, ?_, ?_, ?_, ?_, ?_⟩ <;> decide

/-- C17 fails on the code: `XDMA_DmaOpen` on the slot of H2C channel 1, which
has a session attached, returns `WD_OPERATION_ALREADY_DONE` and leaves the
device context as it was, but it overwrites the out-parameter of the caller
(here holding a pointer to slot 5) with the address of its local variable. -/
theorem C17_already_open_writes_out_parameter :
    XDMA_DmaOpen sampleHost sampleCtxOpen (some (HandleVal.slot 5)) 4096 0 true 1 true false 0
      false =
      some ⟨WDStatus.WD_OPERATION_ALREADY_DONE, sampleCtxOpen, some HandleVal.stackLocal,
        [HostEvent.readAddr32 0 0x100]⟩ ∧
    (sampleCtxOpen.pEnginesArr[1]?).map XDMA_DMA_STRUCT.fIsInitialized = some true := by
  decide

/-! ## Session close -/

theorem close_eq (h : HostService) (ctx : XDMA_DEV_CTX) (i : Nat)
    (s : XDMA_DMA_STRUCT) (hs : ctx.pEnginesArr[i]? = some s)
    (hidx : ENGINE_IDX s.dwChannel s.fToDevice = i) :
    XDMA_DmaClose h ctx i = some (closeStatus h s,
      { ctx with pEnginesArr := ctx.pEnginesArr.set i { s with fIsInitialized := false } },
      closeTrace s) := by
  simp only [XDMA_DmaClose, hs, hidx, closeStatus, closeTrace]
  cases s.pWBDma <;> cases s.pDmaDesc <;> cases s.pDma <;> by_cases hb : s.pBuf = 0 <;>
    simp [hb]

/-- C18 (as amended): for every open session, including one whose engine was
started and has not been stopped, `XDMA_DmaClose` unpins every DMA buffer of
the session (write-back buffer, descriptor buffer, payload buffer, in this
order), frees the user buffer and leaves the slot uninitialized; it writes no
register, so it does not stop the engine. -/
theorem C18_close_unpins (h : HostService) (ctx : XDMA_DEV_CTX) (i : Nat)
    (s : XDMA_DMA_STRUCT) (hs : ctx.pEnginesArr[i]? = some s)
    (hidx : ENGINE_IDX s.dwChannel s.fToDevice = i) :
    ∃ st ctx1 t, XDMA_DmaClose h ctx i = some (st, ctx1, t) ∧
      t = s.pWBDma.toList.map HostEvent.bufUnlock ++
          s.pDmaDesc.toList.map HostEvent.bufUnlock ++
          s.pDma.toList.map HostEvent.bufUnlock ++
          (if s.pBuf ≠ 0 then [HostEvent.vfree s.pBuf] else []) ∧
      (∀ w, HostEvent.writeAddr32 w ∉ t) ∧
      ctx1.pEnginesArr[i]? = some { s with fIsInitialized := false } := by
  have hlt : i < ctx.pEnginesArr.length := by
    obtain ⟨hlt, _⟩ := List.getElem?_eq_some.mp hs
    exact hlt
  refine ⟨_, _, _, close_eq h ctx i s hs hidx, rfl, ?_, List.getElem?_set_self hlt⟩
  intro w
  unfold closeTrace
  cases s.pWBDma <;> cases s.pDmaDesc <;> cases s.pDma <;> by_cases hb : s.pBuf = 0 <;>
    simp [hb]

theorem C18_close_unpins_witness :
    ∃ st ctx1 t, XDMA_DmaClose sampleHost sampleCtxOpen 1 = some (st, ctx1, t) ∧
      t = [ HostEvent.bufUnlock ⟨[⟨0xDEF000, 32⟩]⟩, HostEvent.bufUnlock sampleDescPin,
            HostEvent.bufUnlock samplePin, HostEvent.vfree 0x7f0000 ] ∧
      (∀ w, HostEvent.writeAddr32 w ∉ t) ∧
      ctx1.pEnginesArr[1]? = some sampleSession :=
  C18_close_unpins sampleHost sampleCtxOpen 1 { sampleSession with fIsInitialized := true }
    (by decide) (by decide)

/-- C18 fails as stated: `XDMA_DmaClose` of the polling sample session, whose
`XDMA_DmaTransferStart` wrote the control register at `0x104` with RUN set,
makes four calls to the host service, three unlocks and one free, none of
them a write to that register. -/
theorem C18_counterexample :
    ctrlWrites 0 sampleSession
      (((XDMA_DmaTransferStart true sampleHost.writeAddr32 0 sampleSession).map
        (fun r => r.2.2)).getD []) = [0x04F83E19] ∧
    ctrlOffset sampleSession.dwChannel sampleSession.fToDevice = 0x104 ∧
    (XDMA_DmaClose sampleHost sampleCtxOpen 1).map (fun r => (r.1, r.2.2)) =
      some (WDStatus.WD_STATUS_SUCCESS,
        [ HostEvent.bufUnlock ⟨[⟨0xDEF000, 32⟩]⟩, HostEvent.bufUnlock sampleDescPin,
          HostEvent.bufUnlock samplePin, HostEvent.vfree 0x7f0000 ]) := by
  decide

/-! ## Session open returns -/

theorem wb_total (h : HostService) (hwf : h.WF) (bar : Nat) (s : XDMA_DMA_STRUCT) :
    ∃ st s1 t, ConfigureWriteBackAddress h bar s = some (st, s1, t) ∧ s1.pDma = s.pDma := by
  unfold ConfigureWriteBackAddress
  by_cases hst : (h.contigBufLock false sizeof_XDMA_DMA_POLL_WB).1 = WDStatus.WD_STATUS_SUCCESS
  · have hne := hwf.contig_page false sizeof_XDMA_DMA_POLL_WB hst
    cases hpg : (h.contigBufLock false sizeof_XDMA_DMA_POLL_WB).2.Page with
    | nil => exact absurd hpg hne
    | cons p0 rest =>
      simp only [hst, ne_eq, not_true_eq_false, if_false, hpg, List.getElem?_cons_zero]
      exact ⟨_, _, _, rfl, rfl⟩
  · simp only [ne_eq, hst, not_false_eq_true, if_true]
    exact ⟨_, _, _, rfl, rfl⟩

theorem buildDesc_trans_total (h : HostService) (hwf : h.WF) (s : XDMA_DMA_STRUCT) :
    ∃ x, DmaBuildDescBuffer h s true = some x := by
  unfold DmaBuildDescBuffer
  simp only [if_true, hwf.page_size, if_false]
  split_ifs
  · exact ⟨_, rfl⟩
  · exact ⟨_, rfl⟩

theorem configureDesc_total (h : HostService) (hwf : h.WF) (bar : Nat)
    (s : XDMA_DMA_STRUCT) (pin : WD_DMA) (hpin : s.pDma = some pin)
    (hpages : pin.Page.length < 2 ^ 27) :
    ∃ x, ConfigureDmaDesc h bar s = some x := by
  have hsz : (pin.dwPages * sizeof_XDMA_DMA_DESC) % 2 ^ 32 / sizeof_XDMA_DMA_DESC =
      pin.Page.length := by
    unfold WD_DMA.dwPages sizeof_XDMA_DMA_DESC
    norm_num at hpages ⊢
    omega
  unfold ConfigureDmaDesc
  cases hb : DmaBuildDescBuffer h s false with
  | none =>
    simp [DmaBuildDescBuffer, hpin] at hb
    split_ifs at hb
  | some x =>
    obtain ⟨st, s1, t1⟩ := x
    by_cases hst : st = WDStatus.WD_STATUS_SUCCESS
    swap
    · simp only [ne_eq, hst, not_false_eq_true, if_true]
      exact ⟨_, rfl⟩
    simp only [hst, ne_eq, not_true_eq_false, if_false]
    cases hrun1 : DmaTransferBuild bar s1 with
    | some y => exact ⟨_, rfl⟩
    | none =>
      exfalso
      simp only [DmaBuildDescBuffer, Bool.false_eq_true, if_false, hpin, Option.map_some'] at hb
      by_cases hlk : (h.contigBufLock true
          ((pin.dwPages * sizeof_XDMA_DMA_DESC) % 2 ^ 32)).1 = WDStatus.WD_STATUS_SUCCESS
      · have hne := hwf.contig_page true _ hlk
        simp only [hlk, ne_eq, not_true_eq_false, if_false, Option.some.injEq,
          Prod.mk.injEq] at hb
        obtain ⟨_, hs1, _⟩ := hb
        cases hpg : (h.contigBufLock true
            ((pin.dwPages * sizeof_XDMA_DMA_DESC) % 2 ^ 32)).2.Page with
        | nil => exact hne hpg
        | cons p0 rest =>
          obtain ⟨ring, hrun, _, _⟩ := DmaTransferBuild_spec bar s1 pin
            (h.contigBufLock true ((pin.dwPages * sizeof_XDMA_DMA_DESC) % 2 ^ 32)).2
            (List.replicate
              ((pin.dwPages * sizeof_XDMA_DMA_DESC) % 2 ^ 32 / sizeof_XDMA_DMA_DESC) h.descFill)
            p0 (by rw [← hs1]) (by rw [← hs1]) (by rw [← hs1])
            (by rw [hpg]; simp) (by rw [List.length_replicate, hsz])
          rw [hrun] at hrun1
          cases hrun1
      · simp only [ne_eq, hlk, not_false_eq_true, if_true, Option.some.injEq,
          Prod.mk.injEq] at hb
        exact hlk (hb.1.trans hst)

theorem configure_total (h : HostService) (hwf : h.WF) (ctx : XDMA_DEV_CTX) (idx : Nat)
    (s : XDMA_DMA_STRUCT) (fPolling fIsTransaction : Bool) (t : List HostEvent)
    (pin : WD_DMA) (hpin : s.pDma = some pin)
    (hpages : fIsTransaction = false → pin.Page.length < 2 ^ 27) :
    ∃ r rest, XDMA_DmaOpen.configure h ctx idx s fPolling fIsTransaction t = some r ∧
      r.trace = t ++ rest := by
  unfold XDMA_DmaOpen.configure
  by_cases hc : (CheckAlignment h ctx.dwConfigBarNum s).1 = WDStatus.WD_STATUS_SUCCESS
  swap
  · simp only [ne_eq, hc, not_false_eq_true, if_true]
    exact ⟨_, (CheckAlignment h ctx.dwConfigBarNum s).2 ++ (XDMA_DmaOpen.Error s).2, rfl,
      by simp [XDMA_DmaOpen.fail, List.append_assoc]⟩
  simp only [hc, ne_eq, not_true_eq_false, if_false]
  have hwb : ∃ st1 s1 t1, (if fPolling then ConfigureWriteBackAddress h ctx.dwConfigBarNum s
      else some (WDStatus.WD_STATUS_SUCCESS, s, [])) = some (st1, s1, t1) ∧
      s1.pDma = s.pDma := by
    cases fPolling
    · exact ⟨_, _, _, rfl, rfl⟩
    · exact wb_total h hwf ctx.dwConfigBarNum s
  obtain ⟨st1, s1, t1, hwbeq, hpd⟩ := hwb
  rw [hwbeq]
  by_cases h1 : st1 = WDStatus.WD_STATUS_SUCCESS
  swap
  · simp only [ne_eq, h1, not_false_eq_true, if_true]
    exact ⟨_, (CheckAlignment h ctx.dwConfigBarNum s).2 ++ t1 ++ (XDMA_DmaOpen.Error s1).2,
      rfl, by simp [XDMA_DmaOpen.fail, List.append_assoc]⟩
  simp only [h1, ne_eq, not_true_eq_false, if_false]
  have hdesc : ∃ st2 s2 t2, (if fIsTransaction then DmaBuildDescBuffer h s1 true
      else ConfigureDmaDesc h ctx.dwConfigBarNum s1) = some (st2, s2, t2) := by
    cases hft : fIsTransaction
    · obtain ⟨⟨a, b, c⟩, hx⟩ := configureDesc_total h hwf ctx.dwConfigBarNum s1 pin
        (by rw [hpd, hpin]) (hpages hft)
      exact ⟨a, b, c, by simpa using hx⟩
    · obtain ⟨⟨a, b, c⟩, hx⟩ := buildDesc_trans_total h hwf s1
      exact ⟨a, b, c, by simpa using hx⟩
  obtain ⟨st2, s2, t2, hdeq⟩ := hdesc
  rw [hdeq]
  by_cases h2 : st2 = WDStatus.WD_STATUS_SUCCESS
  · simp only [h2, ne_eq, not_true_eq_false, if_false]
    exact ⟨_, (CheckAlignment h ctx.dwConfigBarNum s).2 ++ t1 ++ t2, rfl,
      by simp [List.append_assoc]⟩
  · simp only [ne_eq, h2, not_false_eq_true, if_true]
    exact ⟨_, (CheckAlignment h ctx.dwConfigBarNum s).2 ++ t1 ++ t2 ++
      (XDMA_DmaOpen.Error s2).2, rfl, by simp [XDMA_DmaOpen.fail, List.append_assoc]⟩

/-! ## Session open: validation -/

theorem validate_eq (h : HostService) (bar : Nat) (fToDevice : Bool) (dwChannel : Nat)
    (hch : dwChannel ≤ 3) :
    ValidateTransferParams h bar fToDevice dwChannel =
      (if (h.readAddr32 bar (XDMA_CHANNEL_OFFSET dwChannel
            (if fToDevice then XDMA_H2C_CHANNEL_IDENTIFIER_OFFSET
             else XDMA_C2H_CHANNEL_IDENTIFIER_OFFSET))).1 ≠ WDStatus.WD_STATUS_SUCCESS then
          (h.readAddr32 bar (XDMA_CHANNEL_OFFSET dwChannel
            (if fToDevice then XDMA_H2C_CHANNEL_IDENTIFIER_OFFSET
             else XDMA_C2H_CHANNEL_IDENTIFIER_OFFSET))).1
        else if dwChannel ≠ XDMA_ENGINE_CHANNEL_NUM
          (h.readAddr32 bar (XDMA_CHANNEL_OFFSET dwChannel
            (if fToDevice then XDMA_H2C_CHANNEL_IDENTIFIER_OFFSET
             else XDMA_C2H_CHANNEL_IDENTIFIER_OFFSET))).2 then WDStatus.WD_INVALID_PARAMETER
        else WDStatus.WD_STATUS_SUCCESS,
       [HostEvent.readAddr32 bar (XDMA_CHANNEL_OFFSET dwChannel
          (if fToDevice then XDMA_H2C_CHANNEL_IDENTIFIER_OFFSET
           else XDMA_C2H_CHANNEL_IDENTIFIER_OFFSET))]) := by
  have hn : ¬ dwChannel > XDMA_CHANNELS_NUM - 1 := by
    unfold XDMA_CHANNELS_NUM
    omega
  simp only [ValidateTransferParams, hn, if_false]
  split_ifs <;> rfl

theorem open_proceeds (h : HostService) (hwf : h.WF) (ctx : XDMA_DEV_CTX) (o : HandleVal)
    (dwBytes u64FPGAOffset : Nat) (fToDevice : Bool) (dwChannel : Nat)
    (fPolling fNonIncMode : Bool) (pData : Nat) (fIsTransaction : Bool)
    (slot : XDMA_DMA_STRUCT)
    (hv : (ValidateTransferParams h ctx.dwConfigBarNum fToDevice dwChannel).1 =
      WDStatus.WD_STATUS_SUCCESS)
    (hslot : ctx.pEnginesArr[ENGINE_IDX dwChannel fToDevice]? = some slot)
    (hen : slot.fIsEnabled = true) (hinit : slot.fIsInitialized = false) :
    ∃ r rest, XDMA_DmaOpen h ctx (some o) dwBytes u64FPGAOffset fToDevice dwChannel fPolling
        fNonIncMode pData fIsTransaction = some r ∧
      r.trace = (ValidateTransferParams h ctx.dwConfigBarNum fToDevice dwChannel).2 ++
        (EngineIsStreaming h ctx.dwConfigBarNum dwChannel fToDevice).2 ++
        [HostEvent.valloc dwBytes] ++ rest ∧
      (h.valloc dwBytes ≠ 0 → ∃ rest1, rest =
        (if !fIsTransaction then HostEvent.sgBufLock (h.valloc dwBytes) fToDevice dwBytes
         else HostEvent.transactionSGInit (h.valloc dwBytes) fToDevice dwBytes) :: rest1) := by
  by_cases hl : (LockDmaBuffer h fToDevice slot.pDma dwBytes fIsTransaction).1 =
      WDStatus.WD_STATUS_SUCCESS
  · obtain ⟨hp, hlock⟩ := lock_success h fToDevice slot.pDma dwBytes fIsTransaction hl
    have hpages : fIsTransaction = false →
        (if !fIsTransaction then h.sgBufLock (h.valloc dwBytes) fToDevice dwBytes
          else h.transactionSGInit (h.valloc dwBytes) fToDevice dwBytes).2.Page.length <
          2 ^ 27 := by
      intro hft
      subst hft
      have hst : (h.sgBufLock (h.valloc dwBytes) fToDevice dwBytes).1 =
          WDStatus.WD_STATUS_SUCCESS := by
        by_contra hne
        simp [LockDmaBuffer, hp, hne] at hl
      simpa using hwf.pin_pages _ _ _ hst
    obtain ⟨r, rest, hr, htr⟩ := configure_total h hwf ctx (ENGINE_IDX dwChannel fToDevice)
      (XDMA_DmaOpen.atCheck h ctx.dwConfigBarNum slot dwBytes u64FPGAOffset fToDevice
        dwChannel fPolling fNonIncMode pData fIsTransaction) fPolling fIsTransaction
      (XDMA_DmaOpen.traceToCheck h ctx.dwConfigBarNum slot dwBytes fToDevice dwChannel
        fIsTransaction) _ (by simp only [XDMA_DmaOpen.atCheck, hlock]) hpages
    rw [open_reaches_check h ctx o dwBytes u64FPGAOffset fToDevice dwChannel fPolling
      fNonIncMode pData fIsTransaction slot hv hslot hen hinit hl]
    refine ⟨r,
      (if !fIsTransaction then HostEvent.sgBufLock (h.valloc dwBytes) fToDevice dwBytes
       else HostEvent.transactionSGInit (h.valloc dwBytes) fToDevice dwBytes) ::
      ([ HostEvent.writeAddr32
          { dwAddrSpace := ctx.dwConfigBarNum,
            dwOffset := XDMA_CHANNEL_OFFSET dwChannel
              (if fToDevice then XDMA_H2C_CHANNEL_CONTROL_W1C_OFFSET
               else XDMA_C2H_CHANNEL_CONTROL_W1C_OFFSET),
            val := XDMA_CTRL_NON_INCR_ADDR } ] ++ rest), hr, ?_, fun _ => ⟨_, rfl⟩⟩
    rw [htr]
    simp only [XDMA_DmaOpen.traceToCheck, hlock, List.append_assoc, List.cons_append,
      List.nil_append]
  · have hopen : XDMA_DmaOpen h ctx (some o) dwBytes u64FPGAOffset fToDevice dwChannel
        fPolling fNonIncMode pData fIsTransaction =
        some (XDMA_DmaOpen.fail ctx (ENGINE_IDX dwChannel fToDevice)
          { slot with
            fStreaming := (EngineIsStreaming h ctx.dwConfigBarNum dwChannel fToDevice).1,
            pBuf := (LockDmaBuffer h fToDevice slot.pDma dwBytes fIsTransaction).2.1,
            pDma := (LockDmaBuffer h fToDevice slot.pDma dwBytes fIsTransaction).2.2.1 }
          (LockDmaBuffer h fToDevice slot.pDma dwBytes fIsTransaction).1 (some o)
          ((ValidateTransferParams h ctx.dwConfigBarNum fToDevice dwChannel).2 ++
            (EngineIsStreaming h ctx.dwConfigBarNum dwChannel fToDevice).2 ++
            (LockDmaBuffer h fToDevice slot.pDma dwBytes fIsTransaction).2.2.2)) := by
      simp [XDMA_DmaOpen, hv, hslot, hen, hinit, hl]
    refine ⟨_, (LockDmaBuffer h fToDevice slot.pDma dwBytes fIsTransaction).2.2.2.tail ++
        (XDMA_DmaOpen.Error { slot with
          fStreaming := (EngineIsStreaming h ctx.dwConfigBarNum dwChannel fToDevice).1,
          pBuf := (LockDmaBuffer h fToDevice slot.pDma dwBytes fIsTransaction).2.1,
          pDma := (LockDmaBuffer h fToDevice slot.pDma dwBytes fIsTransaction).2.2.1 }).2,
      hopen, ?_, ?_⟩
    · simp only [XDMA_DmaOpen.fail, LockDmaBuffer]
      split_ifs <;> simp
    · intro hp
      simp only [LockDmaBuffer, hp, if_false]
      split_ifs <;> simp

/-- C16 (as amended): `XDMA_DmaOpen` rejects, before allocating or pinning
anything and in this order of precedence: a null out-parameter with
`WD_INVALID_PARAMETER`; a channel greater than 3 with `WD_INVALID_PARAMETER`,
without reading any register; a failed read of the identifier register with
the status of that read; an identifier register whose channel field (bits
11:8) differs from the requested channel with `WD_INVALID_PARAMETER`; a slot
that is not enabled with `WD_INVALID_PARAMETER`; a slot that is already
initialized with `WD_OPERATION_ALREADY_DONE`.  If none of these holds, it
reads the identifier register again for the streaming flag and proceeds to
allocate the buffer and, when that succeeds, to pin it. -/
theorem C16_open_validation_order (h : HostService) (ctx : XDMA_DEV_CTX) (o : HandleVal)
    (dwBytes u64FPGAOffset : Nat) (fToDevice : Bool) (dwChannel : Nat)
    (fPolling fNonIncMode : Bool) (pData : Nat) (fIsTransaction : Bool)
    (idOff : Nat) (idReg : WDStatus × Nat)
    (hoff : idOff = XDMA_CHANNEL_OFFSET dwChannel
      (if fToDevice then XDMA_H2C_CHANNEL_IDENTIFIER_OFFSET
       else XDMA_C2H_CHANNEL_IDENTIFIER_OFFSET))
    (hid : idReg = h.readAddr32 ctx.dwConfigBarNum idOff) :
    XDMA_DmaOpen h ctx none dwBytes u64FPGAOffset fToDevice dwChannel fPolling fNonIncMode
      pData fIsTransaction = some ⟨WDStatus.WD_INVALID_PARAMETER, ctx, none, []⟩ ∧
    (3 < dwChannel →
      XDMA_DmaOpen h ctx (some o) dwBytes u64FPGAOffset fToDevice dwChannel fPolling
        fNonIncMode pData fIsTransaction =
        some ⟨WDStatus.WD_INVALID_PARAMETER, ctx, some o, []⟩) ∧
    (dwChannel ≤ 3 → idReg.1 ≠ WDStatus.WD_STATUS_SUCCESS →
      XDMA_DmaOpen h ctx (some o) dwBytes u64FPGAOffset fToDevice dwChannel fPolling
        fNonIncMode pData fIsTransaction =
        some ⟨idReg.1, ctx, some o, [HostEvent.readAddr32 ctx.dwConfigBarNum idOff]⟩) ∧
    (dwChannel ≤ 3 → idReg.1 = WDStatus.WD_STATUS_SUCCESS →
      XDMA_ENGINE_CHANNEL_NUM idReg.2 ≠ dwChannel →
      XDMA_DmaOpen h ctx (some o) dwBytes u64FPGAOffset fToDevice dwChannel fPolling
        fNonIncMode pData fIsTransaction =
        some ⟨WDStatus.WD_INVALID_PARAMETER, ctx, some o,
          [HostEvent.readAddr32 ctx.dwConfigBarNum idOff]⟩) ∧
    (∀ slot, dwChannel ≤ 3 → idReg.1 = WDStatus.WD_STATUS_SUCCESS →
      XDMA_ENGINE_CHANNEL_NUM idReg.2 = dwChannel →
      ctx.pEnginesArr[ENGINE_IDX dwChannel fToDevice]? = some slot →
      (slot.fIsEnabled = false →
        XDMA_DmaOpen h ctx (some o) dwBytes u64FPGAOffset fToDevice dwChannel fPolling
          fNonIncMode pData fIsTransaction =
          some ⟨WDStatus.WD_INVALID_PARAMETER, ctx, some o,
            [HostEvent.readAddr32 ctx.dwConfigBarNum idOff]⟩) ∧
      (slot.fIsEnabled = true → slot.fIsInitialized = true →
        ∃ r, XDMA_DmaOpen h ctx (some o) dwBytes u64FPGAOffset fToDevice dwChannel fPolling
            fNonIncMode pData fIsTransaction = some r ∧
          r.dwStatus = WDStatus.WD_OPERATION_ALREADY_DONE ∧ r.ctx = ctx ∧
          r.trace = [HostEvent.readAddr32 ctx.dwConfigBarNum idOff]) ∧
      (slot.fIsEnabled = true → slot.fIsInitialized = false → h.WF →
        ∃ r rest, XDMA_DmaOpen h ctx (some o) dwBytes u64FPGAOffset fToDevice dwChannel
            fPolling fNonIncMode pData fIsTransaction = some r ∧
          r.trace = [HostEvent.readAddr32 ctx.dwConfigBarNum idOff,
            HostEvent.readAddr32 ctx.dwConfigBarNum idOff, HostEvent.valloc dwBytes] ++ rest ∧
          (h.valloc dwBytes ≠ 0 → ∃ rest1, rest =
            (if !fIsTransaction then HostEvent.sgBufLock (h.valloc dwBytes) fToDevice dwBytes
             else HostEvent.transactionSGInit (h.valloc dwBytes) fToDevice dwBytes) ::
            rest1))) := by
  subst hoff hid
  refine ⟨rfl, ?_, ?_, ?_, ?_⟩
  · intro hch
    have hgt : dwChannel > XDMA_CHANNELS_NUM - 1 := by
      unfold XDMA_CHANNELS_NUM
      omega
    simp [XDMA_DmaOpen, ValidateTransferParams, hgt]
  · intro hch hst
    simp [XDMA_DmaOpen, validate_eq h _ fToDevice dwChannel hch, hst]
  · intro hch hst hne
    simp [XDMA_DmaOpen, validate_eq h _ fToDevice dwChannel hch, hst, Ne.symm hne]
  · intro slot hch hst hcn hslot
    have hv : ValidateTransferParams h ctx.dwConfigBarNum fToDevice dwChannel =
        (WDStatus.WD_STATUS_SUCCESS,
          [HostEvent.readAddr32 ctx.dwConfigBarNum (XDMA_CHANNEL_OFFSET dwChannel
            (if fToDevice then XDMA_H2C_CHANNEL_IDENTIFIER_OFFSET
             else XDMA_C2H_CHANNEL_IDENTIFIER_OFFSET))]) := by
      rw [validate_eq h _ fToDevice dwChannel hch]
      simp [hst, hcn]
    refine ⟨?_, ?_, ?_⟩
    · intro hen
      simp [XDMA_DmaOpen, hv, hslot, hen]
    · intro hen hinit
      exact ⟨_, by simp [XDMA_DmaOpen, hv, hslot, hen, hinit]; rfl, rfl, rfl, rfl⟩
    · intro hen hinit hwf
      obtain ⟨r, rest, hr, htr, hpin⟩ := open_proceeds h hwf ctx o dwBytes u64FPGAOffset
        fToDevice dwChannel fPolling fNonIncMode pData fIsTransaction slot
        (by rw [hv]) hslot hen hinit
      refine ⟨r, rest, hr, ?_, hpin⟩
      rw [htr, hv]
      rfl

theorem sampleHost_wf : sampleHost.WF :=
  ⟨fun f n _ => by simp [sampleHost], by decide, fun p f n _ => by simp [sampleHost]⟩

theorem C16_open_validation_order_witness :
    XDMA_DmaOpen readFailHost sampleCtx (some HandleVal.null) 4096 0 true 0 true false 0
      false = some ⟨WDStatus.other 0x20000015, sampleCtx, some HandleVal.null,
        [HostEvent.readAddr32 0 0]⟩ ∧
    ∃ r rest, XDMA_DmaOpen sampleHost sampleCtx (some HandleVal.null) 4096 0 true 0 true
        false 0 false = some r ∧
      r.trace = [HostEvent.readAddr32 0 0, HostEvent.readAddr32 0 0,
        HostEvent.valloc 4096] ++ rest ∧
      (sampleHost.valloc 4096 ≠ 0 → ∃ rest1, rest =
        HostEvent.sgBufLock (sampleHost.valloc 4096) true 4096 :: rest1) :=
  ⟨(C16_open_validation_order readFailHost sampleCtx HandleVal.null 4096 0 true 0 true false
      0 false 0 (WDStatus.other 0x20000015, 0) rfl rfl).2.2.1 (by decide) (by decide),
   ((C16_open_validation_order sampleHost sampleCtx HandleVal.null 4096 0 true 0 true false
      0 false 0 (WDStatus.WD_STATUS_SUCCESS, 0x1FC00000) rfl rfl).2.2.2.2
      { zeroSlot with u32IrqBitMask := 1, fIsEnabled := true }
      (by decide) rfl (by decide) (by decide)).2.2 rfl rfl sampleHost_wf⟩

/-- C16 fails as stated: with a non-null out-parameter, channel 0, an enabled
slot without a session and a read of the identifier register that fails with
status `0x20000015`, none of the five conditions holds, yet `XDMA_DmaOpen`
returns that status after the one register read, without allocating or
pinning the buffer. -/
theorem C16_counterexample :
    XDMA_DmaOpen readFailHost sampleCtx (some HandleVal.null) 4096 0 true 0 true false 0
      false = some ⟨WDStatus.other 0x20000015, sampleCtx, some HandleVal.null,
        [HostEvent.readAddr32 0 0]⟩ ∧
    XDMA_ENGINE_CHANNEL_NUM (readFailHost.readAddr32 0 0).2 = 0 ∧
    (sampleCtx.pEnginesArr[ENGINE_IDX 0 true]?).map
      (fun s => (s.fIsEnabled, s.fIsInitialized)) = some (true, false) := by
  decide

/-! ## Engine enumeration -/

theorem foundBefore_succ (h : HostService) (bar n : Nat) :
    foundBefore h bar (n + 1) =
      foundBefore h bar n + (if engineFound h bar n then 1 else 0) := by
  unfold foundBefore
  rw [List.range_succ, List.filter_append, List.length_append]
  cases hf : engineFound h bar n <;> simp [List.filter, hf]

theorem foundBefore_le (h : HostService) (bar n : Nat) : foundBefore h bar n ≤ n := by
  induction n with
  | zero => simp [foundBefore]
  | succ n ih =>
    rw [foundBefore_succ]
    split_ifs <;> omega

theorem foundBefore_mono (h : HostService) (bar i j : Nat) (hij : i ≤ j) :
    foundBefore h bar i ≤ foundBefore h bar j := by
  induction j, hij using Nat.le_induction with
  | base => exact Nat.le_refl _
  | succ k _ ih =>
    rw [foundBefore_succ]
    omega

theorem createdSlot_succ_ne (h : HostService) (bar n j : Nat) (hjn : j ≠ n) :
    createdSlot h bar (n + 1) j = createdSlot h bar n j := by
  unfold createdSlot
  by_cases h1 : j < n
  · have h2 : j < n + 1 := by omega
    simp [h1, h2]
  · have h2 : ¬ j < n + 1 := by omega
    simp [h1, h2]

theorem create_body_inv (h : HostService) (bar n : Nat) (st : List XDMA_DMA_STRUCT × Nat)
    (hn : n < XDMA_CHANNELS_NUM * 2) (hinv : CreateInv h bar n st) :
    CreateInv h bar (n + 1) (EnginesCreate.body h bar st n) := by
  obtain ⟨hlen, hidx, hslots⟩ := hinv
  have hn8 : n < 8 := hn
  have hle := foundBefore_le h bar n
  have hget : st.1[n]? = some zeroSlot := by
    rw [hslots n hn]
    simp [createdSlot]
  have hbody : EnginesCreate.body h bar st n =
      if engineFound h bar n then
        match st.1[n]? with
        | some s =>
          (st.1.set n { s with
            u32IrqBitMask :=
              (((1 <<< XDMA_ENG_IRQ_NUM) - 1) <<< (st.2 * XDMA_ENG_IRQ_NUM)) % 2 ^ 32,
            fIsEnabled := true }, (st.2 + 1) % 2 ^ 32)
        | none => (st.1, (st.2 + 1) % 2 ^ 32)
      else st := rfl
  rw [hbody]
  cases hf : engineFound h bar n
  · refine ⟨by simpa using hlen, ?_, ?_⟩
    · simp [hidx, foundBefore_succ, hf]
    · intro j hj
      simp only [Bool.false_eq_true, if_false]
      rw [hslots j hj]
      by_cases hjn : j = n
      · subst hjn
        simp [createdSlot, hf]
      · rw [createdSlot_succ_ne h bar n j hjn]
  · have hmask : (((1 <<< XDMA_ENG_IRQ_NUM) - 1) <<< (st.2 * XDMA_ENG_IRQ_NUM)) % 2 ^ 32 =
        1 <<< foundBefore h bar n := by
      rw [hidx]
      unfold XDMA_ENG_IRQ_NUM
      have h1 : (1 <<< 1 - 1 : Nat) = 1 := by decide
      rw [h1, Nat.mul_one, Nat.shiftLeft_eq, Nat.one_mul]
      apply Nat.mod_eq_of_lt
      exact Nat.pow_lt_pow_right (by norm_num) (by omega)
    simp only [if_true, hget, hmask]
    refine ⟨by simpa using hlen, ?_, ?_⟩
    · simp only [hidx, foundBefore_succ, hf, if_true]
      apply Nat.mod_eq_of_lt
      norm_num
      omega
    · intro j hj
      by_cases hjn : j = n
      · subst hjn
        rw [List.getElem?_set_self (by rw [hlen]; exact hj)]
        simp [createdSlot, hf]
      · rw [List.getElem?_set_ne (Ne.symm hjn), hslots j hj,
          createdSlot_succ_ne h bar n j hjn]

theorem create_fold_inv (h : HostService) (bar : Nat) :
    ∀ n, n ≤ XDMA_CHANNELS_NUM * 2 →
      CreateInv h bar n ((List.range n).foldl (EnginesCreate.body h bar)
        (List.replicate (XDMA_CHANNELS_NUM * 2) zeroSlot, 0)) := by
  intro n
  induction n with
  | zero =>
    intro _
    refine ⟨by simp, by simp [foundBefore], ?_⟩
    intro j hj
    simp [createdSlot, List.getElem?_replicate, hj]
  | succ n ih =>
    intro hn
    rw [List.range_succ, List.foldl_append]
    exact create_body_inv h bar n _ (by omega) (ih (by omega))

theorem create_slot (h : HostService) (bar i : Nat) (hi : i < XDMA_CHANNELS_NUM * 2) :
    (EnginesCreate h (zeroCtx bar)).pEnginesArr[i]? =
      some (createdSlot h bar (XDMA_CHANNELS_NUM * 2) i) :=
  (create_fold_inv h bar (XDMA_CHANNELS_NUM * 2) (Nat.le_refl _)).slots i hi

/-- C19: after `EnginesCreate` on a zeroed device context, for every direction
and channel `c` in 0..3, the slot at index `c` (H2C) or `4 + c` (C2H) is
enabled if and only if the identifier register read at `0x0000 + 0x100 * c`
(H2C) or `0x1000 + 0x100 * c` (C2H) satisfies
`(value & 0xFFF00000) == 0x1FC00000`. -/
theorem C19_slot_enabled_iff_magic (h : HostService) (bar : Nat) (f : Bool) (c : Nat)
    (hc : c < 4) :
    ∃ s, (EnginesCreate h (zeroCtx bar)).pEnginesArr[if f then c else 4 + c]? = some s ∧
      (s.fIsEnabled = true ↔
        (h.readAddr32 bar ((if f then 0x0000 else 0x1000) + 0x100 * c)).2 &&& 0xFFF00000 =
          0x1FC00000) := by
  have hi : (if f then c else 4 + c) < XDMA_CHANNELS_NUM * 2 := by
    unfold XDMA_CHANNELS_NUM
    cases f <;> simp <;> omega
  refine ⟨_, create_slot h bar _ hi, ?_⟩
  interval_cases c <;> cases f <;>
    simp [createdSlot, engineFound, EngineExists, XDMA_CHANNEL_OFFSET, XDMA_CHANNEL_SPACING,
      XDMA_CHANNELS_NUM, XDMA_H2C_CHANNEL_IDENTIFIER_OFFSET,
      XDMA_C2H_CHANNEL_IDENTIFIER_OFFSET, XDMA_ID_MASK, XDMA_ID, zeroSlot] <;>
    (split_ifs with hx <;> simp [hx])

theorem C19_slot_enabled_iff_magic_witness :
    ∃ s, (EnginesCreate sampleHost (zeroCtx 0)).pEnginesArr[4 + 2]? = some s ∧
      (s.fIsEnabled = true ↔
        (sampleHost.readAddr32 0 (0x1000 + 0x100 * 2)).2 &&& 0xFFF00000 = 0x1FC00000) :=
  C19_slot_enabled_iff_magic sampleHost 0 false 2 (by decide)

theorem slotEnabled_created (h : HostService) (bar i : Nat) (hi : i < 8) :
    slotEnabled (EnginesCreate h (zeroCtx bar)) i = engineFound h bar i := by
  unfold slotEnabled
  rw [create_slot h bar i hi]
  have h8 : i < XDMA_CHANNELS_NUM * 2 := hi
  cases hf : engineFound h bar i <;> simp [createdSlot, hf, h8, zeroSlot]

theorem slotMask_created (h : HostService) (bar i : Nat) (hi : i < 8) :
    slotMask (EnginesCreate h (zeroCtx bar)) i =
      if engineFound h bar i then 1 <<< foundBefore h bar i else 0 := by
  unfold slotMask
  rw [create_slot h bar i hi]
  have h8 : i < XDMA_CHANNELS_NUM * 2 := hi
  cases hf : engineFound h bar i <;> simp [createdSlot, hf, h8, zeroSlot]

theorem enabledBefore_created (h : HostService) (bar n : Nat) (hn : n ≤ 8) :
    enabledBefore (EnginesCreate h (zeroCtx bar)) n = foundBefore h bar n := by
  unfold enabledBefore foundBefore
  rw [List.filter_congr]
  intro x hx
  exact slotEnabled_created h bar x (by have := List.mem_range.mp hx; omega)

theorem shift_disjoint : ∀ a, a < 9 → ∀ b, b < 9 → a ≠ b → (1 <<< a) &&& (1 <<< b) = 0 := by
  decide

theorem or_step : ∀ c, c < 9 → (2 ^ c - 1) ||| (1 <<< c) = 2 ^ (c + 1) - 1 := by
  decide

theorem union_found (h : HostService) (bar : Nat) :
    ∀ n, n ≤ 8 →
      (((List.range n).filter (engineFound h bar)).map
        (fun i => 1 <<< foundBefore h bar i)).foldl (fun a b => a ||| b) 0 =
      2 ^ foundBefore h bar n - 1 := by
  intro n
  induction n with
  | zero => intro _; simp [foundBefore]
  | succ n ih =>
    intro hn
    have hle := foundBefore_le h bar n
    rw [List.range_succ, List.filter_append, List.map_append, List.foldl_append, ih (by omega),
      foundBefore_succ]
    cases hf : engineFound h bar n
    · simp [List.filter, hf]
    · simp only [List.filter, hf, List.map_cons, List.map_nil, List.foldl_cons, List.foldl_nil,
        if_true]
      exact or_step _ (by omega)

theorem foundBefore_lt (h : HostService) (bar i j : Nat) (hij : i < j)
    (hf : engineFound h bar i = true) : foundBefore h bar i < foundBefore h bar j := by
  have h1 := foundBefore_succ h bar i
  have h2 := foundBefore_mono h bar (i + 1) j hij
  simp only [hf, if_true] at h1
  omega

theorem engineFound_congr (h h2 : HostService) (bar i : Nat)
    (hrd : (h2.readAddr32 bar (engineIdOffset i)).2 = (h.readAddr32 bar (engineIdOffset i)).2) :
    engineFound h2 bar i = engineFound h bar i := by
  unfold engineFound EngineExists
  unfold engineIdOffset at hrd
  by_cases hi : i < XDMA_CHANNELS_NUM
  · simp only [hi, if_true, decide_True] at hrd ⊢
    rw [hrd]
  · simp only [hi, if_false, decide_False] at hrd ⊢
    simp only [Bool.false_eq_true, if_false]
    rw [hrd]

theorem foundBefore_congr (h h2 : HostService) (bar n : Nat)
    (hrd : ∀ i, i < n → engineFound h2 bar i = engineFound h bar i) :
    foundBefore h2 bar n = foundBefore h bar n := by
  unfold foundBefore
  rw [List.filter_congr]
  intro x hx
  exact hrd x (List.mem_range.mp hx)

theorem create_length (h : HostService) (bar : Nat) :
    (EnginesCreate h (zeroCtx bar)).pEnginesArr.length = XDMA_CHANNELS_NUM * 2 :=
  (create_fold_inv h bar (XDMA_CHANNELS_NUM * 2) (Nat.le_refl _)).len

theorem create_congr (h h2 : HostService) (bar : Nat)
    (hrd : ∀ i, i < 8 →
      (h2.readAddr32 bar (engineIdOffset i)).2 = (h.readAddr32 bar (engineIdOffset i)).2) :
    EnginesCreate h2 (zeroCtx bar) = EnginesCreate h (zeroCtx bar) := by
  have hfound : ∀ i, i < 8 → engineFound h2 bar i = engineFound h bar i :=
    fun i hi => engineFound_congr h h2 bar i (hrd i hi)
  have key : (EnginesCreate h2 (zeroCtx bar)).pEnginesArr =
      (EnginesCreate h (zeroCtx bar)).pEnginesArr := by
    apply List.ext_getElem?
    intro i
    by_cases hi : i < XDMA_CHANNELS_NUM * 2
    · rw [create_slot h2 bar i hi, create_slot h bar i hi]
      unfold createdSlot
      rw [hfound i hi, foundBefore_congr h h2 bar i (fun x hx => hfound x (by
        have : XDMA_CHANNELS_NUM * 2 = 8 := rfl
        omega))]
    · rw [List.getElem?_eq_none (by rw [create_length]; omega),
        List.getElem?_eq_none (by rw [create_length]; omega)]
  simp only [EnginesCreate] at key ⊢
  rw [key]

/-- C20: engine enumeration on a zeroed device context depends only on the
eight identifier-register values.  An enabled slot `i` (order H2C-0..3 then
C2H-0..3) with `k` enabled slots before it carries the IRQ bit mask `1 <<< k`;
the masks of two distinct enabled slots are disjoint; the union of the masks of
the enabled slots is `2 ^ m - 1` for `m` enabled engines; and a second
enumeration reading the same eight identifier values yields the same device
context, thus the same enabled set and the same mask assignment. -/
theorem C20_enumeration_masks (h : HostService) (bar : Nat) :
    (∀ i, i < 8 → slotEnabled (EnginesCreate h (zeroCtx bar)) i = true →
      slotMask (EnginesCreate h (zeroCtx bar)) i =
        1 <<< enabledBefore (EnginesCreate h (zeroCtx bar)) i) ∧
    (∀ i j, i < 8 → j < 8 → i ≠ j →
      slotEnabled (EnginesCreate h (zeroCtx bar)) i = true →
      slotEnabled (EnginesCreate h (zeroCtx bar)) j = true →
      slotMask (EnginesCreate h (zeroCtx bar)) i &&&
        slotMask (EnginesCreate h (zeroCtx bar)) j = 0) ∧
    (((List.range 8).filter (slotEnabled (EnginesCreate h (zeroCtx bar)))).map
        (slotMask (EnginesCreate h (zeroCtx bar)))).foldl (fun a b => a ||| b) 0 =
      2 ^ enabledBefore (EnginesCreate h (zeroCtx bar)) 8 - 1 ∧
    (∀ h2 : HostService,
      (∀ i, i < 8 →
        (h2.readAddr32 bar (engineIdOffset i)).2 = (h.readAddr32 bar (engineIdOffset i)).2) →
      EnginesCreate h2 (zeroCtx bar) = EnginesCreate h (zeroCtx bar)) := by
  refine ⟨?_, ?_, ?_, ?_⟩
  · intro i hi hen
    rw [slotEnabled_created h bar i hi] at hen
    rw [slotMask_created h bar i hi, enabledBefore_created h bar i (by omega)]
    simp [hen]
  · intro i j hi hj hij hei hej
    rw [slotEnabled_created h bar i hi] at hei
    rw [slotEnabled_created h bar j hj] at hej
    rw [slotMask_created h bar i hi, slotMask_created h bar j hj]
    simp only [hei, hej, if_true]
    have hli := foundBefore_le h bar i
    have hlj := foundBefore_le h bar j
    apply shift_disjoint _ (by omega) _ (by omega)
    rcases Nat.lt_or_gt_of_ne hij with hlt | hgt
    · have := foundBefore_lt h bar i j hlt hei
      omega
    · have := foundBefore_lt h bar j i hgt hej
      omega
  · rw [enabledBefore_created h bar 8 (Nat.le_refl _), ← union_found h bar 8 (Nat.le_refl _)]
    have hfilter : (List.range 8).filter (slotEnabled (EnginesCreate h (zeroCtx bar))) =
        (List.range 8).filter (engineFound h bar) :=
      List.filter_congr (fun x hx => slotEnabled_created h bar x (List.mem_range.mp hx))
    rw [hfilter]
    congr 1
    apply List.map_congr_left
    intro x hx
    have hx1 := List.mem_filter.mp hx
    rw [slotMask_created h bar x (List.mem_range.mp hx1.1)]
    simp [hx1.2]
  · intro h2 hrd
    exact create_congr h h2 bar hrd

/-- Instance of C20 on the sample card, where all eight engines are present:
the slot of C2H channel 1 carries bit 5, its mask is disjoint from the mask of
H2C channel 2, eight slots are enabled, and a host that differs from the
sample host only outside the identifier registers is enumerated to the same
device context. -/
theorem C20_enumeration_masks_witness :
    slotMask sampleCtx 5 = 1 <<< enabledBefore sampleCtx 5 ∧
    slotMask sampleCtx 5 &&& slotMask sampleCtx 2 = 0 ∧
    enabledBefore sampleCtx 8 = 8 ∧
    EnginesCreate { sampleHost with pageSize := 8192 } (zeroCtx 0) = sampleCtx :=
  ⟨(C20_enumeration_masks sampleHost 0).1 5 (by decide) (by decide),
   (C20_enumeration_masks sampleHost 0).2.1 5 2 (by decide) (by decide) (by decide)
     (by decide) (by decide),
   by decide,
   (C20_enumeration_masks sampleHost 0).2.2.2 { sampleHost with pageSize := 8192 }
     (fun _ _ => rfl)⟩

/-! ## Device discovery -/

theorem configBar_step (h : HostService)
    (hrd : ∀ bar off, (h.readAddr32 bar off).1 = WDStatus.WD_STATUS_SUCCESS)
    (a : WDC_ADDR_DESC) (rest : List WDC_ADDR_DESC) (i : Nat) (hi : i + 1 < 2 ^ 32) :
    getConfigBar.loop h (a :: rest) i =
      if barMatches h a i = true then i else getConfigBar.loop h rest (i + 1) := by
  have hmod : (i + 1) % 2 ^ 32 = i + 1 := Nat.mod_eq_of_lt hi
  simp only [getConfigBar.loop, hrd, hmod, barMatches]
  by_cases hf : a.fActive = true
  · by_cases hs : XDMA_MIN_CONFIG_BAR_SIZE ≤ a.qwBytes
    · have hs1 : ¬ a.qwBytes < XDMA_MIN_CONFIG_BAR_SIZE := Nat.not_lt.mpr hs
      by_cases h1 : (h.readAddr32 i XDMA_IRQ_BLOCK_IDENTIFIER_OFFSET).2 &&& XDMA_ID_MASK =
          XDMA_ID <;>
        by_cases h2 : (h.readAddr32 i XDMA_CONFIG_BLOCK_IDENTIFIER_OFFSET).2 &&& XDMA_ID_MASK =
          XDMA_ID <;>
        simp [hf, hs, hs1, h1, h2]
    · have hs1 : a.qwBytes < XDMA_MIN_CONFIG_BAR_SIZE := Nat.lt_of_not_le hs
      simp [hf, hs, hs1]
  · simp [hf]

theorem configBar_loop_spec (h : HostService)
    (hrd : ∀ bar off, (h.readAddr32 bar off).1 = WDStatus.WD_STATUS_SUCCESS) :
    ∀ (l : List WDC_ADDR_DESC) (i0 : Nat), i0 + l.length < 2 ^ 32 →
      (getConfigBar.loop h l i0 = 0xFFFFFFFF ∧
        ∀ k a, l[k]? = some a → barMatches h a (i0 + k) = false) ∨
      (∃ k a, l[k]? = some a ∧ getConfigBar.loop h l i0 = i0 + k ∧
        barMatches h a (i0 + k) = true ∧
        ∀ j b, j < k → l[j]? = some b → barMatches h b (i0 + j) = false) := by
  intro l
  induction l with
  | nil =>
    intro i0 _
    left
    exact ⟨rfl, fun k a hk => by simp at hk⟩
  | cons a rest ih =>
    intro i0 hlen
    simp only [List.length_cons] at hlen
    rw [configBar_step h hrd a rest i0 (by omega)]
    by_cases hm : barMatches h a i0 = true
    · right
      refine ⟨0, a, by simp, by simp [hm], by simpa using hm, fun j b hj _ => by omega⟩
    · have hm0 : barMatches h a i0 = false := by simpa using hm
      rw [hm0]
      simp only [Bool.false_eq_true, if_false]
      rcases ih (i0 + 1) (by omega) with ⟨hret, hall⟩ | ⟨k, b, hk, hret, hb, hbefore⟩
      · left
        refine ⟨hret, fun k b hk => ?_⟩
        cases k with
        | zero =>
          simp at hk
          subst hk
          simpa using hm0
        | succ k =>
          have := hall k b (by simpa using hk)
          rw [← this]
          congr 1
          omega
      · right
        refine ⟨k + 1, b, by simpa using hk, by rw [hret]; omega, ?_, ?_⟩
        · rw [← hb]
          congr 1
          omega
        · intro j c hj hc
          cases j with
          | zero =>
            simp at hc
            subst hc
            simpa using hm0
          | succ j =>
            have := hbefore j c (by omega) (by simpa using hc)
            rw [← this]
            congr 1
            omega

theorem configBar_cases (h : HostService) (dev : WDC_DEVICE)
    (hn : dev.dwNumAddrSpaces < 2 ^ 32)
    (hrd : ∀ bar off, (h.readAddr32 bar off).1 = WDStatus.WD_STATUS_SUCCESS) :
    (getConfigBar h dev = 0xFFFFFFFF ∧ ∀ i, isConfigBar h dev i = false) ∨
    (∃ k, k < dev.dwNumAddrSpaces ∧ getConfigBar h dev = k ∧ isConfigBar h dev k = true ∧
      ∀ j, j < k → isConfigBar h dev j = false) := by
  have hlen : 0 + dev.pAddrDesc.length < 2 ^ 32 := by
    simpa [WDC_DEVICE.dwNumAddrSpaces] using hn
  rcases configBar_loop_spec h hrd dev.pAddrDesc 0 hlen with ⟨hret, hall⟩ | ⟨k, a, hk, hret, ha, hbefore⟩
  · left
    refine ⟨hret, fun i => ?_⟩
    unfold isConfigBar
    cases hi : dev.pAddrDesc[i]? with
    | none => rfl
    | some a => simpa using hall i a hi
  · right
    have hklt : k < dev.pAddrDesc.length := (List.getElem?_eq_some.mp hk).1
    refine ⟨k, hklt, by simpa using hret, ?_, fun j hj => ?_⟩
    · unfold isConfigBar
      rw [hk]
      simpa using ha
    · unfold isConfigBar
      cases hj1 : dev.pAddrDesc[j]? with
      | none => rfl
      | some b => simpa using hbefore j b hj hj1

/-- C21: when every register read succeeds, `getConfigBar` returns the least
index `i` of an address space that is active, has at least `0x8FE4` bytes and
whose words at offsets `0x2000` and `0x3000` both satisfy
`(value & 0xFFF00000) == 0x1FC00000`; it returns `(DWORD)-1` if and only if no
address space satisfies these conditions, and `DeviceInit` then fails, while
it succeeds when there is one. -/
theorem C21_config_bar_discovery (h : HostService) (dev : WDC_DEVICE)
    (hn : dev.dwNumAddrSpaces < 2 ^ 32)
    (hrd : ∀ bar off, (h.readAddr32 bar off).1 = WDStatus.WD_STATUS_SUCCESS) :
    (∀ i, isConfigBar h dev i = true → (∀ j, j < i → isConfigBar h dev j = false) →
      getConfigBar h dev = i) ∧
    (getConfigBar h dev = 0xFFFFFFFF ↔ ∀ i, isConfigBar h dev i = false) ∧
    (∀ ctx, dev.pCtx = some ctx →
      ((∀ i, isConfigBar h dev i = false) →
        ∃ d, DeviceInit h (some dev) = some (false, d)) ∧
      ((∃ i, isConfigBar h dev i = true) →
        ∃ d, DeviceInit h (some dev) = some (true, d))) := by
  have hc := configBar_cases h dev hn hrd
  refine ⟨?_, ?_, ?_⟩
  · intro i hi hbefore
    rcases hc with ⟨_, hall⟩ | ⟨k, _, hret, hk, hkb⟩
    · rw [hall i] at hi
      cases hi
    · rcases Nat.lt_trichotomy k i with hlt | heq | hgt
      · rw [hbefore k hlt] at hk
        cases hk
      · rw [hret, heq]
      · rw [hkb i hgt] at hi
        cases hi
  · constructor
    · intro hret
      rcases hc with ⟨_, hall⟩ | ⟨k, hklt, hretk, _, _⟩
      · exact hall
      · rw [hret] at hretk
        omega
    · intro hall
      rcases hc with ⟨hret, _⟩ | ⟨k, _, _, hk, _⟩
      · exact hret
      · rw [hall k] at hk
        cases hk
  · intro ctx hctx
    constructor
    · intro hall
      rcases hc with ⟨hret, _⟩ | ⟨k, _, _, hk, _⟩
      · exact ⟨some { dev with pCtx := some { ctx with dwConfigBarNum := getConfigBar h dev } },
          by simp [DeviceInit, hctx, hret]⟩
      · rw [hall k] at hk
        cases hk
    · rintro ⟨i, hi⟩
      rcases hc with ⟨_, hall⟩ | ⟨k, hklt, hret, hk, _⟩
      · rw [hall i] at hi
        cases hi
      · have hne : getConfigBar h dev ≠ 0xFFFFFFFF := by
          rw [hret]
          omega
        have hval : DeviceValidate dev = true := by
          unfold isConfigBar at hk
          cases hka : dev.pAddrDesc[k]? with
          | none => simp [hka] at hk
          | some a =>
            simp only [hka, barMatches, Bool.and_eq_true] at hk
            unfold DeviceValidate
            rw [List.any_eq_true]
            exact ⟨a, List.getElem?_mem hka, hk.1.1.1⟩
        exact ⟨some { dev with pCtx := some (EnginesCreate h
            { ctx with dwConfigBarNum := getConfigBar h dev }) },
          by simp [DeviceInit, hctx, hne, hval]⟩

theorem sampleBarHost_reads (bar off : Nat) :
    (sampleBarHost.readAddr32 bar off).1 = WDStatus.WD_STATUS_SUCCESS := by
  simp only [sampleBarHost, sampleHost]
  split_ifs <;> rfl

theorem C21_config_bar_discovery_witness :
    getConfigBar sampleBarHost sampleDevice = 2 ∧
    (∃ d, DeviceInit sampleBarHost (some sampleDevice) = some (true, d)) ∧
    (getConfigBar sampleHost sampleDevice = 0xFFFFFFFF ↔
      ∀ i, isConfigBar sampleHost sampleDevice i = false) :=
  ⟨(C21_config_bar_discovery sampleBarHost sampleDevice (by decide) sampleBarHost_reads).1 2
      (by decide) (by decide),
   ((C21_config_bar_discovery sampleBarHost sampleDevice (by decide) sampleBarHost_reads).2.2
      (zeroCtx 0) rfl).2 ⟨2, by decide⟩,
   (C21_config_bar_discovery sampleHost sampleDevice (by decide)
      (fun _ _ => rfl)).2.1⟩

/-! ## Interrupt demultiplexer -/

theorem errLogs_append (a b : List IntEvent) :
    errLogs (a ++ b) = errLogs a ++ errLogs b := by
  simp [errLogs, List.filterMap_append]

theorem handleEngine_eq (h : HostService) (dev : WDC_DEVICE) (ctx : XDMA_DEV_CTX) (f : Nat)
    (i : Nat) (s : XDMA_DMA_STRUCT) (w : Nat)
    (hctx : dev.pCtx = some ctx) (hf : ctx.funcDiagIntHandler = some f)
    (hdev : s.hDev = true) :
    HandleEngineInterrupt h dev i s w =
      some ((if !s.fToDevice then [IntEvent.dmaSyncIo s.pDma] else []) ++
        [ IntEvent.host (HostEvent.readAddr32 ctx.dwConfigBarNum
            (XDMA_CHANNEL_OFFSET s.dwChannel
              (if s.fToDevice then XDMA_H2C_CHANNEL_STATUS_RC_OFFSET
               else XDMA_C2H_CHANNEL_STATUS_RC_OFFSET))),
          IntEvent.host (HostEvent.writeAddr32
            ⟨ctx.dwConfigBarNum, ctrlOffset s.dwChannel s.fToDevice,
              XDMA_DmaTransferStop.val s⟩),
          IntEvent.host (HostEvent.readAddr32 ctx.dwConfigBarNum
            (XDMA_CHANNEL_OFFSET s.dwChannel
              (if s.fToDevice then XDMA_H2C_CHANNEL_COMPLETED_DESC_COUNT_OFFSET
               else XDMA_C2H_CHANNEL_COMPLETED_DESC_COUNT_OFFSET))),
          IntEvent.handler f
            { dwCounter := dev.Int.dwCounter,
              dwLost := dev.Int.dwLost,
              waitResult := dev.Int.fStopped,
              fIsMessageBased :=
                decide (dev.Int.dwEnabledIntType = INTERRUPT_MESSAGE ∨
                  dev.Int.dwEnabledIntType = INTERRUPT_MESSAGE_X),
              dwLastMessage := dev.Int.dwLastMessage,
              u32DmaStatus := (h.readAddr32 ctx.dwConfigBarNum
                (XDMA_CHANNEL_OFFSET s.dwChannel
                  (if s.fToDevice then XDMA_H2C_CHANNEL_STATUS_RC_OFFSET
                   else XDMA_C2H_CHANNEL_STATUS_RC_OFFSET))).2,
              u32IntStatus := w,
              hDma := HandleVal.slot i,
              pData := s.pData } ]) := by
  simp [HandleEngineInterrupt, hctx, hf, hdev, XDMA_EngineStatusRead, XDMA_DmaTransferStop,
    EngineCtrlRegisterSet, ctrlOffset]

theorem stop_val_run_clear (s : XDMA_DMA_STRUCT) :
    XDMA_DmaTransferStop.val s &&& XDMA_CTRL_RUN_STOP = 0 := by
  unfold XDMA_DmaTransferStop.val
  cases s.fPolling <;> cases s.fStreaming <;> cases s.fToDevice <;> decide

/-- C23: for every engine slot `i` the loop of `XDMA_IntHandler` dispatches
(mask intersecting the latched word `w`, enabled flag set), the turn of the
loop writes the control register of the engine with the RUN bit clear before
it calls the handler, the call of the handler is the last thing it does, and
the interrupt result passed has `hDma` pointing to slot `i`, `u32IntStatus`
equal to `w`, `u32DmaStatus` equal to the value read from the read-clear
status register of the engine, and `pData` equal to the completion context of
the session. -/
theorem C23_interrupt_result (h : HostService) (dev : WDC_DEVICE) (ctx : XDMA_DEV_CTX)
    (f i w : Nat) (s : XDMA_DMA_STRUCT)
    (hctx : dev.pCtx = some ctx) (hf : ctx.funcDiagIntHandler = some f)
    (hs : ctx.pEnginesArr[i]? = some s)
    (hd : dispatched ctx w i = true) (hdev : s.hDev = true) :
    ∃ pre r, XDMA_IntHandler.body h dev ctx w i =
        some (pre ++
          [ IntEvent.host (HostEvent.writeAddr32
              ⟨ctx.dwConfigBarNum, ctrlOffset s.dwChannel s.fToDevice,
                XDMA_DmaTransferStop.val s⟩),
            IntEvent.host (HostEvent.readAddr32 ctx.dwConfigBarNum
              (XDMA_CHANNEL_OFFSET s.dwChannel
                (if s.fToDevice then XDMA_H2C_CHANNEL_COMPLETED_DESC_COUNT_OFFSET
                 else XDMA_C2H_CHANNEL_COMPLETED_DESC_COUNT_OFFSET))),
            IntEvent.handler f r ]) ∧
      XDMA_DmaTransferStop.val s &&& XDMA_CTRL_RUN_STOP = 0 ∧
      handlerCalls pre = [] ∧
      IntEvent.host (HostEvent.readAddr32 ctx.dwConfigBarNum
        (XDMA_CHANNEL_OFFSET s.dwChannel
          (if s.fToDevice then XDMA_H2C_CHANNEL_STATUS_RC_OFFSET
           else XDMA_C2H_CHANNEL_STATUS_RC_OFFSET))) ∈ pre ∧
      r.hDma = HandleVal.slot i ∧
      r.u32IntStatus = w ∧
      r.u32DmaStatus = (h.readAddr32 ctx.dwConfigBarNum
        (XDMA_CHANNEL_OFFSET s.dwChannel
          (if s.fToDevice then XDMA_H2C_CHANNEL_STATUS_RC_OFFSET
           else XDMA_C2H_CHANNEL_STATUS_RC_OFFSET))).2 ∧
      r.pData = s.pData := by
  have hm : slotMask ctx i = s.u32IrqBitMask := by simp [slotMask, hs]
  have he : slotEnabled ctx i = s.fIsEnabled := by simp [slotEnabled, hs]
  simp only [dispatched, hm, he, Bool.and_eq_true, decide_eq_true_eq] at hd
  refine ⟨(if !s.fToDevice then [IntEvent.dmaSyncIo s.pDma] else []) ++
      [ IntEvent.host (HostEvent.readAddr32 ctx.dwConfigBarNum
          (XDMA_CHANNEL_OFFSET s.dwChannel
            (if s.fToDevice then XDMA_H2C_CHANNEL_STATUS_RC_OFFSET
             else XDMA_C2H_CHANNEL_STATUS_RC_OFFSET))) ],
    { dwCounter := dev.Int.dwCounter,
      dwLost := dev.Int.dwLost,
      waitResult := dev.Int.fStopped,
      fIsMessageBased :=
        decide (dev.Int.dwEnabledIntType = INTERRUPT_MESSAGE ∨
          dev.Int.dwEnabledIntType = INTERRUPT_MESSAGE_X),
      dwLastMessage := dev.Int.dwLastMessage,
      u32DmaStatus := (h.readAddr32 ctx.dwConfigBarNum
        (XDMA_CHANNEL_OFFSET s.dwChannel
          (if s.fToDevice then XDMA_H2C_CHANNEL_STATUS_RC_OFFSET
           else XDMA_C2H_CHANNEL_STATUS_RC_OFFSET))).2,
      u32IntStatus := w,
      hDma := HandleVal.slot i,
      pData := s.pData }, ?_, stop_val_run_clear s, ?_, ?_, rfl, rfl, rfl, rfl⟩
  · unfold XDMA_IntHandler.body
    rw [hs]
    simp only []
    rw [if_pos hd.1, if_pos hd.2, handleEngine_eq h dev ctx f i s w hctx hf hdev]
    simp
  · cases s.fToDevice <;> simp [handlerCalls]
  · simp

theorem C23_interrupt_result_witness :
    ∃ pre r, XDMA_IntHandler.body sampleHost sampleIntDevice sampleIntCtx 0x41 6 =
        some (pre ++
          [ IntEvent.host (HostEvent.writeAddr32 ⟨0, 0x1204, 0x00F83E5E⟩),
            IntEvent.host (HostEvent.readAddr32 0 0x1248),
            IntEvent.handler 7 r ]) ∧
      0x00F83E5E &&& XDMA_CTRL_RUN_STOP = 0 ∧
      handlerCalls pre = [] ∧
      IntEvent.host (HostEvent.readAddr32 0 0x1244) ∈ pre ∧
      r.hDma = HandleVal.slot 6 ∧
      r.u32IntStatus = 0x41 ∧
      r.u32DmaStatus = (sampleHost.readAddr32 0 0x1244).2 ∧
      r.pData = 0x5555 :=
  C23_interrupt_result sampleHost sampleIntDevice sampleIntCtx 7 6 0x41
    { sampleSessionInt with u32IrqBitMask := 0x40, fIsInitialized := true, pData := 0x5555 }
    rfl rfl (by decide) (by decide) rfl

/-! ## Disabled slots carry no IRQ bit -/

theorem maskInv_slot (ctx : XDMA_DEV_CTX) (hinv : maskInv ctx = true) (i : Nat)
    (s : XDMA_DMA_STRUCT) (hs : ctx.pEnginesArr[i]? = some s) (hen : s.fIsEnabled = false) :
    s.u32IrqBitMask = 0 := by
  unfold maskInv at hinv
  rw [List.all_eq_true] at hinv
  have := hinv s (List.getElem?_mem hs)
  simpa [hen] using this

theorem maskInv_set (ctx : XDMA_DEV_CTX) (hinv : maskInv ctx = true) (idx : Nat)
    (s0 s1 : XDMA_DMA_STRUCT) (hs : ctx.pEnginesArr[idx]? = some s0)
    (he : s1.fIsEnabled = s0.fIsEnabled) (hm : s1.u32IrqBitMask = s0.u32IrqBitMask) :
    maskInv { ctx with pEnginesArr := ctx.pEnginesArr.set idx s1 } = true := by
  unfold maskInv at hinv ⊢
  rw [List.all_eq_true] at hinv ⊢
  intro x hx
  rcases List.mem_or_eq_of_mem_set hx with hmem | heq
  · exact hinv x hmem
  · subst heq
    rw [he, hm]
    exact hinv s0 (List.getElem?_mem hs)

theorem maskInv_created (h : HostService) (bar : Nat) :
    maskInv (EnginesCreate h (zeroCtx bar)) = true := by
  unfold maskInv
  rw [List.all_eq_true]
  intro x hx
  obtain ⟨i, hi, hget⟩ := List.getElem_of_mem hx
  have hi8 : i < XDMA_CHANNELS_NUM * 2 := by
    rw [create_length] at hi
    exact hi
  have hsome : (EnginesCreate h (zeroCtx bar)).pEnginesArr[i]? = some x := by
    rw [List.getElem?_eq_getElem hi, hget]
  rw [create_slot h bar i hi8] at hsome
  have hx : x = createdSlot h bar (XDMA_CHANNELS_NUM * 2) i := (Option.some.inj hsome).symm
  subst hx
  unfold createdSlot
  split_ifs <;> simp [zeroSlot]

theorem wb_flags (h : HostService) (bar : Nat) (s s1 : XDMA_DMA_STRUCT) (st : WDStatus)
    (t : List HostEvent) (hr : ConfigureWriteBackAddress h bar s = some (st, s1, t)) :
    s1.fIsEnabled = s.fIsEnabled ∧ s1.u32IrqBitMask = s.u32IrqBitMask := by
  unfold ConfigureWriteBackAddress at hr
  simp only [] at hr
  by_cases hc : (h.contigBufLock false sizeof_XDMA_DMA_POLL_WB).1 ≠ WDStatus.WD_STATUS_SUCCESS
  · rw [if_pos hc] at hr
    simp only [Option.some.injEq, Prod.mk.injEq] at hr
    obtain ⟨_, rfl, _⟩ := hr
    exact ⟨rfl, rfl⟩
  · rw [if_neg hc] at hr
    split at hr
    · cases hr
    · simp only [Option.some.injEq, Prod.mk.injEq] at hr
      obtain ⟨_, rfl, _⟩ := hr
      exact ⟨rfl, rfl⟩

theorem buildDesc_flags (h : HostService) (s s1 : XDMA_DMA_STRUCT) (f : Bool) (st : WDStatus)
    (t : List HostEvent) (hr : DmaBuildDescBuffer h s f = some (st, s1, t)) :
    s1.fIsEnabled = s.fIsEnabled ∧ s1.u32IrqBitMask = s.u32IrqBitMask := by
  unfold DmaBuildDescBuffer at hr
  simp only [] at hr
  split at hr
  · cases hr
  · split_ifs at hr <;>
      simp only [Option.some.injEq, Prod.mk.injEq] at hr <;>
      obtain ⟨_, rfl, _⟩ := hr <;> exact ⟨rfl, rfl⟩

theorem transferBuild_flags (bar : Nat) (s s1 : XDMA_DMA_STRUCT) (w : List RegWrite)
    (hr : DmaTransferBuild bar s = some (s1, w)) :
    s1.fIsEnabled = s.fIsEnabled ∧ s1.u32IrqBitMask = s.u32IrqBitMask := by
  unfold DmaTransferBuild at hr
  split at hr
  · split at hr
    · cases hr
    · simp only [] at hr
      split at hr
      · cases hr
      · split at hr
        · cases hr
        · simp only [Option.some.injEq, Prod.mk.injEq] at hr
          obtain ⟨rfl, _⟩ := hr
          exact ⟨rfl, rfl⟩
  · cases hr

theorem configureDesc_flags (h : HostService) (bar : Nat) (s s1 : XDMA_DMA_STRUCT)
    (st : WDStatus) (t : List HostEvent)
    (hr : ConfigureDmaDesc h bar s = some (st, s1, t)) :
    s1.fIsEnabled = s.fIsEnabled ∧ s1.u32IrqBitMask = s.u32IrqBitMask := by
  unfold ConfigureDmaDesc at hr
  cases hb : DmaBuildDescBuffer h s false with
  | none => simp [hb] at hr
  | some r =>
    obtain ⟨st0, s0, t0⟩ := r
    have hf0 := buildDesc_flags h s s0 false st0 t0 hb
    simp only [hb] at hr
    split_ifs at hr
    · simp only [Option.some.injEq, Prod.mk.injEq] at hr
      obtain ⟨_, rfl, _⟩ := hr
      exact hf0
    · cases hd : DmaTransferBuild bar s0 with
      | none => simp [hd] at hr
      | some r2 =>
        obtain ⟨s2, w⟩ := r2
        have hf2 := transferBuild_flags bar s0 s2 w hd
        simp only [hd, Option.some.injEq, Prod.mk.injEq] at hr
        obtain ⟨_, rfl, _⟩ := hr
        exact ⟨hf2.1.trans hf0.1, hf2.2.trans hf0.2⟩

theorem fail_maskInv (ctx : XDMA_DEV_CTX) (hinv : maskInv ctx = true) (idx : Nat)
    (slot s : XDMA_DMA_STRUCT) (hslot : ctx.pEnginesArr[idx]? = some slot)
    (hfl : s.fIsEnabled = slot.fIsEnabled ∧ s.u32IrqBitMask = slot.u32IrqBitMask)
    (st : WDStatus) (ph : Option HandleVal) (t : List HostEvent) :
    maskInv (XDMA_DmaOpen.fail ctx idx s st ph t).ctx = true :=
  maskInv_set ctx hinv idx slot _ hslot hfl.1 hfl.2

theorem configure_maskInv (h : HostService) (ctx : XDMA_DEV_CTX) (hinv : maskInv ctx = true)
    (idx : Nat) (slot s : XDMA_DMA_STRUCT) (hslot : ctx.pEnginesArr[idx]? = some slot)
    (hfl : s.fIsEnabled = slot.fIsEnabled ∧ s.u32IrqBitMask = slot.u32IrqBitMask)
    (fPolling fIsTransaction : Bool) (t : List HostEvent) (r : OpenResult)
    (hr : XDMA_DmaOpen.configure h ctx idx s fPolling fIsTransaction t = some r) :
    maskInv r.ctx = true := by
  unfold XDMA_DmaOpen.configure at hr
  simp only [] at hr
  by_cases hc : (CheckAlignment h ctx.dwConfigBarNum s).1 ≠ WDStatus.WD_STATUS_SUCCESS
  · rw [if_pos hc] at hr
    cases hr
    exact fail_maskInv ctx hinv idx slot s hslot hfl _ _ _
  · rw [if_neg hc] at hr
    have hwb : ∀ st1 s1 t1,
        (if fPolling = true then ConfigureWriteBackAddress h ctx.dwConfigBarNum s
         else some (WDStatus.WD_STATUS_SUCCESS, s, [])) = some (st1, s1, t1) →
        s1.fIsEnabled = slot.fIsEnabled ∧ s1.u32IrqBitMask = slot.u32IrqBitMask := by
      intro st1 s1 t1 hw
      cases fPolling
      · simp only [Bool.false_eq_true, if_false, Option.some.injEq, Prod.mk.injEq] at hw
        obtain ⟨_, rfl, _⟩ := hw
        exact hfl
      · simp only [if_true] at hw
        have := wb_flags h _ s s1 st1 t1 hw
        exact ⟨this.1.trans hfl.1, this.2.trans hfl.2⟩
    cases hw : (if fPolling = true then ConfigureWriteBackAddress h ctx.dwConfigBarNum s
         else some (WDStatus.WD_STATUS_SUCCESS, s, [])) with
    | none => simp [hw] at hr
    | some w =>
      obtain ⟨st1, s1, t1⟩ := w
      have hfl1 := hwb st1 s1 t1 hw
      simp only [hw] at hr
      by_cases h1 : st1 ≠ WDStatus.WD_STATUS_SUCCESS
      · rw [if_pos h1] at hr
        cases hr
        exact fail_maskInv ctx hinv idx slot s1 hslot hfl1 _ _ _
      · rw [if_neg h1] at hr
        have hds : ∀ st2 s2 t2,
            (if fIsTransaction = true then DmaBuildDescBuffer h s1 true
             else ConfigureDmaDesc h ctx.dwConfigBarNum s1) = some (st2, s2, t2) →
            s2.fIsEnabled = slot.fIsEnabled ∧ s2.u32IrqBitMask = slot.u32IrqBitMask := by
          intro st2 s2 t2 hd
          cases fIsTransaction
          · simp only [Bool.false_eq_true, if_false] at hd
            have := configureDesc_flags h _ s1 s2 st2 t2 hd
            exact ⟨this.1.trans hfl1.1, this.2.trans hfl1.2⟩
          · simp only [if_true] at hd
            have := buildDesc_flags h s1 s2 true st2 t2 hd
            exact ⟨this.1.trans hfl1.1, this.2.trans hfl1.2⟩
        cases hd : (if fIsTransaction = true then DmaBuildDescBuffer h s1 true
             else ConfigureDmaDesc h ctx.dwConfigBarNum s1) with
        | none => simp [hd] at hr
        | some d =>
          obtain ⟨st2, s2, t2⟩ := d
          have hfl2 := hds st2 s2 t2 hd
          simp only [hd] at hr
          by_cases h2 : st2 ≠ WDStatus.WD_STATUS_SUCCESS
          · rw [if_pos h2] at hr
            cases hr
            exact fail_maskInv ctx hinv idx slot s2 hslot hfl2 _ _ _
          · rw [if_neg h2] at hr
            cases hr
            exact maskInv_set ctx hinv idx slot _ hslot hfl2.1 hfl2.2

theorem open_maskInv (h : HostService) (ctx : XDMA_DEV_CTX) (hinv : maskInv ctx = true)
    (phDma : Option HandleVal) (dwBytes u64FPGAOffset : Nat) (fToDevice : Bool)
    (dwChannel : Nat) (fPolling fNonIncMode : Bool) (pData : Nat) (fIsTransaction : Bool)
    (r : OpenResult)
    (hr : XDMA_DmaOpen h ctx phDma dwBytes u64FPGAOffset fToDevice dwChannel fPolling
      fNonIncMode pData fIsTransaction = some r) :
    maskInv r.ctx = true := by
  unfold XDMA_DmaOpen at hr
  cases phDma with
  | none =>
    simp only [Option.some.injEq] at hr
    subst hr
    exact hinv
  | some o =>
    simp only [] at hr
    by_cases hv : (ValidateTransferParams h ctx.dwConfigBarNum fToDevice dwChannel).1 ≠
        WDStatus.WD_STATUS_SUCCESS
    · rw [if_pos hv] at hr
      cases hr
      exact hinv
    · rw [if_neg hv] at hr
      cases hslot : ctx.pEnginesArr[ENGINE_IDX dwChannel fToDevice]? with
      | none => simp [hslot] at hr
      | some slot =>
        simp only [hslot] at hr
        by_cases hen : (!slot.fIsEnabled) = true
        · rw [if_pos hen] at hr
          cases hr
          exact hinv
        · rw [if_neg hen] at hr
          by_cases hin : slot.fIsInitialized = true
          · rw [if_pos hin] at hr
            cases hr
            exact hinv
          · rw [if_neg hin] at hr
            by_cases hl : (LockDmaBuffer h fToDevice slot.pDma dwBytes fIsTransaction).1 ≠
                WDStatus.WD_STATUS_SUCCESS
            · rw [if_pos hl] at hr
              cases hr
              apply fail_maskInv ctx hinv _ slot _ hslot
              exact ⟨rfl, rfl⟩
            · rw [if_neg hl] at hr
              refine configure_maskInv h ctx hinv _ slot _ hslot ?_ _ _ _ r hr
              exact ⟨rfl, rfl⟩

theorem close_maskInv (h : HostService) (ctx : XDMA_DEV_CTX) (hinv : maskInv ctx = true)
    (i : Nat) (st : WDStatus) (ctx1 : XDMA_DEV_CTX) (t : List HostEvent)
    (hr : XDMA_DmaClose h ctx i = some (st, ctx1, t)) :
    maskInv ctx1 = true := by
  unfold XDMA_DmaClose at hr
  cases hs : ctx.pEnginesArr[i]? with
  | none => simp [hs] at hr
  | some s =>
    simp only [hs] at hr
    cases hs1 : ctx.pEnginesArr[ENGINE_IDX s.dwChannel s.fToDevice]? with
    | none => simp [hs1] at hr
    | some s1 =>
      simp only [hs1, Option.some.injEq, Prod.mk.injEq] at hr
      obtain ⟨_, rfl, _⟩ := hr
      exact maskInv_set ctx hinv _ s1 _ hs1 rfl rfl

theorem handleEngine_errLogs (h : HostService) (dev : WDC_DEVICE) (i : Nat)
    (s : XDMA_DMA_STRUCT) (w : Nat) (t : List IntEvent)
    (hr : HandleEngineInterrupt h dev i s w = some t) : errLogs t = [] := by
  unfold HandleEngineInterrupt at hr
  by_cases hd : (!s.hDev) = true
  · rw [if_pos hd] at hr
    cases hr
  · rw [if_neg hd] at hr
    cases hctx : dev.pCtx with
    | none => simp [hctx] at hr
    | some ctx =>
      simp only [hctx] at hr
      cases hf : ctx.funcDiagIntHandler with
      | none => simp [hf] at hr
      | some f =>
        simp only [hf, Option.some.injEq] at hr
        subst hr
        cases s.fToDevice <;>
          simp [errLogs, XDMA_EngineStatusRead, XDMA_DmaTransferStop, EngineCtrlRegisterSet]

theorem intHandler_body_errLogs (h : HostService) (dev : WDC_DEVICE) (ctx : XDMA_DEV_CTX)
    (w i : Nat) (t : List IntEvent)
    (hr : XDMA_IntHandler.body h dev ctx w i = some t) :
    errLogs t = if phantom ctx w i then [i] else [] := by
  unfold XDMA_IntHandler.body at hr
  cases hs : ctx.pEnginesArr[i]? with
  | none => simp [hs] at hr
  | some s =>
    have hm : slotMask ctx i = s.u32IrqBitMask := by simp [slotMask, hs]
    have he : slotEnabled ctx i = s.fIsEnabled := by simp [slotEnabled, hs]
    simp only [hs] at hr
    simp only [phantom, hm, he]
    by_cases hw : w &&& s.u32IrqBitMask ≠ 0
    · rw [if_pos hw] at hr
      cases hen : s.fIsEnabled
      · simp only [hen, Bool.false_eq_true, if_false, Option.some.injEq] at hr
        subst hr
        simp [errLogs, hw]
      · simp only [hen, if_true] at hr
        rw [handleEngine_errLogs h dev i s w t hr]
        simp
    · rw [if_neg hw] at hr
      cases hr
      simp [errLogs, hw]

theorem intHandler_loop_errLogs (h : HostService) (dev : WDC_DEVICE) (ctx : XDMA_DEV_CTX)
    (w : Nat) :
    ∀ (l : List Nat) (t : List IntEvent),
      XDMA_IntHandler.loop h dev ctx w l = some t → errLogs t = l.filter (phantom ctx w) := by
  intro l
  induction l with
  | nil =>
    intro t hr
    simp only [XDMA_IntHandler.loop, Option.some.injEq] at hr
    subst hr
    rfl
  | cons i rest ih =>
    intro t hr
    unfold XDMA_IntHandler.loop at hr
    cases hb : XDMA_IntHandler.body h dev ctx w i with
    | none => simp [hb] at hr
    | some tb =>
      cases hl : XDMA_IntHandler.loop h dev ctx w rest with
      | none => simp [hb, hl] at hr
      | some ts =>
        simp only [hb, hl, Option.some.injEq] at hr
        subst hr
        rw [errLogs_append, intHandler_body_errLogs h dev ctx w i tb hb, ih ts hl]
        cases hp : phantom ctx w i <;> simp [List.filter, hp]

theorem phantom_false (ctx : XDMA_DEV_CTX) (hinv : maskInv ctx = true) (w i : Nat) :
    phantom ctx w i = false := by
  unfold phantom slotMask slotEnabled
  cases hs : ctx.pEnginesArr[i]? with
  | none => simp
  | some s =>
    cases hen : s.fIsEnabled
    · have := maskInv_slot ctx hinv i s hs hen
      simp [this]
    · simp [hen]

/-- C28: after `EnginesCreate` on a zeroed device context every slot that is
not enabled has IRQ bit mask 0; this property is kept by `XDMA_DmaOpen` and by
`XDMA_DmaClose`, the functions that write to engine slots afterwards; and in a
device context with this property, for every latched IRQ-request word `w` no
slot satisfies the test of the branch of `XDMA_IntHandler` that logs a
disabled engine (mask intersecting `w`, enabled flag clear), so that no run of
`XDMA_IntHandler` logs one. -/
theorem C28_no_phantom_interrupt (h : HostService) :
    (∀ bar, maskInv (EnginesCreate h (zeroCtx bar)) = true) ∧
    (∀ (bar i : Nat) (s : XDMA_DMA_STRUCT),
      (EnginesCreate h (zeroCtx bar)).pEnginesArr[i]? = some s →
      s.fIsEnabled = false → s.u32IrqBitMask = 0) ∧
    (∀ ctx phDma dwBytes u64FPGAOffset fToDevice dwChannel fPolling fNonIncMode pData
        fIsTransaction r, maskInv ctx = true →
      XDMA_DmaOpen h ctx phDma dwBytes u64FPGAOffset fToDevice dwChannel fPolling
        fNonIncMode pData fIsTransaction = some r → maskInv r.ctx = true) ∧
    (∀ (ctx : XDMA_DEV_CTX) (i : Nat) st ctx1 t, maskInv ctx = true →
      XDMA_DmaClose h ctx i = some (st, ctx1, t) → maskInv ctx1 = true) ∧
    (∀ (ctx : XDMA_DEV_CTX) (w i : Nat), maskInv ctx = true → phantom ctx w i = false) ∧
    (∀ dev ctx t, dev.pCtx = some ctx → maskInv ctx = true →
      XDMA_IntHandler h dev = some t → errLogs t = []) := by
  refine ⟨fun bar => maskInv_created h bar,
    fun bar i s hs hen => maskInv_slot _ (maskInv_created h bar) i s hs hen,
    fun ctx phDma dwBytes u64FPGAOffset fToDevice dwChannel fPolling fNonIncMode pData
      fIsTransaction r hinv hr => open_maskInv h ctx hinv phDma dwBytes u64FPGAOffset
        fToDevice dwChannel fPolling fNonIncMode pData fIsTransaction r hr,
    fun ctx i st ctx1 t hinv hr => close_maskInv h ctx hinv i st ctx1 t hr,
    fun ctx w i hinv => phantom_false ctx hinv w i, ?_⟩
  intro dev ctx t hctx hinv hr
  unfold XDMA_IntHandler at hr
  simp only [hctx] at hr
  split at hr
  · rename_i t0 rest htr
    cases hl : XDMA_IntHandler.loop h dev ctx t0.Dword (List.range (XDMA_CHANNELS_NUM * 2)) with
    | none => simp [hl] at hr
    | some ts =>
      simp only [hl, Option.some.injEq] at hr
      subst hr
      rw [errLogs_append, intHandler_loop_errLogs h dev ctx t0.Dword _ ts hl]
      simp [errLogs, XDMA_ChannelInterruptsDisable, phantom_false ctx hinv]
  · cases hr

theorem C28_no_phantom_interrupt_witness :
    (EnginesCreate h2cOnlyHost (zeroCtx 0)).pEnginesArr[5]? = some zeroSlot ∧
    zeroSlot.fIsEnabled = false ∧ zeroSlot.u32IrqBitMask = 0 ∧
    phantom (EnginesCreate h2cOnlyHost (zeroCtx 0)) 0xFF 5 = false :=
  ⟨by decide, rfl,
   (C28_no_phantom_interrupt h2cOnlyHost).2.1 0 5 zeroSlot (by decide) rfl,
   (C28_no_phantom_interrupt h2cOnlyHost).2.2.2.2.1 (EnginesCreate h2cOnlyHost (zeroCtx 0))
     0xFF 5 (by decide)⟩

/-! ## Interrupt enable and disable -/

/-- C24: `XDMA_IntEnable` on a device whose interrupts are already enabled
returns `WD_OPERATION_ALREADY_DONE`, leaves the device with its context (stored
handler, transfer commands) as it was and calls nothing, so it writes no
register; `XDMA_IntDisable` on a device whose interrupts are not enabled
returns `WD_OPERATION_ALREADY_DONE`, leaves the device as it was and calls
nothing, so it writes no register and frees nothing; both return
`WD_INVALID_PARAMETER`, having done nothing, for a `NULL` device handle and for
a device whose context is `NULL`. -/
theorem C24_int_enable_disable_guards (h : HostService) (k : IntService) :
    (∀ (dev : WDC_DEVICE) (ctx : XDMA_DEV_CTX) (f : Option Nat),
      dev.pCtx = some ctx → dev.Int.fEnabled = true →
      XDMA_IntEnable k (some dev) f =
        some (WDStatus.WD_OPERATION_ALREADY_DONE, some dev, [])) ∧
    (∀ (dev : WDC_DEVICE) (ctx : XDMA_DEV_CTX),
      dev.pCtx = some ctx → dev.Int.fEnabled = false →
      XDMA_IntDisable h k (some dev) = (WDStatus.WD_OPERATION_ALREADY_DONE, some dev, [])) ∧
    (∀ f, XDMA_IntEnable k none f = some (WDStatus.WD_INVALID_PARAMETER, none, [])) ∧
    (∀ (dev : WDC_DEVICE) (f : Option Nat), dev.pCtx = none →
      XDMA_IntEnable k (some dev) f = some (WDStatus.WD_INVALID_PARAMETER, some dev, [])) ∧
    XDMA_IntDisable h k none = (WDStatus.WD_INVALID_PARAMETER, none, []) ∧
    (∀ (dev : WDC_DEVICE), dev.pCtx = none →
      XDMA_IntDisable h k (some dev) = (WDStatus.WD_INVALID_PARAMETER, some dev, [])) := by
  refine ⟨?_, ?_, fun _ => rfl, ?_, rfl, ?_⟩
  · intro dev ctx f hctx hen
    simp [XDMA_IntEnable, hctx, hen]
  · intro dev ctx hctx hen
    simp [XDMA_IntDisable, hctx, hen]
  · intro dev f hctx
    simp [XDMA_IntEnable, hctx]
  · intro dev hctx
    simp [XDMA_IntDisable, hctx]

theorem C24_int_enable_disable_guards_witness :
    XDMA_IntEnable msiService (some sampleIntDevice) (some 9) =
      some (WDStatus.WD_OPERATION_ALREADY_DONE, some sampleIntDevice, []) ∧
    XDMA_IntDisable sampleHost msiService (some sampleIdleDevice) =
      (WDStatus.WD_OPERATION_ALREADY_DONE, some sampleIdleDevice, []) ∧
    XDMA_IntEnable msiService (some { sampleIdleDevice with pCtx := none }) (some 9) =
      some (WDStatus.WD_INVALID_PARAMETER, some { sampleIdleDevice with pCtx := none }, []) :=
  ⟨(C24_int_enable_disable_guards sampleHost msiService).1 sampleIntDevice sampleIntCtx
      (some 9) rfl rfl,
   (C24_int_enable_disable_guards sampleHost msiService).2.1 sampleIdleDevice
      (EnginesCreate sampleHost (zeroCtx 2)) rfl rfl,
   (C24_int_enable_disable_guards sampleHost msiService).2.2.2.1
      { sampleIdleDevice with pCtx := none } (some 9) rfl⟩

/-- C26 fails on the code: on the idle sample device, when the host service
enables a level-sensitive interrupt and the read of the interrupt pin then
fails with status `0x20000015`, `XDMA_IntEnable` disables the interrupts again
and returns the status of that `WDC_IntDisable`, which is success; it has not
freed the transfer commands, which the device context still points to. -/
theorem C26_int_enable_success_after_failure :
    pinFailService.intEnable = (WDStatus.WD_STATUS_SUCCESS, INTERRUPT_LEVEL_SENSITIVE) ∧
    pinFailService.pciReadCfg8.1 = WDStatus.other 0x20000015 ∧
    sampleIdleDevice.Int.fEnabled = false ∧
    (XDMA_IntEnable pinFailService (some sampleIdleDevice) (some 9)).map (fun r => r.1) =
      some WDStatus.WD_STATUS_SUCCESS ∧
    (XDMA_IntEnable pinFailService (some sampleIdleDevice) (some 9)).map
      (fun r => r.2.1.map (fun d => d.Int.fEnabled)) = some (some false) ∧
    (XDMA_IntEnable pinFailService (some sampleIdleDevice) (some 9)).map (fun r => r.2.2) =
      some [ IntEvent.calloc 1, IntEvent.intEnable [⟨0xC0002044, 52, 0⟩] 1,
        IntEvent.pciReadCfg8 0x3D, IntEvent.intDisable ] ∧
    (XDMA_IntEnable pinFailService (some sampleIdleDevice) (some 9)).map
      (fun r => r.2.1.map (fun d => d.pCtx.map XDMA_DEV_CTX.pTrans)) =
      some (some (some (some [⟨0xC0002044, 52, 0⟩]))) := by
  decide

theorem intEnable_success (k : IntService) (dev : WDC_DEVICE) (ctx : XDMA_DEV_CTX)
    (a : WDC_ADDR_DESC) (f : Option Nat)
    (hctx : dev.pCtx = some ctx) (hidle : dev.Int.fEnabled = false)
    (hbar : dev.pAddrDesc[ctx.dwConfigBarNum]? = some a)
    (hcal : k.calloc = true) (hen : k.intEnable.1 = WDStatus.WD_STATUS_SUCCESS)
    (hpin : k.intEnable.2 = INTERRUPT_LEVEL_SENSITIVE →
      k.pciReadCfg8.1 = WDStatus.WD_STATUS_SUCCESS) :
    XDMA_IntEnable k (some dev) f =
      some (WDStatus.WD_STATUS_SUCCESS, some (enabledDevice k dev ctx a f),
        enableTrace k ctx a) := by
  by_cases hl : k.intEnable.2 = INTERRUPT_LEVEL_SENSITIVE
  · simp [XDMA_IntEnable, hctx, hidle, hbar, hcal, hen, hpin hl, hl, WDC_IntEnable,
      enabledDevice, enabledCtx, enableTrace, intTransCmd, intPinVal]
  · simp [XDMA_IntEnable, hctx, hidle, hbar, hcal, hen, hl, WDC_IntEnable,
      enabledDevice, enabledCtx, enableTrace, intTransCmd]

theorem ctrlOffset_ne_irq (c : Nat) (fd : Bool) (hc : c < 4) :
    ctrlOffset c fd ≠ XDMA_IRQ_BLOCK_CHANNEL_INT_ENABLE_MASK_W1C_OFFSET ∧
    ctrlOffset c fd ≠ XDMA_IRQ_BLOCK_USER_INT_ENABLE_MASK_W1C_OFFSET ∧
    ctrlOffset c fd ≠ XDMA_IRQ_BLOCK_CHANNEL_VECTOR_1_OFFSET ∧
    ctrlOffset c fd ≠ XDMA_IRQ_BLOCK_CHANNEL_VECTOR_2_OFFSET := by
  interval_cases c <;> cases fd <;> decide

theorem intDisable_keeps (k : IntService) (dev : WDC_DEVICE) :
    (WDC_IntDisable k dev).1 = k.intDisable ∧
    (WDC_IntDisable k dev).2.pCtx = dev.pCtx ∧
    (WDC_IntDisable k dev).2.pAddrDesc = dev.pAddrDesc ∧
    (k.intDisable = WDStatus.WD_STATUS_SUCCESS → (WDC_IntDisable k dev).2.Int.fEnabled = false) := by
  unfold WDC_IntDisable
  split_ifs with hd <;> simp [hd]

/-- C25 (as amended): for every idle device (interrupts disabled, a device
context whose configuration BAR is an address space of the device), a
successful `XDMA_IntEnable` immediately followed by `XDMA_IntDisable` writes no
engine control register, leaves the engine slots, the configuration BAR index,
the event handler and the address spaces as they were, leaves the interrupts
disabled as before when the host service disables them, and clears the
channel and user interrupt-enable masks by writing `0xFFFFFFFF` to their
write-1-to-clear registers; the stored handler and the enabled interrupt type
keep the values `XDMA_IntEnable` gave them, and the transfer commands it
allocated have been freed. -/
theorem C25_int_round_trip (h : HostService) (k : IntService) (dev : WDC_DEVICE)
    (ctx : XDMA_DEV_CTX) (a : WDC_ADDR_DESC) (f : Option Nat)
    (hctx : dev.pCtx = some ctx) (hidle : dev.Int.fEnabled = false)
    (hbar : dev.pAddrDesc[ctx.dwConfigBarNum]? = some a)
    (hcal : k.calloc = true) (hen : k.intEnable.1 = WDStatus.WD_STATUS_SUCCESS)
    (hpin : k.intEnable.2 = INTERRUPT_LEVEL_SENSITIVE →
      k.pciReadCfg8.1 = WDStatus.WD_STATUS_SUCCESS) :
    XDMA_IntEnable k (some dev) f =
      some (WDStatus.WD_STATUS_SUCCESS, some (enabledDevice k dev ctx a f),
        enableTrace k ctx a) ∧
    ∃ dev2 ctx2 t2,
      XDMA_IntDisable h k (some (enabledDevice k dev ctx a f)) = (k.intDisable, some dev2, t2) ∧
      dev2.pCtx = some ctx2 ∧
      (∀ w, w ∈ regWrites (enableTrace k ctx a ++ t2) →
        ∀ c fd, c < 4 → w.dwOffset ≠ ctrlOffset c fd) ∧
      regWrites t2 =
        [ ⟨ctx.dwConfigBarNum, XDMA_IRQ_BLOCK_CHANNEL_INT_ENABLE_MASK_W1C_OFFSET, 0xFFFFFFFF⟩,
          ⟨ctx.dwConfigBarNum, XDMA_IRQ_BLOCK_USER_INT_ENABLE_MASK_W1C_OFFSET, 0xFFFFFFFF⟩ ] ∧
      IntEvent.freeTrans [intTransCmd a] ∈ t2 ∧
      ctx2.pEnginesArr = ctx.pEnginesArr ∧
      ctx2.dwConfigBarNum = ctx.dwConfigBarNum ∧
      ctx2.funcDiagEventHandler = ctx.funcDiagEventHandler ∧
      dev2.pAddrDesc = dev.pAddrDesc ∧
      (k.intDisable = WDStatus.WD_STATUS_SUCCESS → dev2.Int.fEnabled = dev.Int.fEnabled) ∧
      ctx2.funcDiagIntHandler = f ∧
      ctx2.dwEnabledIntType = k.intEnable.2 := by
  refine ⟨intEnable_success k dev ctx a f hctx hidle hbar hcal hen hpin, ?_⟩
  obtain ⟨hk1, hk2, hk3, hk4⟩ := intDisable_keeps k (enabledDevice k dev ctx a f)
  refine ⟨(WDC_IntDisable k (enabledDevice k dev ctx a f)).2, enabledCtx k ctx a f,
    [ IntEvent.host (HostEvent.writeAddr32
        ⟨ctx.dwConfigBarNum, XDMA_IRQ_BLOCK_CHANNEL_INT_ENABLE_MASK_W1C_OFFSET, 0xFFFFFFFF⟩),
      IntEvent.host (HostEvent.writeAddr32
        ⟨ctx.dwConfigBarNum, XDMA_IRQ_BLOCK_USER_INT_ENABLE_MASK_W1C_OFFSET, 0xFFFFFFFF⟩),
      IntEvent.intDisable, IntEvent.freeTrans [intTransCmd a] ],
    ?_, ?_, ?_, ?_, ?_, rfl, rfl, rfl, ?_, ?_, rfl, rfl⟩
  · rw [← hk1]
    simp [XDMA_IntDisable, enabledDevice, enabledCtx, XDMA_ChannelInterruptsDisable,
      XDMA_UserInterruptsDisable]
  · rw [hk2]
    rfl
  · intro w hw c fd hc
    obtain ⟨h1, h2, h3, h4⟩ := ctrlOffset_ne_irq c fd hc
    by_cases hl : k.intEnable.2 = INTERRUPT_LEVEL_SENSITIVE
    · simp [regWrites, enableTrace, hl] at hw
      rcases hw with rfl | rfl | rfl | rfl
      · exact Ne.symm h3
      · exact Ne.symm h4
      · exact Ne.symm h1
      · exact Ne.symm h2
    · simp [regWrites, enableTrace, hl] at hw
      rcases hw with rfl | rfl
      · exact Ne.symm h1
      · exact Ne.symm h2
  · simp [regWrites]
  · simp
  · rw [hk3]
    rfl
  · intro hd
    rw [hk4 hd, hidle]

theorem C25_int_round_trip_witness :
    XDMA_IntEnable msiService (some sampleIdleDevice) (some 9) =
      some (WDStatus.WD_STATUS_SUCCESS,
        some (enabledDevice msiService sampleIdleDevice (EnginesCreate sampleHost (zeroCtx 2))
          ⟨true, 0x10000, 0xC0000000, true⟩ (some 9)),
        enableTrace msiService (EnginesCreate sampleHost (zeroCtx 2))
          ⟨true, 0x10000, 0xC0000000, true⟩) :=
  (C25_int_round_trip sampleHost msiService sampleIdleDevice
    (EnginesCreate sampleHost (zeroCtx 2)) ⟨true, 0x10000, 0xC0000000, true⟩ (some 9)
    rfl rfl (by decide) rfl rfl (by decide)).1

/-- C25 fails as stated: on the idle sample device (no handler stored, no
transfer commands, interrupt type 0), `XDMA_IntEnable` with handler 9 followed
by `XDMA_IntDisable`, both successful, leaves a device context that stores
handler 9, points to the transfer commands and records the interrupt type
`0x10`. -/
theorem C25_counterexample :
    sampleIdleDevice.Int.fEnabled = false ∧
    sampleIdleDevice.pCtx.map XDMA_DEV_CTX.funcDiagIntHandler = some none ∧
    sampleIdleDevice.pCtx.map XDMA_DEV_CTX.pTrans = some none ∧
    sampleIdleDevice.pCtx.map XDMA_DEV_CTX.dwEnabledIntType = some 0 ∧
    (XDMA_IntEnable msiService (some sampleIdleDevice) (some 9)).map (fun r => r.1) =
      some WDStatus.WD_STATUS_SUCCESS ∧
    ((XDMA_IntEnable msiService (some sampleIdleDevice) (some 9)).map
      (fun r => (XDMA_IntDisable sampleHost msiService r.2.1).1)) =
      some WDStatus.WD_STATUS_SUCCESS ∧
    ((XDMA_IntEnable msiService (some sampleIdleDevice) (some 9)).map
      (fun r => (XDMA_IntDisable sampleHost msiService r.2.1).2.1.map
        (fun d => d.pCtx.map XDMA_DEV_CTX.funcDiagIntHandler))) =
      some (some (some (some 9))) ∧
    ((XDMA_IntEnable msiService (some sampleIdleDevice) (some 9)).map
      (fun r => (XDMA_IntDisable sampleHost msiService r.2.1).2.1.map
        (fun d => d.pCtx.map XDMA_DEV_CTX.pTrans))) =
      some (some (some (some [⟨0xC0002044, 52, 0⟩]))) ∧
    ((XDMA_IntEnable msiService (some sampleIdleDevice) (some 9)).map
      (fun r => (XDMA_IntDisable sampleHost msiService r.2.1).2.1.map
        (fun d => d.pCtx.map XDMA_DEV_CTX.dwEnabledIntType))) =
      some (some (some 0x10)) :=
  ⟨by decide, by decide, by decide, by decide, by decide, by decide, by decide, by decide,
    by decide⟩

/-! ## Descriptor buffer of a transaction session -/

/-- C29 fails on the code: on the slot of H2C channel 0 of the sample device
after discovery, open a polling session, close it, open an interrupt-mode
session and close it; all four calls succeed.  The write-back buffer is
allocated once, by the first `XDMA_DmaOpen`, and unlocked twice, by each
`XDMA_DmaClose`: the first `XDMA_DmaClose` leaves `pWBDma` pointing to the
buffer it has unlocked, the second `XDMA_DmaOpen` does not touch it, so the
initialized interrupt-mode session holds it and the second `XDMA_DmaClose`
unlocks it again. -/
theorem C29_write_back_buffer_unlocked_twice :
    (openCloseTwice sampleHost (EnginesCreate sampleHost (zeroCtx 0))).map (fun r => r.1) =
      some [WDStatus.WD_STATUS_SUCCESS, WDStatus.WD_STATUS_SUCCESS,
        WDStatus.WD_STATUS_SUCCESS, WDStatus.WD_STATUS_SUCCESS] ∧
    (openCloseTwice sampleHost (EnginesCreate sampleHost (zeroCtx 0))).map
      (fun r => r.2.2.map (fun t => t.count (HostEvent.contigBufLock false 32))) =
      some [1, 0, 0, 0] ∧
    (sampleHost.contigBufLock false 32).2 = ⟨[⟨0xDEF000, 32⟩]⟩ ∧
    (openCloseTwice sampleHost (EnginesCreate sampleHost (zeroCtx 0))).map
      (fun r => r.2.2.map (fun t => t.count (HostEvent.bufUnlock ⟨[⟨0xDEF000, 32⟩]⟩))) =
      some [0, 1, 0, 1] ∧
    (openCloseTwice sampleHost (EnginesCreate sampleHost (zeroCtx 0))).map
      (fun r => r.2.1.map (fun s => (s.fIsInitialized, s.fPolling, s.pWBDma))) =
      some (some (true, false, some ⟨[⟨0xDEF000, 32⟩]⟩)) :=
  ⟨by decide, by decide, by decide, by decide, by decide⟩

/-! ## Status of session close -/

/-- C30 (as amended): for every open session, `XDMA_DmaClose` returns the status
of the last unlock it attempted, in the order write-back buffer, descriptor
buffer, payload buffer, and success when it attempted none; so it returns
success if and only if that last unlock succeeded, whatever an earlier unlock
returned.  In every case the initialized flag of the slot is false on
return. -/
theorem C30_close_status (h : HostService) (ctx : XDMA_DEV_CTX) (i : Nat)
    (s : XDMA_DMA_STRUCT) (hs : ctx.pEnginesArr[i]? = some s)
    (hidx : ENGINE_IDX s.dwChannel s.fToDevice = i) :
    ∃ st ctx1 t, XDMA_DmaClose h ctx i = some (st, ctx1, t) ∧
      (∀ d, s.pDma = some d → st = h.bufUnlock d) ∧
      (s.pDma = none → ∀ d, s.pDmaDesc = some d → st = h.bufUnlock d) ∧
      (s.pDma = none → s.pDmaDesc = none → ∀ d, s.pWBDma = some d → st = h.bufUnlock d) ∧
      (s.pDma = none → s.pDmaDesc = none → s.pWBDma = none →
        st = WDStatus.WD_STATUS_SUCCESS) ∧
      (ctx1.pEnginesArr[i]?).map XDMA_DMA_STRUCT.fIsInitialized = some false := by
  have hlt : i < ctx.pEnginesArr.length := (List.getElem?_eq_some.mp hs).1
  refine ⟨closeStatus h s, _, _, close_eq h ctx i s hs hidx, ?_, ?_, ?_, ?_, ?_⟩
  · intro d hd
    simp [closeStatus, hd]
  · intro h1 d hd
    simp [closeStatus, h1, hd]
  · intro h1 h2 d hd
    simp [closeStatus, h1, h2, hd]
  · intro h1 h2 h3
    simp [closeStatus, h1, h2, h3]
  · simp [List.getElem?_set_self hlt]

theorem C30_close_status_witness :
    ∃ st ctx1 t, XDMA_DmaClose unlockFailHost sampleCtxOpen 1 = some (st, ctx1, t) ∧
      (∀ d, sampleSession.pDma = some d → st = unlockFailHost.bufUnlock d) ∧
      (sampleSession.pDma = none → ∀ d, sampleSession.pDmaDesc = some d →
        st = unlockFailHost.bufUnlock d) ∧
      (sampleSession.pDma = none → sampleSession.pDmaDesc = none →
        ∀ d, sampleSession.pWBDma = some d → st = unlockFailHost.bufUnlock d) ∧
      (sampleSession.pDma = none → sampleSession.pDmaDesc = none →
        sampleSession.pWBDma = none → st = WDStatus.WD_STATUS_SUCCESS) ∧
      (ctx1.pEnginesArr[1]?).map XDMA_DMA_STRUCT.fIsInitialized = some false :=
  C30_close_status unlockFailHost sampleCtxOpen 1 { sampleSession with fIsInitialized := true }
    (by decide) (by decide)

/-- C30 fails as stated: when the unlock of the descriptor buffer of the sample
session fails with status `0x20000005` and the later unlock of the payload
buffer succeeds, `XDMA_DmaClose` returns success, having attempted the three
unlocks. -/
theorem C30_counterexample :
    unlockFailHost.bufUnlock sampleDescPin = WDStatus.other 0x20000005 ∧
    unlockFailHost.bufUnlock samplePin = WDStatus.WD_STATUS_SUCCESS ∧
    (XDMA_DmaClose unlockFailHost sampleCtxOpen 1).map (fun r => (r.1, r.2.2)) =
      some (WDStatus.WD_STATUS_SUCCESS,
        [ HostEvent.bufUnlock ⟨[⟨0xDEF000, 32⟩]⟩, HostEvent.bufUnlock sampleDescPin,
          HostEvent.bufUnlock samplePin, HostEvent.vfree 0x7f0000 ]) :=
  ⟨by decide, by decide, by decide⟩

end Xdma
